import Mathlib

/-!
ADS1292R analog front-end driver (nRF52 firmware)

Shallow embedding of `source/ads1292/ads1292r.c`, `source/ads1292/platform.c` and
`source/ads1292/bsp_afe.c`, with the parts of `source/flash/w25n01.c` and
`source/mpu9250.c` that drive the flash chip-select and the accelerometer read.

* Machine integers are `Nat`/`Int` with explicit reductions: `uint8_t` and
  `unsigned char` are reduced `% 256`, `unsigned long`/`uint32_t` `% 2^32`,
  `long` is the 32-bit two's-complement reading of a 32-bit word (ILP32, nRF52).
* The transport is an explicit state: every platform call appends one `Event`
  to `St.trace`, and what the hardware answers is read from the oracle `Env`.
* File-scope and function-scope `static` variables are fields of `St`.
-/

namespace Ads1292

/-! ## Data model -/

/-- Status codes, `base_status_t` of `bsp_hw.h`. -/
inductive base_status_t
  | BS_OK
  | BS_ERROR_PARAMS
  | BS_ERROR
deriving DecidableEq, Repr

/-- One call of a transport primitive of `platform.c`, with what it was given
and what it returned. -/
inductive Event
  | read_pin (pin : Nat) (level : Bool)
  | write_pin (pin : Nat) (enable : Bool)
  | delay (ms : Nat)
  | spi (tx rx : Nat)
deriving DecidableEq, Repr

/-- What lies outside the repository: the answers of the Nordic SDK calls and the
choices of the C implementation. -/
structure Env where
  /-- Level `nrf_gpio_pin_read` returns: argument 1 is the number of pin reads
  made before this one, argument 2 the pin. -/
  gpio_level : Nat → Nat → Bool
  /-- Whether the k-th `nrf_drv_spi_transfer` on SPI instance 1 returns `NRF_SUCCESS`. -/
  spi_success : Nat → Bool
  /-- Content of the one-byte receive buffer after the k-th `nrf_drv_spi_transfer`. -/
  spi_rx : Nat → Nat
  /-- Whether plain `char` is a signed type. -/
  char_signed : Bool
  /-- Indeterminate initial content of the automatic array `spi_rx_buf`. -/
  stack_init : Nat → Nat

/-- The sample record `ads1292_output_value_t` of `ads1292r.h`. -/
structure ads1292_output_value_t where
  daq_vals : List Int
  lead_off_detected : Bool
  result_temp_resp : Int
deriving DecidableEq, Repr

/-- Mutable state: the transport history and the `static` variables. -/
structure St where
  /-- Platform calls made so far, oldest first. -/
  trace : List Event
  /-- Number of SPI transfers made so far. -/
  n_spi : Nat
  /-- Number of pin reads made so far. -/
  n_pin : Nat
  /-- The variable `static uint8_t receive_data` of `platform_spi_transfer`. -/
  receive_data : Nat
  /-- The variable `static unsigned char ads1293_id`. -/
  ads1293_id : Nat
  /-- The variable `volatile static int spi_rx_buf_cnt`. -/
  spi_rx_buf_cnt : Nat
  /-- The array `static char spi_dummy_buf[10]`. -/
  spi_dummy_buf : List Int
  /-- Set once an array is indexed outside its bounds. -/
  mem_fault : Bool
deriving Repr

/-! ## Integer conversions -/

/-- Conversion of an `int` to `uint8_t`. -/
def to_uint8 (x : Int) : Nat := (x % 256).toNat

/-- Conversion to `unsigned long` / `uint32_t` (32 bits). -/
def to_uint32 (n : Nat) : Nat := n % 2 ^ 32

/-- Conversion of an `unsigned long` to `signed long` (32 bits, two's complement). -/
def to_long (n : Nat) : Int :=
  if n % 2 ^ 32 < 2 ^ 31 then ((n % 2 ^ 32 : Nat) : Int) else ((n % 2 ^ 32 : Nat) : Int) - 2 ^ 32

/-- Conversion of a `uint8_t` to plain `char`. -/
def to_char (env : Env) (n : Nat) : Int :=
  if env.char_signed && decide (128 ≤ n % 256) then ((n % 256 : Nat) : Int) - 256
  else ((n % 256 : Nat) : Int)

/-! ## Register map and opcodes (`ads1292r.h`, `ads1292r.c`, `bsp_io_11.h`) -/

def ADS1292_REG_ID : Nat := 0x00
def ADS1292_REG_CONFIG1 : Nat := 0x01
def ADS1292_REG_CONFIG2 : Nat := 0x02
def ADS1292_REG_LOFF : Nat := 0x03
def ADS1292_REG_CH1SET : Nat := 0x04
def ADS1292_REG_CH2SET : Nat := 0x05
def ADS1292_REG_RLDSENS : Nat := 0x06
def ADS1292_REG_LOFFSENS : Nat := 0x07
def ADS1292_REG_LOFFSTAT : Nat := 0x08
def ADS1292_REG_RESP1 : Nat := 0x09
def ADS1292_REG_RESP2 : Nat := 0x0A

def ADS1292_CMD_START : Nat := 0x08
def ADS1292_CMD_STOP : Nat := 0x0A
def ADS1292_CMD_RDATAC : Nat := 0x10
def ADS1292_CMD_SDATAC : Nat := 0x11
def ADS1292_CMD_RREG : Nat := 0x20
def ADS1292_CMD_WREG : Nat := 0x40

def CONFIG_SPI_MASTER_DUMMY : Nat := 0xFF

def ADS1292_ID_ADS1292R : Nat := 0x73

def IO_AFE_START : Int := 30
def IO_AFE_RST : Int := 19
def IO_AFE_DRDY : Int := 20
def IO_AFE_CS : Int := 31

/-! ## Transport (`platform.c`, `bsp_hw.c`) -/

/-- Embedding of `platform_read_pin(uint8_t pin)`. -/
def platform_read_pin (env : Env) (pin : Int) (s : St) : Bool × St :=
  let level := env.gpio_level s.n_pin (to_uint8 pin)
  (level, { s with n_pin := s.n_pin + 1,
                   trace := s.trace ++ [Event.read_pin (to_uint8 pin) level] })

/-- Embedding of `platform_write_pin(uint8_t pin, bool enable)`. -/
def platform_write_pin (pin : Int) (enable : Bool) (s : St) : St :=
  { s with trace := s.trace ++ [Event.write_pin (to_uint8 pin) enable] }

/-- Embedding of `platform_delay(uint32_t ms)`. -/
def platform_delay (ms : Nat) (s : St) : St :=
  { s with trace := s.trace ++ [Event.delay (to_uint32 ms)] }

/-- Embedding of `bsp_spi_1_transmit_receive` for `len = 1`: the status and the
byte left in the receive buffer. -/
def bsp_spi_1_transmit_receive (env : Env) (k : Nat) : base_status_t × Nat :=
  (if env.spi_success k then base_status_t.BS_OK else base_status_t.BS_ERROR, env.spi_rx k % 256)

/-- Embedding of `platform_spi_transfer(uint8_t data)`: the status of
`bsp_spi_1_transmit_receive` is dropped and `receive_data` is returned. -/
def platform_spi_transfer (env : Env) (data : Nat) (s : St) : Nat × St :=
  let receive_data := (bsp_spi_1_transmit_receive env s.n_spi).2
  (receive_data, { s with n_spi := s.n_spi + 1,
                          receive_data := receive_data,
                          trace := s.trace ++ [Event.spi (data % 256) receive_data] })

/-! ## Private functions of `ads1292r.c` -/

/-- Embedding of `ads1292_read_data`; the returned pointer is `spi_dummy_buf`. -/
def ads1292_read_data (env : Env) (chip_select : Int) (s : St) : St :=
  let s := platform_write_pin chip_select false s
  let s := (List.range 9).foldl
    (fun s i =>
      let r := platform_spi_transfer env CONFIG_SPI_MASTER_DUMMY s
      { r.2 with spi_dummy_buf := r.2.spi_dummy_buf.set i (to_char env r.1) })
    s
  platform_write_pin chip_select true s

/-- Embedding of `ads1292_spi_command_data`. -/
def ads1292_spi_command_data (env : Env) (data_in : Nat) (chip_select : Int) (s : St) : St :=
  let s := platform_write_pin chip_select false s
  let s := platform_delay 2 s
  let s := platform_write_pin chip_select true s
  let s := platform_delay 2 s
  let s := platform_write_pin chip_select false s
  let s := platform_delay 2 s
  let s := (platform_spi_transfer env data_in s).2
  let s := platform_delay 2 s
  platform_write_pin chip_select true s

/-- The `switch` at the head of `ads1292_reg_write`: the value of `data` after it. -/
def ads1292_reg_write_switch (read_write_addr data : Nat) : Nat :=
  match read_write_addr with
  | 1 => (data &&& 0x87) % 256
  | 2 =>
    let data := (data &&& 0xFB) % 256
    (data ||| 0x80) % 256
  | 3 =>
    let data := (data &&& 0xFD) % 256
    (data ||| 0x10) % 256
  | 7 => (data &&& 0x3F) % 256
  | 8 => (data &&& 0x5F) % 256
  | 9 => (data ||| 0x02) % 256
  | 10 =>
    let data := (data &&& 0x87) % 256
    (data ||| 0x01) % 256
  | 11 => (data &&& 0x0F) % 256
  | _ => data

/-- Embedding of `ads1292_reg_write`. -/
def ads1292_reg_write (env : Env) (read_write_addr data : Nat) (chip_select : Int) (s : St) : St :=
  let data := ads1292_reg_write_switch read_write_addr data
  let data_to_send := (read_write_addr ||| ADS1292_CMD_WREG) % 256
  let s := platform_write_pin chip_select false s
  let s := platform_delay 2 s
  let s := platform_write_pin chip_select true s
  let s := platform_delay 2 s
  let s := platform_write_pin chip_select false s
  let s := platform_delay 2 s
  let s := (platform_spi_transfer env data_to_send s).2
  let s := (platform_spi_transfer env 0x00 s).2
  let s := (platform_spi_transfer env data s).2
  let s := platform_delay 2 s
  platform_write_pin chip_select true s

/-- Embedding of `ads1292_reg_read`: the value stored through `data`, and the state. -/
def ads1292_reg_read (env : Env) (read_addr : Nat) (chip_select : Int) (s : St) : Nat × St :=
  let data_to_send := (read_addr ||| ADS1292_CMD_RREG) % 256
  let s := platform_write_pin chip_select false s
  let s := platform_delay 2 s
  let s := platform_write_pin chip_select true s
  let s := platform_delay 2 s
  let s := platform_write_pin chip_select false s
  let s := platform_delay 2 s
  let s := (platform_spi_transfer env data_to_send s).2
  let s := (platform_spi_transfer env 0x00 s).2
  let r := platform_spi_transfer env 0x00 s
  let data := r.1 % 256
  let s := platform_delay 2 r.2
  (data, platform_write_pin chip_select true s)

/-- Embedding of `ads1292_reset`. -/
def ads1292_reset (pwdn_pin : Int) (s : St) : St :=
  let s := platform_write_pin pwdn_pin true s
  let s := platform_delay 100 s
  let s := platform_write_pin pwdn_pin false s
  let s := platform_delay 100 s
  let s := platform_write_pin pwdn_pin true s
  platform_delay 100 s

/-- Embedding of `ads1292_disable_start`. -/
def ads1292_disable_start (start_pin : Int) (s : St) : St :=
  let s := platform_write_pin start_pin false s
  platform_delay 20 s

/-- Embedding of `ads1292_enable_start`. -/
def ads1292_enable_start (start_pin : Int) (s : St) : St :=
  let s := platform_write_pin start_pin true s
  platform_delay 20 s

/-- Embedding of `ads1292_hard_stop`. -/
def ads1292_hard_stop (start_pin : Int) (s : St) : St :=
  let s := platform_write_pin start_pin false s
  platform_delay 100 s

/-- Embedding of `ads1292_start_data_conv_command`. -/
def ads1292_start_data_conv_command (env : Env) (chip_select : Int) (s : St) : St :=
  ads1292_spi_command_data env ADS1292_CMD_START chip_select s

/-- Embedding of `ads1292_soft_stop`. -/
def ads1292_soft_stop (env : Env) (chip_select : Int) (s : St) : St :=
  ads1292_spi_command_data env ADS1292_CMD_STOP chip_select s

/-- Embedding of `ads1292_start_read_data_continuous`. -/
def ads1292_start_read_data_continuous (env : Env) (chip_select : Int) (s : St) : St :=
  ads1292_spi_command_data env ADS1292_CMD_RDATAC chip_select s

/-- Embedding of `ads1292_stop_read_data_continuous`. -/
def ads1292_stop_read_data_continuous (env : Env) (chip_select : Int) (s : St) : St :=
  ads1292_spi_command_data env ADS1292_CMD_SDATAC chip_select s

/-! ## Public functions of `ads1292r.c` -/

/-- Body of the copy loop `spi_rx_buf[spi_rx_buf_cnt++] = *(spi_rx_buf_pointer + i)`:
the accumulator is `spi_rx_buf`, `spi_rx_buf_cnt` and the out-of-bounds flag. -/
def sample_copy_step (spi_rx_buf_pointer : List Int) (acc : List Nat × Nat × Bool) (i : Nat) :
    List Nat × Nat × Bool :=
  (acc.1.set acc.2.1 (to_uint8 (spi_rx_buf_pointer.getD i 0)),
   acc.2.1 + 1,
   acc.2.2 || decide (15 ≤ acc.2.1))

/-- Lines 68-71: the three bytes at `i`, `i + 1`, `i + 2` assembled into `uecg_temp`,
shifted left by 8 as `unsigned long`, read as `signed long`, shifted right by 8. -/
def sample_decode_group (spi_rx_buf : List Nat) (i : Nat) : Int :=
  let uecg_temp := to_uint32 (to_uint32 (to_uint32 (spi_rx_buf.getD (i + 0) 0) <<< 16)
                    ||| to_uint32 (to_uint32 (spi_rx_buf.getD (i + 1) 0) <<< 8)
                    ||| to_uint32 (spi_rx_buf.getD (i + 2) 0))
  let uecg_temp := to_uint32 (uecg_temp <<< 8)
  let secg_temp := to_long uecg_temp
  let secg_temp := secg_temp >>> (8 : Nat)
  secg_temp

/-- Body of the decode loop `(data_sample->daq_vals)[j++] = secg_temp`:
the accumulator is `daq_vals` and `j`. -/
def sample_decode_step (spi_rx_buf : List Nat) (acc : List Int × Nat) (i : Nat) : List Int × Nat :=
  (acc.1.set acc.2 (sample_decode_group spi_rx_buf i), acc.2 + 1)

/-- Lines 78-82: the value of `lead_status`. -/
def sample_lead_status (spi_rx_buf : List Nat) : Nat :=
  let status_byte := spi_rx_buf.getD 2 0 ||| (spi_rx_buf.getD 1 0 <<< 8)
                       ||| (spi_rx_buf.getD 0 0 <<< 16)
  let status_byte := (status_byte &&& 0x0f8000) >>> 15
  status_byte % 256

/-- Lines 85-88: the value stored in `result_temp_resp`. -/
def sample_result_temp_resp (spi_rx_buf : List Nat) : Int :=
  let result_temp := to_uint32 ((0 <<< 24) ||| (spi_rx_buf.getD 3 0 <<< 16)
                       ||| (spi_rx_buf.getD 4 0 <<< 8) ||| spi_rx_buf.getD 5 0)
  let result_temp := to_uint32 (result_temp <<< 8)
  to_long result_temp

/-- Lines 50-63: the automatic array `spi_rx_buf` after the copy loop, with the
final `spi_rx_buf_cnt` and the out-of-bounds flag; `s` is the state after
`ads1292_read_data`, whose returned pointer is `s.spi_dummy_buf`. -/
def sample_copy_loop (env : Env) (s : St) : List Nat × Nat × Bool :=
  let spi_rx_buf : List Nat := (List.range 15).map (fun k => env.stack_init k % 256)
  let spi_rx_buf_pointer := s.spi_dummy_buf
  -- for (int i = 0; i < 9; i++)
  (List.range 9).foldl (sample_copy_step spi_rx_buf_pointer)
    (spi_rx_buf, s.spi_rx_buf_cnt, s.mem_fault)

/-- Embedding of `ads1292_get_ecg_and_respiration_sample`: the status, the caller's
record `*data_sample` after the call, and the state. -/
def ads1292_get_ecg_and_respiration_sample (env : Env) (data_ready chip_select : Int)
    (data_sample : ads1292_output_value_t) (s : St) :
    base_status_t × ads1292_output_value_t × St :=
  let r := platform_read_pin env data_ready s
  if r.1 == false then
    let s := ads1292_read_data env chip_select r.2
    let c := sample_copy_loop env s
    let spi_rx_buf := c.1
    -- for (int i = 3; i < 9; i += 3), with j = 0 before the loop
    let d := [3, 6].foldl (sample_decode_step spi_rx_buf) (data_sample.daq_vals, 0)
    let lead_status := sample_lead_status spi_rx_buf
    let result_temp_resp := sample_result_temp_resp spi_rx_buf
    let lead_off_detected := if !((lead_status &&& 0x1f) == 0) then true else false
    (base_status_t.BS_OK,
     { daq_vals := d.1, lead_off_detected := lead_off_detected,
       result_temp_resp := result_temp_resp },
     { s with spi_rx_buf_cnt := 0, mem_fault := c.2.2 })
  else
    (base_status_t.BS_ERROR, data_sample, r.2)

/-- Embedding of `ads1292_init`. -/
def ads1292_init (env : Env) (chip_select pwdn_pin start_pin : Int) (s : St) :
    base_status_t × St :=
  let s := ads1292_reset pwdn_pin s
  let s := platform_delay 100 s
  let s := ads1292_disable_start start_pin s
  let s := ads1292_enable_start start_pin s
  let s := ads1292_hard_stop start_pin s
  let s := ads1292_start_data_conv_command env chip_select s
  let s := ads1292_soft_stop env chip_select s
  let s := platform_delay 50 s
  let s := ads1292_stop_read_data_continuous env chip_select s
  let s := platform_delay 300 s
  let r := ads1292_reg_read env ADS1292_REG_ID chip_select s
  let s := { r.2 with ads1293_id := r.1 }
  if s.ads1293_id != ADS1292_ID_ADS1292R then
    (base_status_t.BS_ERROR, s)
  else
    let s := ads1292_reg_write env ADS1292_REG_CONFIG1 0x00 chip_select s
    let s := platform_delay 10 s
    let s := ads1292_reg_write env ADS1292_REG_CONFIG2 160 chip_select s
    let s := platform_delay 10 s
    let s := ads1292_reg_write env ADS1292_REG_LOFF 16 chip_select s
    let s := platform_delay 10 s
    let s := ads1292_reg_write env ADS1292_REG_CH1SET 64 chip_select s
    let s := platform_delay 10 s
    let s := ads1292_reg_write env ADS1292_REG_CH2SET 96 chip_select s
    let s := platform_delay 10 s
    let s := ads1292_reg_write env ADS1292_REG_RLDSENS 44 chip_select s
    let s := platform_delay 10 s
    let s := ads1292_reg_write env ADS1292_REG_LOFFSENS 0x00 chip_select s
    let s := platform_delay 10 s
    let s := ads1292_reg_write env ADS1292_REG_RESP1 242 chip_select s
    let s := platform_delay 10 s
    let s := ads1292_reg_write env ADS1292_REG_RESP2 3 chip_select s
    let s := platform_delay 10 s
    let s := ads1292_start_read_data_continuous env chip_select s
    let s := platform_delay 10 s
    let s := ads1292_enable_start start_pin s
    (base_status_t.BS_OK, s)

/-- State at power-up: no platform call made yet, statics zero-initialised. -/
def St.boot : St :=
  { trace := [], n_spi := 0, n_pin := 0, receive_data := 0, ads1293_id := 0,
    spi_rx_buf_cnt := 0, spi_dummy_buf := List.replicate 10 0, mem_fault := false }

/-! ## Vocabulary of the statements -/

/-- The byte `platform_spi_transfer` returns on the k-th transfer made after state `s`. -/
def spi_byte (env : Env) (s : St) (k : Nat) : Nat :=
  (bsp_spi_1_transmit_receive env (s.n_spi + k)).2

/-- The bytes sent over SPI, in order. -/
def tx_bytes : List Event → List Nat
  | [] => []
  | Event.spi tx _ :: es => tx :: tx_bytes es
  | _ :: es => tx_bytes es

/-- The platform calls made between state `s` and the later state `t`. -/
def events_since (s t : St) : List Event :=
  t.trace.drop s.trace.length

/-- The register writes carried by a sequence of bytes sent to the device, read
with the opcodes of `ads1292r.h`: an opcode byte `0x40 | a` is followed by a count
byte and a data byte `v` and writes `v` to register `a`; an opcode byte `0x20 | a`
is followed by a count byte and one dummy byte; any other byte is a one-byte command. -/
def wire_reg_writes : List Nat → List (Nat × Nat)
  | [] => []
  | [_] => []
  | [_, _] => []
  | op :: c :: v :: rest =>
    if op &&& 0xE0 = 0x40 then (op &&& 0x1F, v) :: wire_reg_writes rest
    else if op &&& 0xE0 = 0x20 then wire_reg_writes rest
    else wire_reg_writes (c :: v :: rest)

/-- The 24-bit big-endian two's-complement value of three bytes, in the words of
the specification: `v` when `v < 8388608`, `v - 16777216` otherwise. -/
def twos_complement_24 (b0 b1 b2 : Nat) : Int :=
  if b0 * 65536 + b1 * 256 + b2 < 8388608 then ((b0 * 65536 + b1 * 256 + b2 : Nat) : Int)
  else ((b0 * 65536 + b1 * 256 + b2 : Nat) : Int) - 16777216

/-- The register write mask table, in the words of the specification. -/
def mask_table (a v : Nat) : Nat :=
  if a = 1 then v &&& 0x87
  else if a = 2 then (v &&& 0xFB) ||| 0x80
  else if a = 3 then (v &&& 0xFD) ||| 0x10
  else if a = 7 then v &&& 0x3F
  else if a = 8 then v &&& 0x5F
  else if a = 9 then v ||| 0x02
  else if a = 10 then (v &&& 0x87) ||| 0x01
  else if a = 11 then v &&& 0x0F
  else v

/-- Events of one command envelope of `ads1292_spi_command_data`. -/
def command_events (cs op rx : Nat) : List Event :=
  [Event.write_pin cs false, Event.delay 2, Event.write_pin cs true, Event.delay 2,
   Event.write_pin cs false, Event.delay 2, Event.spi op rx, Event.delay 2,
   Event.write_pin cs true]

/-- Events of one `ads1292_reg_read`: `op` is the first byte sent, `rx0 rx1 rx2`
the three bytes received. -/
def reg_read_events (cs op rx0 rx1 rx2 : Nat) : List Event :=
  [Event.write_pin cs false, Event.delay 2, Event.write_pin cs true, Event.delay 2,
   Event.write_pin cs false, Event.delay 2, Event.spi op rx0, Event.spi 0 rx1,
   Event.spi 0 rx2, Event.delay 2, Event.write_pin cs true]

/-- Events of one `ads1292_reg_write`: `op` is the first byte sent, `v` the data
byte sent, `rx0 rx1 rx2` the three bytes received. -/
def reg_write_events (cs op v rx0 rx1 rx2 : Nat) : List Event :=
  [Event.write_pin cs false, Event.delay 2, Event.write_pin cs true, Event.delay 2,
   Event.write_pin cs false, Event.delay 2, Event.spi op rx0, Event.spi 0 rx1,
   Event.spi v rx2, Event.delay 2, Event.write_pin cs true]

/-- The invariant of the `static` storage between calls: the rolling counter is
zero and `spi_dummy_buf` has its ten elements. -/
def St.wf (s : St) : Prop :=
  s.spi_rx_buf_cnt = 0 ∧ s.spi_dummy_buf.length = 10

instance (s : St) : Decidable s.wf := by
  unfold St.wf; exact inferInstance

/-- The content of `spi_rx_buf` after the copy loop of a call made in state `s`
with the counter at zero: the nine received bytes, then the six elements the
loop left untouched. -/
def frame_buf (env : Env) (s : St) : List Nat :=
  (List.range 9).map (fun k => spi_byte env s k)
    ++ (List.range' 9 6).map (fun k => env.stack_init k % 256)

/-- Events of `ads1292_init` before the read of the ID register: `cs`, `pwdn`,
`start` are the pins as `uint8_t`. -/
def init_preamble (env : Env) (s : St) (cs pwdn start : Nat) : List Event :=
  [Event.write_pin pwdn true, Event.delay 100, Event.write_pin pwdn false, Event.delay 100,
   Event.write_pin pwdn true, Event.delay 100]
  ++ [Event.delay 100]
  ++ [Event.write_pin start false, Event.delay 20]
  ++ [Event.write_pin start true, Event.delay 20]
  ++ [Event.write_pin start false, Event.delay 100]
  ++ command_events cs 0x08 (spi_byte env s 0)
  ++ command_events cs 0x0A (spi_byte env s 1)
  ++ [Event.delay 50]
  ++ command_events cs 0x11 (spi_byte env s 2)
  ++ [Event.delay 300]

/-- Events of `ads1292_init` up to and including the read of the ID register. -/
def init_id_phase (env : Env) (s : St) (cs pwdn start : Nat) : List Event :=
  init_preamble env s cs pwdn start
  ++ reg_read_events cs 0x20 (spi_byte env s 3) (spi_byte env s 4) (spi_byte env s 5)

/-- Events of `ads1292_init` after the ID register was found to match. -/
def init_config_phase (env : Env) (s : St) (cs start : Nat) : List Event :=
  reg_write_events cs 0x41 0x00 (spi_byte env s 6) (spi_byte env s 7) (spi_byte env s 8)
  ++ [Event.delay 10]
  ++ reg_write_events cs 0x42 0xA0 (spi_byte env s 9) (spi_byte env s 10) (spi_byte env s 11)
  ++ [Event.delay 10]
  ++ reg_write_events cs 0x43 0x10 (spi_byte env s 12) (spi_byte env s 13) (spi_byte env s 14)
  ++ [Event.delay 10]
  ++ reg_write_events cs 0x44 0x40 (spi_byte env s 15) (spi_byte env s 16) (spi_byte env s 17)
  ++ [Event.delay 10]
  ++ reg_write_events cs 0x45 0x60 (spi_byte env s 18) (spi_byte env s 19) (spi_byte env s 20)
  ++ [Event.delay 10]
  ++ reg_write_events cs 0x46 0x2C (spi_byte env s 21) (spi_byte env s 22) (spi_byte env s 23)
  ++ [Event.delay 10]
  ++ reg_write_events cs 0x47 0x00 (spi_byte env s 24) (spi_byte env s 25) (spi_byte env s 26)
  ++ [Event.delay 10]
  ++ reg_write_events cs 0x49 0xF2 (spi_byte env s 27) (spi_byte env s 28) (spi_byte env s 29)
  ++ [Event.delay 10]
  ++ reg_write_events cs 0x4A 0x03 (spi_byte env s 30) (spi_byte env s 31) (spi_byte env s 32)
  ++ [Event.delay 10]
  ++ command_events cs 0x10 (spi_byte env s 33)
  ++ [Event.delay 10]
  ++ [Event.write_pin start true, Event.delay 20]

/-- A scripted transport: every pin read returns `level`, the k-th SPI transfer
succeeds and receives the k-th element of `rx` (0 once `rx` is exhausted). -/
def scripted_env (char_signed level : Bool) (rx : List Nat) : Env :=
  { gpio_level := fun _ _ => level,
    spi_success := fun _ => true,
    spi_rx := fun k => rx.getD k 0,
    char_signed := char_signed,
    stack_init := fun _ => 0xAA }

/-- A caller's sample record before the call. -/
def sample_record_0 : ads1292_output_value_t :=
  { daq_vals := [11, 12, 13, 14, 15, 16, 17, 18], lead_off_detected := false,
    result_temp_resp := 19 }

/-- A scripted transport on which every SPI transfer reports failure
(`nrf_drv_spi_transfer` never returns `NRF_SUCCESS`) and leaves the k-th element
of `rx` in the receive buffer. -/
def failing_env (level : Bool) (rx : List Nat) : Env :=
  { gpio_level := fun _ _ => level,
    spi_success := fun _ => false,
    spi_rx := fun k => rx.getD k 0,
    char_signed := false,
    stack_init := fun _ => 0xAA }

/-- The most recent level written to pin `pin` in a sequence of platform calls,
if the pin was written at all. -/
def last_pin_write (pin : Nat) : List Event → Option Bool
  | [] => none
  | Event.write_pin p b :: es =>
    match last_pin_write pin es with
    | some l => some l
    | none => if p = pin then some b else none
  | _ :: es => last_pin_write pin es

/-- Number of pin writes in a sequence of platform calls. -/
def pin_write_count : List Event → Nat
  | [] => 0
  | Event.write_pin _ _ :: es => pin_write_count es + 1
  | _ :: es => pin_write_count es

/-- Number of SPI transfers in a sequence of platform calls. -/
def spi_count : List Event → Nat
  | [] => 0
  | Event.spi _ _ :: es => spi_count es + 1
  | _ :: es => spi_count es

/-- Number of delays in a sequence of platform calls. -/
def delay_count : List Event → Nat
  | [] => 0
  | Event.delay _ :: es => delay_count es + 1
  | _ :: es => delay_count es

/-- Total of the delays requested in a sequence of platform calls, in ms. -/
def delay_total : List Event → Nat
  | [] => 0
  | Event.delay ms :: es => ms + delay_total es
  | _ :: es => delay_total es

/-- The states of the driver reachable from power-up by calls of its two public
functions, each against any transport and with any arguments. -/
inductive Reachable : St → Prop
  | boot : Reachable St.boot
  | init (env : Env) (chip_select pwdn_pin start_pin : Int) (s : St) :
      Reachable s → Reachable (ads1292_init env chip_select pwdn_pin start_pin s).2
  | sample (env : Env) (data_ready chip_select : Int) (data_sample : ads1292_output_value_t)
      (s : St) :
      Reachable s →
      Reachable (ads1292_get_ecg_and_respiration_sample env data_ready chip_select data_sample s).2.2

/-- One operation of the ADS1292 serial protocol, as the device reads it off the
bytes it receives. -/
inductive WireOp
  | command (op : Nat)
  | rreg (addr : Nat)
  | wreg (addr value : Nat)
deriving DecidableEq, Repr

/-- The operations carried by a sequence of bytes sent to the device, read with the
opcodes of `ads1292r.h`: a byte `0x40 | a` starts a register write and is followed by
a count byte and the data byte; a byte `0x20 | a` starts a register read and is
followed by a count byte and one dummy byte; any other byte is a one-byte command. -/
def wire_ops : List Nat → List WireOp
  | [] => []
  | [op] =>
    if op &&& 0xE0 = 0x40 ∨ op &&& 0xE0 = 0x20 then [] else [WireOp.command op]
  | [op, c] =>
    if op &&& 0xE0 = 0x40 ∨ op &&& 0xE0 = 0x20 then [] else WireOp.command op :: wire_ops [c]
  | op :: c :: v :: rest =>
    if op &&& 0xE0 = 0x40 then WireOp.wreg (op &&& 0x1F) v :: wire_ops rest
    else if op &&& 0xE0 = 0x20 then WireOp.rreg (op &&& 0x1F) :: wire_ops rest
    else WireOp.command op :: wire_ops (c :: v :: rest)

/-! ## Board support for the front end (`bsp_afe.c`) -/

/-- Conversion to `int16_t` (16 bits, two's complement). -/
def to_int16 (x : Int) : Int := (x + 32768) % 65536 - 32768

/-- What `bsp_afe.c` takes from outside the files at hand: the two entry points of
the signal-processing library declared in `ecg_res_algo.h`, and the indeterminate
content of the automatic record `ecg_values`. -/
structure AfeEnv where
  /-- Value `ECG_ProcessCurrSample` stores through its second argument: argument 1 is
  the number of library calls made before this one, argument 2 the sample it is given
  through its first argument. -/
  ECG_ProcessCurrSample : Nat → Int → Int
  /-- Value `QRS_Algorithm_Interface` leaves in the heart rate it is given by address:
  argument 1 is the number of library calls made before this one, argument 2 the
  filtered sample, argument 3 the heart rate before the call. -/
  QRS_Algorithm_Interface : Nat → Int → Nat → Nat
  /-- Indeterminate initial `ecg_values.daq_vals`. -/
  ecg_values_daq_vals : Nat → Int
  /-- Indeterminate initial `ecg_values.lead_off_detected`. -/
  ecg_values_lead_off_detected : Bool
  /-- Indeterminate initial `ecg_values.result_temp_resp`. -/
  ecg_values_result_temp_resp : Int

/-- One call into the signal-processing library, with the sample it was given. -/
inductive AlgoCall
  | ECG_ProcessCurrSample (sample : Int)
  | QRS_Algorithm_Interface (sample : Int)
deriving DecidableEq, Repr

/-- The globals of `bsp_afe.c`, the state of the driver below it, and the calls made
into the signal-processing library so far. -/
structure AfeSt where
  drv : St
  global_heart_rate : Nat
  global_respiration_rate : Nat
  ecg_wave_buf : Int
  ecg_filter_out : Int
  res_wave_buf : Int
  resp_filter_out : Int
  algo_calls : List AlgoCall
deriving Repr

/-- The automatic record `ecg_values` of `bsp_afe_get_ecg` before the sample call. -/
def ecg_values_init (afe : AfeEnv) : ads1292_output_value_t :=
  { daq_vals := (List.range 8).map afe.ecg_values_daq_vals,
    lead_off_detected := afe.ecg_values_lead_off_detected,
    result_temp_resp := afe.ecg_values_result_temp_resp }

/-- Embedding of `bsp_afe_init`. -/
def bsp_afe_init (env : Env) (s : St) : base_status_t × St :=
  ads1292_init env IO_AFE_CS IO_AFE_RST IO_AFE_START s

/-- Embedding of `bsp_afe_get_ecg`: the status, the caller's `*ecg_data` after the
call, and the state. -/
def bsp_afe_get_ecg (env : Env) (afe : AfeEnv) (ecg_data : Int) (g : AfeSt) :
    base_status_t × Int × AfeSt :=
  let r := ads1292_get_ecg_and_respiration_sample env IO_AFE_DRDY IO_AFE_CS
             (ecg_values_init afe) g.drv
  let ret := r.1
  let ecg_values := r.2.1
  let g := { g with drv := r.2.2 }
  if ret = base_status_t.BS_OK then
    -- Ignore the lower 8 bits out of 24bits
    let g := { g with ecg_wave_buf := to_int16 (ecg_values.daq_vals.getD 1 0 >>> (8 : Nat)) }
    let g := { g with res_wave_buf := to_int16 (ecg_values.result_temp_resp >>> (8 : Nat)) }
    let g :=
      if ecg_values.lead_off_detected = false then
        let g := { g with
          ecg_filter_out :=
            to_int16 (afe.ECG_ProcessCurrSample g.algo_calls.length g.ecg_wave_buf),
          algo_calls := g.algo_calls ++ [AlgoCall.ECG_ProcessCurrSample g.ecg_wave_buf] }
        { g with
          global_heart_rate :=
            afe.QRS_Algorithm_Interface g.algo_calls.length g.ecg_filter_out
              g.global_heart_rate % 256,
          algo_calls := g.algo_calls ++ [AlgoCall.QRS_Algorithm_Interface g.ecg_filter_out] }
      else
        { g with ecg_filter_out := 0, resp_filter_out := 0 }
    (ret, g.ecg_filter_out, g)
  else
    (ret, ecg_data, g)

/-- The globals of `bsp_afe.c` at power-up, over the driver at power-up. -/
def AfeSt.boot : AfeSt :=
  { drv := St.boot, global_heart_rate := 0, global_respiration_rate := 0, ecg_wave_buf := 0,
    ecg_filter_out := 0, res_wave_buf := 0, resp_filter_out := 0, algo_calls := [] }

/-- A signal-processing library whose filter returns its input and whose detector
reports 60 beats per minute. -/
def afe_env_0 : AfeEnv :=
  { ECG_ProcessCurrSample := fun _ x => x,
    QRS_Algorithm_Interface := fun _ _ _ => 60,
    ecg_values_daq_vals := fun _ => 0x55,
    ecg_values_lead_off_detected := true,
    ecg_values_result_temp_resp := 0x55 }

/-! ## NAND flash driver (`flash/w25n01.c`, bound as in `flash/bsp_nand_flash.c`) -/

def IO_FLASH_CS : Nat := 4

def WINBOND_MAN_ID : Nat := 0xEF
def W25N01GV_DEV_ID : Nat := 0xAA21
def W25N_JEDEC_ID : Nat := 0x9F
def W25N_OP_WRITE_STATUS_REG : Nat := 0x01
def W25N_OP_WRITE_ENABLE : Nat := 0x06
def W25N_OP_WRITE_DISABLE : Nat := 0x04
def W25N_OP_BLOCK_ERASE : Nat := 0xD8
def W25N_OP_PROG_DATA_LOAD : Nat := 0x02
def W25N_OP_PROG_EXECUTE : Nat := 0x10
def W25N_OP_PAGE_DATA_READ : Nat := 0x13
def W25N_OP_READ : Nat := 0x03
def W25N_REG_PROT : Nat := 0xA0
def W25N01GV_MAX_PAGE : Nat := 65535
def W25N_MAX_COLUMN : Nat := 2112

/-- One call through the handle of the flash driver: `me->gpio_write` or
`me->spi_transfer`, with the status the transfer returned. -/
inductive FlashEvent
  | gpio_write (pin state : Nat)
  | spi_transfer (tx_data : List Nat) (len : Nat) (status : base_status_t)
deriving DecidableEq, Repr

/-- The answers of `nrf_drv_spi_transfer` on SPI instance 2. -/
structure FlashEnv where
  /-- Whether the k-th transfer returns `NRF_SUCCESS`. -/
  spi_success : Nat → Bool
  /-- Byte `i` of the receive buffer after the k-th transfer. -/
  spi_rx : Nat → Nat → Nat

/-- The calls made through the handle so far and their number of transfers. -/
structure FlashSt where
  trace : List FlashEvent
  n_spi : Nat
deriving Repr

/-- Embedding of `me->gpio_write`, bound to `bsp_gpio_write`. -/
def w25n01_gpio_write (pin state : Nat) (s : FlashSt) : FlashSt :=
  { s with trace := s.trace ++ [FlashEvent.gpio_write (pin % 256) (state % 256)] }

/-- Embedding of `me->spi_transfer`, bound to `bsp_spi_2_transmit_receive`: the status,
the bytes received, and the state. -/
def w25n01_spi_transfer (env : FlashEnv) (tx_data : List Nat) (len : Nat) (s : FlashSt) :
    base_status_t × List Nat × FlashSt :=
  let status := if env.spi_success s.n_spi then base_status_t.BS_OK else base_status_t.BS_ERROR
  (status,
   (List.range (len % 65536)).map (fun i => env.spi_rx s.n_spi i % 256),
   { trace := s.trace ++ [FlashEvent.spi_transfer tx_data (len % 65536) status],
     n_spi := s.n_spi + 1 })

/-- Embedding of `m_w25n01_transfer`. -/
def m_w25n01_transfer (env : FlashEnv) (tx_data : List Nat) (len : Nat) (s : FlashSt) :
    base_status_t × List Nat × FlashSt :=
  let s := w25n01_gpio_write IO_FLASH_CS 0 s
  let r := w25n01_spi_transfer env tx_data len s
  let ret := r.1
  let s := w25n01_gpio_write IO_FLASH_CS 1 r.2.2
  (ret, r.2.1, s)

/-- Embedding of `m_w25n01_set_status_register`. -/
def m_w25n01_set_status_register (env : FlashEnv) (reg value : Nat) (s : FlashSt) :
    base_status_t × FlashSt :=
  let cmd_buf := [W25N_OP_WRITE_STATUS_REG, reg % 256, value % 256]
  let r := m_w25n01_transfer env cmd_buf 3 s
  (r.1, r.2.2)

/-- Embedding of `m_w25n01_write_enable`. -/
def m_w25n01_write_enable (env : FlashEnv) (enable : Bool) (s : FlashSt) :
    base_status_t × FlashSt :=
  let value := if enable then W25N_OP_WRITE_ENABLE else W25N_OP_WRITE_DISABLE
  let r := m_w25n01_transfer env [value] 1 s
  (r.1, r.2.2)

/-- Embedding of `w25n01_init`. -/
def w25n01_init (env : FlashEnv) (s : FlashSt) : base_status_t × FlashSt :=
  let jedec := [W25N_JEDEC_ID, 0x00, 0x00, 0x00, 0x00]
  let r := m_w25n01_transfer env jedec 5 s
  if r.1 ≠ base_status_t.BS_OK then (r.1, r.2.2)
  else
    let jedec := r.2.1
    let s := r.2.2
    if jedec.getD 2 0 = WINBOND_MAN_ID then
      if ((jedec.getD 3 0 <<< 8) ||| jedec.getD 4 0) % 65536 = W25N01GV_DEV_ID then
        let r := m_w25n01_set_status_register env W25N_REG_PROT 0x00 s
        if r.1 ≠ base_status_t.BS_OK then (r.1, r.2)
        else (base_status_t.BS_OK, r.2)
      else (base_status_t.BS_ERROR, s)
    else (base_status_t.BS_ERROR, s)

/-- Embedding of `w25n01_block_erase`; `none` when the `ASSERT` fails. -/
def w25n01_block_erase (env : FlashEnv) (page_addr : Nat) (s : FlashSt) :
    Option (base_status_t × FlashSt) :=
  if ¬ page_addr ≤ W25N01GV_MAX_PAGE then none
  else
    let page_high := ((page_addr &&& 0xFF00) >>> 8) % 256
    let page_low := page_addr % 256
    let cmd_buf := [W25N_OP_BLOCK_ERASE, 0x00, page_high, page_low]
    let r := m_w25n01_write_enable env true s
    if r.1 ≠ base_status_t.BS_OK then some (r.1, r.2)
    else
      let r := m_w25n01_transfer env cmd_buf 4 r.2
      if r.1 ≠ base_status_t.BS_OK then some (r.1, r.2.2)
      else some (base_status_t.BS_OK, r.2.2)

/-- Embedding of `w25n01_load_program_data`; `none` when an `ASSERT` fails. -/
def w25n01_load_program_data (env : FlashEnv) (column_addr : Nat) (p_data : List Nat)
    (len : Nat) (s : FlashSt) : Option (base_status_t × FlashSt) :=
  if ¬ column_addr ≤ W25N_MAX_COLUMN then none
  else if ¬ len ≤ W25N_MAX_COLUMN - column_addr then none
  else
    let column_high := ((column_addr &&& 0xFF00) >>> 8) % 256
    let column_low := (column_addr &&& 0xFF) % 256
    let cmd_buf := [W25N_OP_PROG_DATA_LOAD, column_high, column_low]
    let r := m_w25n01_write_enable env true s
    if r.1 ≠ base_status_t.BS_OK then some (r.1, r.2)
    else
      -- Write data
      let s := w25n01_gpio_write IO_FLASH_CS 0 r.2
      let r := w25n01_spi_transfer env cmd_buf 3 s
      if r.1 ≠ base_status_t.BS_OK then some (r.1, r.2.2)
      else
        let r := w25n01_spi_transfer env p_data len r.2.2
        if r.1 ≠ base_status_t.BS_OK then some (r.1, r.2.2)
        else
          let s := w25n01_gpio_write IO_FLASH_CS 1 r.2.2
          some (base_status_t.BS_OK, s)

/-- Embedding of `w25n01_program_execute`; `none` when the `ASSERT` fails. -/
def w25n01_program_execute (env : FlashEnv) (page_addr : Nat) (s : FlashSt) :
    Option (base_status_t × FlashSt) :=
  if ¬ page_addr ≤ W25N01GV_MAX_PAGE then none
  else
    let page_high := ((page_addr &&& 0xFF00) >>> 8) % 256
    let page_low := page_addr % 256
    let cmd_buf := [W25N_OP_PROG_EXECUTE, 0x00, page_high, page_low]
    let r := m_w25n01_write_enable env true s
    if r.1 ≠ base_status_t.BS_OK then some (r.1, r.2)
    else
      let r := m_w25n01_transfer env cmd_buf 4 r.2
      if r.1 ≠ base_status_t.BS_OK then some (r.1, r.2.2)
      else some (base_status_t.BS_OK, r.2.2)

/-- Embedding of `w25n01_page_data_read`; `none` when the `ASSERT` fails. -/
def w25n01_page_data_read (env : FlashEnv) (page_addr : Nat) (s : FlashSt) :
    Option (base_status_t × FlashSt) :=
  if ¬ page_addr ≤ W25N01GV_MAX_PAGE then none
  else
    let page_high := ((page_addr &&& 0xFF00) >>> 8) % 256
    let page_low := page_addr % 256
    let cmd_buf := [W25N_OP_PAGE_DATA_READ, 0x00, page_high, page_low]
    let r := m_w25n01_transfer env cmd_buf 4 s
    if r.1 ≠ base_status_t.BS_OK then some (r.1, r.2.2)
    else some (base_status_t.BS_OK, r.2.2)

/-- Embedding of `w25n01_read_data`: the status, the content of `p_data` after the
call, and the state; `none` when an `ASSERT` fails. -/
def w25n01_read_data (env : FlashEnv) (column_addr : Nat) (p_data : List Nat) (len : Nat)
    (s : FlashSt) : Option (base_status_t × List Nat × FlashSt) :=
  if ¬ column_addr ≤ W25N_MAX_COLUMN then none
  else if ¬ len ≤ W25N_MAX_COLUMN - column_addr then none
  else
    let column_high := ((column_addr &&& 0xFF00) >>> 8) % 256
    let column_low := column_addr % 256
    let cmd_buf := [W25N_OP_READ, column_high, column_low, 0x00]
    -- Read data
    let s := w25n01_gpio_write IO_FLASH_CS 0 s
    let r := w25n01_spi_transfer env cmd_buf 4 s
    if r.1 ≠ base_status_t.BS_OK then some (r.1, p_data, r.2.2)
    else
      let r := w25n01_spi_transfer env p_data len r.2.2
      if r.1 ≠ base_status_t.BS_OK then some (r.1, r.2.1, r.2.2)
      else
        let s := w25n01_gpio_write IO_FLASH_CS 1 r.2.2
        some (base_status_t.BS_OK, r.2.1, s)

/-- The most recent state written to pin `pin` through `me->gpio_write`, if any. -/
def flash_last_gpio_write (pin : Nat) : List FlashEvent → Option Nat
  | [] => none
  | FlashEvent.gpio_write p st :: es =>
    match flash_last_gpio_write pin es with
    | some l => some l
    | none => if p = pin then some st else none
  | _ :: es => flash_last_gpio_write pin es

/-- The flash handle before any call. -/
def FlashSt.boot : FlashSt := { trace := [], n_spi := 0 }

/-- A flash transport whose k-th transfer succeeds exactly when the k-th element of
`ok` is true (transfers beyond the list succeed), and which receives zeros. -/
def scripted_flash_env (ok : List Bool) : FlashEnv :=
  { spi_success := fun k => ok.getD k true, spi_rx := fun _ _ => 0 }

/-! ## Motion sensor driver (`mpu9250.c`) -/

def MPU9250_REG_INT_STATUS : Nat := 0x3A
def MPU9250_REG_ACCEL_XOUT_H : Nat := 0x3B

/-- The answers of the bus function `me->i2c_read`. -/
structure I2cEnv where
  /-- Return value of the k-th `me->i2c_read` (0 on success). -/
  i2c_read_ret : Nat → Int
  /-- Byte `i` stored in the caller's buffer by the k-th `me->i2c_read`. -/
  i2c_read_data : Nat → Nat → Nat

/-- One call of `me->i2c_read`. -/
inductive I2cEvent
  | i2c_read (slave_addr reg_addr len : Nat) (ret : Int)
deriving DecidableEq, Repr

/-- The record `mpu9250_raw_data_t`. -/
structure mpu9250_raw_data_t where
  x : Int
  y : Int
  z : Int
deriving DecidableEq, Repr

/-- The fields of the handle `mpu9250_t` the accelerometer read uses, and the bus
reads made so far. -/
structure MpuSt where
  device_address : Nat
  accel_raw_data : mpu9250_raw_data_t
  trace : List I2cEvent
  n_read : Nat
deriving Repr

/-- Embedding of `m_mpu9250_read_reg`: the status, the bytes read, and the state. -/
def m_mpu9250_read_reg (env : I2cEnv) (reg len : Nat) (me : MpuSt) :
    base_status_t × List Nat × MpuSt :=
  let ret := env.i2c_read_ret me.n_read
  let p_data := (List.range len).map (fun i => env.i2c_read_data me.n_read i % 256)
  let me := { me with
    trace := me.trace ++ [I2cEvent.i2c_read me.device_address (reg % 256) len ret],
    n_read := me.n_read + 1 }
  if ¬ (0 = ret) then (base_status_t.BS_ERROR, p_data, me)
  else (base_status_t.BS_OK, p_data, me)

/-- Embedding of `mpu9250_get_accel_raw_data`. -/
def mpu9250_get_accel_raw_data (env : I2cEnv) (me : MpuSt) : base_status_t × MpuSt :=
  let r := m_mpu9250_read_reg env MPU9250_REG_INT_STATUS 1 me
  if r.1 ≠ base_status_t.BS_OK then (r.1, r.2.2)
  else
    let status := r.2.1.getD 0 0
    let me := r.2.2
    -- if ((status && 0x01))
    if decide (status ≠ 0) && decide ((0x01 : Nat) ≠ 0) then
      let r := m_mpu9250_read_reg env MPU9250_REG_ACCEL_XOUT_H 6 me
      if r.1 ≠ base_status_t.BS_OK then (r.1, r.2.2)
      else
        let buffer := r.2.1
        let me := r.2.2
        let me := { me with accel_raw_data := { me.accel_raw_data with
          x := to_int16 (((buffer.getD 0 0 <<< 8) + buffer.getD 1 0 : Nat) : Int) } }
        let me := { me with accel_raw_data := { me.accel_raw_data with
          y := to_int16 (((buffer.getD 2 0 <<< 8) + buffer.getD 3 0 : Nat) : Int) } }
        let me := { me with accel_raw_data := { me.accel_raw_data with
          z := to_int16 (((buffer.getD 4 0 <<< 8) + buffer.getD 5 0 : Nat) : Int) } }
        (base_status_t.BS_OK, me)
    else
      (base_status_t.BS_ERROR, me)

/-- A sensor handle before any bus read, holding the raw data 1, 2, 3. -/
def MpuSt.boot : MpuSt :=
  { device_address := 0x68, accel_raw_data := { x := 1, y := 2, z := 3 }, trace := [],
    n_read := 0 }

/-- A bus on which every read succeeds: the first read returns `status`, the later
ones return the bytes of `data`. -/
def scripted_i2c_env (status : Nat) (data : List Nat) : I2cEnv :=
  { i2c_read_ret := fun _ => 0,
    i2c_read_data := fun k i => if k = 0 then status else data.getD i 0 }

/-! ## Arithmetic of the conversions -/

theorem to_uint32_of_lt {n : Nat} (h : n < 4294967296) : to_uint32 n = n := by
  unfold to_uint32; omega

theorem to_uint8_to_char (env : Env) (n : Nat) : to_uint8 (to_char env n) = n % 256 := by
  unfold to_uint8 to_char
  split <;> omega

theorem be24_or_eq_add (b0 b1 b2 : Nat) (h1 : b1 < 256) (h2 : b2 < 256) :
    b0 <<< 16 ||| b1 <<< 8 ||| b2 = b0 * 65536 + b1 * 256 + b2 := by
  have e1 := Nat.mul_add_lt_is_or (i := 8) (b := b2) (by simpa using h2) b1
  have e2 := Nat.mul_add_lt_is_or (i := 16) (b := b1 * 256 + b2) (by norm_num; omega) b0
  rw [Nat.shiftLeft_eq, Nat.shiftLeft_eq, Nat.or_assoc, Nat.mul_comm b1, ← e1,
    Nat.mul_comm b0, Nat.mul_comm (2 ^ 8), ← e2]
  omega

theorem shiftRight_8_eq_div (x : Int) : x >>> (8 : Nat) = x / 256 := by
  have h := Int.shiftRight_eq_div_pow x 8
  simpa using h

theorem sample_decode_group_eq (spi_rx_buf : List Nat) (i : Nat)
    (h0 : spi_rx_buf.getD (i + 0) 0 < 256) (h1 : spi_rx_buf.getD (i + 1) 0 < 256)
    (h2 : spi_rx_buf.getD (i + 2) 0 < 256) :
    sample_decode_group spi_rx_buf i
      = twos_complement_24 (spi_rx_buf.getD (i + 0) 0) (spi_rx_buf.getD (i + 1) 0)
          (spi_rx_buf.getD (i + 2) 0) := by
  unfold sample_decode_group twos_complement_24
  generalize spi_rx_buf.getD (i + 0) 0 = b0 at *
  generalize spi_rx_buf.getD (i + 1) 0 = b1 at *
  generalize spi_rx_buf.getD (i + 2) 0 = b2 at *
  have hb0 : b0 <<< 16 = b0 * 65536 := by rw [Nat.shiftLeft_eq]
  have hb1 : b1 <<< 8 = b1 * 256 := by rw [Nat.shiftLeft_eq]
  rw [to_uint32_of_lt (show b0 < 4294967296 by omega),
    to_uint32_of_lt (show b1 < 4294967296 by omega),
    to_uint32_of_lt (show b2 < 4294967296 by omega),
    to_uint32_of_lt (show b0 <<< 16 < 4294967296 by omega),
    to_uint32_of_lt (show b1 <<< 8 < 4294967296 by omega),
    be24_or_eq_add b0 b1 b2 h1 h2]
  have hv : b0 * 65536 + b1 * 256 + b2 < 16777216 := by omega
  generalize b0 * 65536 + b1 * 256 + b2 = v at *
  have hs : v <<< 8 = v * 256 := by rw [Nat.shiftLeft_eq]
  dsimp only
  rw [to_uint32_of_lt (show v < 4294967296 by omega), hs,
    to_uint32_of_lt (show v * 256 < 4294967296 by omega)]
  simp only [shiftRight_8_eq_div]
  unfold to_long
  split <;> split <;> omega

/-! ## Closed forms of the primitives -/

theorem spi_byte_def (env : Env) (s : St) (k : Nat) :
    spi_byte env s k = env.spi_rx (s.n_spi + k) % 256 := rfl

theorem spi_byte_lt (env : Env) (s : St) (k : Nat) : spi_byte env s k < 256 := by
  rw [spi_byte_def]; omega

theorem ads1292_spi_command_data_eq (env : Env) (op : Nat) (cs : Int) (s : St) :
    ads1292_spi_command_data env op cs s =
      { s with trace := s.trace ++ command_events (to_uint8 cs) (op % 256) (env.spi_rx s.n_spi % 256),
               n_spi := s.n_spi + 1,
               receive_data := env.spi_rx s.n_spi % 256 } := by
  simp [ads1292_spi_command_data, platform_write_pin, platform_delay, platform_spi_transfer,
    bsp_spi_1_transmit_receive, command_events, to_uint32]

theorem ads1292_reg_read_eq (env : Env) (a : Nat) (cs : Int) (s : St) :
    ads1292_reg_read env a cs s =
      (env.spi_rx (s.n_spi + 2) % 256,
       { s with trace := s.trace ++ reg_read_events (to_uint8 cs) ((a ||| 0x20) % 256)
                           (env.spi_rx s.n_spi % 256) (env.spi_rx (s.n_spi + 1) % 256)
                           (env.spi_rx (s.n_spi + 2) % 256),
                n_spi := s.n_spi + 3,
                receive_data := env.spi_rx (s.n_spi + 2) % 256 }) := by
  simp [ads1292_reg_read, platform_write_pin, platform_delay, platform_spi_transfer,
    bsp_spi_1_transmit_receive, reg_read_events, to_uint32, ADS1292_CMD_RREG, Nat.add_assoc]

theorem ads1292_reg_write_eq (env : Env) (a v : Nat) (cs : Int) (s : St) :
    ads1292_reg_write env a v cs s =
      { s with trace := s.trace ++ reg_write_events (to_uint8 cs) ((a ||| 0x40) % 256)
                           (ads1292_reg_write_switch a v % 256)
                           (env.spi_rx s.n_spi % 256) (env.spi_rx (s.n_spi + 1) % 256)
                           (env.spi_rx (s.n_spi + 2) % 256),
               n_spi := s.n_spi + 3,
               receive_data := env.spi_rx (s.n_spi + 2) % 256 } := by
  simp [ads1292_reg_write, platform_write_pin, platform_delay, platform_spi_transfer,
    bsp_spi_1_transmit_receive, reg_write_events, to_uint32, ADS1292_CMD_WREG, Nat.add_assoc]

theorem ads1292_reset_eq (pwdn : Int) (s : St) :
    ads1292_reset pwdn s =
      { s with trace := s.trace ++
          [Event.write_pin (to_uint8 pwdn) true, Event.delay 100,
           Event.write_pin (to_uint8 pwdn) false, Event.delay 100,
           Event.write_pin (to_uint8 pwdn) true, Event.delay 100] } := by
  simp [ads1292_reset, platform_write_pin, platform_delay, to_uint32]

theorem ads1292_disable_start_eq (start : Int) (s : St) :
    ads1292_disable_start start s =
      { s with trace := s.trace ++ [Event.write_pin (to_uint8 start) false, Event.delay 20] } := by
  simp [ads1292_disable_start, platform_write_pin, platform_delay, to_uint32]

theorem ads1292_enable_start_eq (start : Int) (s : St) :
    ads1292_enable_start start s =
      { s with trace := s.trace ++ [Event.write_pin (to_uint8 start) true, Event.delay 20] } := by
  simp [ads1292_enable_start, platform_write_pin, platform_delay, to_uint32]

theorem ads1292_hard_stop_eq (start : Int) (s : St) :
    ads1292_hard_stop start s =
      { s with trace := s.trace ++ [Event.write_pin (to_uint8 start) false, Event.delay 100] } := by
  simp [ads1292_hard_stop, platform_write_pin, platform_delay, to_uint32]

theorem platform_delay_eq (ms : Nat) (h : ms < 4294967296) (s : St) :
    platform_delay ms s = { s with trace := s.trace ++ [Event.delay ms] } := by
  simp [platform_delay, to_uint32_of_lt h]

theorem range_9 : List.range 9 = [0, 1, 2, 3, 4, 5, 6, 7, 8] := by decide

theorem range_15 : List.range 15 = [0, 1, 2, 3, 4, 5, 6, 7, 8, 9, 10, 11, 12, 13, 14] := by decide

theorem list_length_10 {α : Type} (l : List α) (h : l.length = 10) :
    ∃ a0 a1 a2 a3 a4 a5 a6 a7 a8 a9, l = [a0, a1, a2, a3, a4, a5, a6, a7, a8, a9] := by
  match l, h with
  | [a0, a1, a2, a3, a4, a5, a6, a7, a8, a9], _ => exact ⟨_, _, _, _, _, _, _, _, _, _, rfl⟩

theorem ads1292_read_data_eq (env : Env) (cs : Int) (s : St) (h : s.spi_dummy_buf.length = 10) :
    ads1292_read_data env cs s =
      { s with trace := s.trace ++
                 ([Event.write_pin (to_uint8 cs) false]
                  ++ (List.range 9).map (fun k => Event.spi 0xFF (env.spi_rx (s.n_spi + k) % 256))
                  ++ [Event.write_pin (to_uint8 cs) true]),
               n_spi := s.n_spi + 9,
               receive_data := env.spi_rx (s.n_spi + 8) % 256,
               spi_dummy_buf := (List.range 9).map (fun k => to_char env (env.spi_rx (s.n_spi + k) % 256))
                                  ++ [s.spi_dummy_buf.getD 9 0] } := by
  obtain ⟨a0, a1, a2, a3, a4, a5, a6, a7, a8, a9, hl⟩ := list_length_10 _ h
  simp [ads1292_read_data, platform_write_pin, platform_spi_transfer,
    bsp_spi_1_transmit_receive, range_9, CONFIG_SPI_MASTER_DUMMY, hl, Nat.add_assoc]

theorem sample_copy_loop_eq (env : Env) (cs : Int) (s : St) (h : s.wf) :
    sample_copy_loop env (ads1292_read_data env cs s) = (frame_buf env s, 9, s.mem_fault) := by
  rw [ads1292_read_data_eq env cs s h.2]
  simp [sample_copy_loop, sample_copy_step, range_9, range_15, h.1, frame_buf, spi_byte_def,
    to_uint8_to_char, List.range']

theorem sample_ready_eq (env : Env) (dr cs : Int) (ds : ads1292_output_value_t) (s : St)
    (hpin : env.gpio_level s.n_pin (to_uint8 dr) = false) (h : s.wf) :
    ads1292_get_ecg_and_respiration_sample env dr cs ds s =
      (base_status_t.BS_OK,
       { daq_vals := (ds.daq_vals.set 0 (sample_decode_group (frame_buf env s) 3)).set 1
                       (sample_decode_group (frame_buf env s) 6),
         lead_off_detected := decide (sample_lead_status (frame_buf env s) &&& 0x1f ≠ 0),
         result_temp_resp := sample_result_temp_resp (frame_buf env s) },
       { s with trace := s.trace ++
                  ([Event.read_pin (to_uint8 dr) false, Event.write_pin (to_uint8 cs) false]
                   ++ (List.range 9).map (fun k => Event.spi 0xFF (spi_byte env s k))
                   ++ [Event.write_pin (to_uint8 cs) true]),
                n_spi := s.n_spi + 9,
                n_pin := s.n_pin + 1,
                receive_data := spi_byte env s 8,
                spi_dummy_buf := (List.range 9).map (fun k => to_char env (spi_byte env s k))
                                   ++ [s.spi_dummy_buf.getD 9 0],
                spi_rx_buf_cnt := 0 }) := by
  have hwf : ({ s with n_pin := s.n_pin + 1,
                       trace := s.trace ++ [Event.read_pin (to_uint8 dr) false] } : St).wf := h
  have hf : ∀ t : St, t.n_spi = s.n_spi → frame_buf env t = frame_buf env s := by
    intro t ht
    simp [frame_buf, spi_byte_def, ht]
  unfold ads1292_get_ecg_and_respiration_sample
  simp only [platform_read_pin, hpin, beq_self_eq_true, if_true]
  rw [sample_copy_loop_eq env cs _ hwf, ads1292_read_data_eq env cs _ hwf.2]
  simp [sample_decode_step, spi_byte_def, hf]

theorem sample_not_ready_eq (env : Env) (dr cs : Int) (ds : ads1292_output_value_t) (s : St)
    (hpin : env.gpio_level s.n_pin (to_uint8 dr) = true) :
    ads1292_get_ecg_and_respiration_sample env dr cs ds s =
      (base_status_t.BS_ERROR, ds,
       { s with trace := s.trace ++ [Event.read_pin (to_uint8 dr) true],
                n_pin := s.n_pin + 1 }) := by
  simp [ads1292_get_ecg_and_respiration_sample, platform_read_pin, hpin]

theorem frame_buf_getD (env : Env) (s : St) (k : Nat) (hk : k < 9) :
    (frame_buf env s).getD k 0 = spi_byte env s k := by
  unfold frame_buf
  rw [range_9]
  interval_cases k <;> rfl

theorem ads1292_init_mismatch_eq (env : Env) (cs pwdn start : Int) (s : St)
    (hid : spi_byte env s 5 ≠ 0x73) :
    ads1292_init env cs pwdn start s =
      (base_status_t.BS_ERROR,
       { s with trace := s.trace ++ init_id_phase env s (to_uint8 cs) (to_uint8 pwdn) (to_uint8 start),
                n_spi := s.n_spi + 6,
                receive_data := spi_byte env s 5,
                ads1293_id := spi_byte env s 5 }) := by
  rw [spi_byte_def] at hid
  simp [ads1292_init, ads1292_reset_eq, ads1292_disable_start_eq, ads1292_enable_start_eq,
    ads1292_hard_stop_eq, ads1292_start_data_conv_command, ads1292_soft_stop,
    ads1292_stop_read_data_continuous, ads1292_spi_command_data_eq, ads1292_reg_read_eq,
    platform_delay, to_uint32, init_id_phase, init_preamble, spi_byte_def, Nat.add_assoc,
    ADS1292_CMD_START, ADS1292_CMD_STOP, ADS1292_CMD_SDATAC, ADS1292_REG_ID,
    ADS1292_ID_ADS1292R, hid]

theorem ads1292_reg_write_switch_config :
    ads1292_reg_write_switch 1 0x00 = 0x00 ∧ ads1292_reg_write_switch 2 160 = 160 ∧
    ads1292_reg_write_switch 3 16 = 16 ∧ ads1292_reg_write_switch 4 64 = 64 ∧
    ads1292_reg_write_switch 5 96 = 96 ∧ ads1292_reg_write_switch 6 44 = 44 ∧
    ads1292_reg_write_switch 7 0x00 = 0x00 ∧ ads1292_reg_write_switch 9 242 = 242 ∧
    ads1292_reg_write_switch 10 3 = 3 := by decide

theorem ads1292_init_match_eq (env : Env) (cs pwdn start : Int) (s : St)
    (hid : spi_byte env s 5 = 0x73) :
    ads1292_init env cs pwdn start s =
      (base_status_t.BS_OK,
       { s with trace := s.trace ++ (init_id_phase env s (to_uint8 cs) (to_uint8 pwdn) (to_uint8 start)
                           ++ init_config_phase env s (to_uint8 cs) (to_uint8 start)),
                n_spi := s.n_spi + 34,
                receive_data := spi_byte env s 33,
                ads1293_id := 0x73 }) := by
  rw [spi_byte_def] at hid
  simp [ads1292_init, ads1292_reset_eq, ads1292_disable_start_eq, ads1292_enable_start_eq,
    ads1292_hard_stop_eq, ads1292_start_data_conv_command, ads1292_soft_stop,
    ads1292_stop_read_data_continuous, ads1292_start_read_data_continuous,
    ads1292_spi_command_data_eq, ads1292_reg_read_eq, ads1292_reg_write_eq,
    ads1292_reg_write_switch_config,
    platform_delay, to_uint32, init_id_phase, init_preamble, init_config_phase, spi_byte_def,
    Nat.add_assoc,
    ADS1292_CMD_START, ADS1292_CMD_STOP, ADS1292_CMD_SDATAC, ADS1292_CMD_RDATAC, ADS1292_REG_ID,
    ADS1292_REG_CONFIG1, ADS1292_REG_CONFIG2, ADS1292_REG_LOFF, ADS1292_REG_CH1SET,
    ADS1292_REG_CH2SET, ADS1292_REG_RLDSENS, ADS1292_REG_LOFFSENS, ADS1292_REG_RESP1,
    ADS1292_REG_RESP2, ADS1292_ID_ADS1292R, hid]

/-! ## Facts used by several statements -/

theorem tx_bytes_append (l1 l2 : List Event) : tx_bytes (l1 ++ l2) = tx_bytes l1 ++ tx_bytes l2 := by
  induction l1 with
  | nil => rfl
  | cons e es ih => cases e <;> simp [tx_bytes, ih]

theorem tx_bytes_command_events (cs op rx : Nat) : tx_bytes (command_events cs op rx) = [op] := rfl

theorem tx_bytes_reg_read_events (cs op rx0 rx1 rx2 : Nat) :
    tx_bytes (reg_read_events cs op rx0 rx1 rx2) = [op, 0, 0] := rfl

theorem tx_bytes_reg_write_events (cs op v rx0 rx1 rx2 : Nat) :
    tx_bytes (reg_write_events cs op v rx0 rx1 rx2) = [op, 0, v] := rfl

theorem tx_bytes_init_id_phase (env : Env) (s : St) (cs pwdn start : Nat) :
    tx_bytes (init_id_phase env s cs pwdn start) = [0x08, 0x0A, 0x11, 0x20, 0x00, 0x00] := by
  simp only [init_id_phase, init_preamble, tx_bytes_append, tx_bytes_command_events,
    tx_bytes_reg_read_events, tx_bytes, List.append_nil, List.nil_append, List.cons_append,
    List.singleton_append]

theorem tx_bytes_delay_cons (ms : Nat) (es : List Event) :
    tx_bytes (Event.delay ms :: es) = tx_bytes es := rfl

theorem tx_bytes_write_pin_cons (p : Nat) (b : Bool) (es : List Event) :
    tx_bytes (Event.write_pin p b :: es) = tx_bytes es := rfl

theorem tx_bytes_nil : tx_bytes [] = [] := rfl

theorem tx_bytes_init_config_phase (env : Env) (s : St) (cs start : Nat) :
    tx_bytes (init_config_phase env s cs start)
      = [0x41, 0x00, 0x00, 0x42, 0x00, 0xA0, 0x43, 0x00, 0x10, 0x44, 0x00, 0x40,
         0x45, 0x00, 0x60, 0x46, 0x00, 0x2C, 0x47, 0x00, 0x00, 0x49, 0x00, 0xF2,
         0x4A, 0x00, 0x03, 0x10] := by
  unfold init_config_phase
  simp only [tx_bytes_append, tx_bytes_command_events,
    tx_bytes_reg_write_events, tx_bytes_delay_cons, tx_bytes_write_pin_cons, tx_bytes_nil]
  rfl

theorem list_length_8 {α : Type} (l : List α) (h : l.length = 8) :
    ∃ a0 a1 a2 a3 a4 a5 a6 a7, l = [a0, a1, a2, a3, a4, a5, a6, a7] := by
  match l, h with
  | [a0, a1, a2, a3, a4, a5, a6, a7], _ => exact ⟨_, _, _, _, _, _, _, _, rfl⟩

theorem and_shiftRight (x m k : Nat) : (x &&& m) >>> k = (x >>> k) &&& (m >>> k) := by
  apply Nat.eq_of_testBit_eq
  intro j
  simp

theorem and_31_eq_mod (x : Nat) : x &&& 31 = x % 32 := Nat.and_pow_two_sub_one_eq_mod x 5

theorem and_15_eq_mod (x : Nat) : x &&& 15 = x % 16 := Nat.and_pow_two_sub_one_eq_mod x 4

set_option maxRecDepth 100000 in
theorem byte_and_128 : ∀ b : Fin 256, (b.val &&& 128 ≠ 0 ↔ 128 ≤ b.val) := by decide

theorem sample_lead_status_eq (spi_rx_buf : List Nat) (h1 : spi_rx_buf.getD 1 0 < 256)
    (h2 : spi_rx_buf.getD 2 0 < 256) :
    sample_lead_status spi_rx_buf &&& 0x1f
      = (spi_rx_buf.getD 0 0 % 16) * 2 + spi_rx_buf.getD 1 0 / 128 := by
  unfold sample_lead_status
  generalize spi_rx_buf.getD 0 0 = b0 at *
  generalize spi_rx_buf.getD 1 0 = b1 at *
  generalize spi_rx_buf.getD 2 0 = b2 at *
  have hst : b2 ||| b1 <<< 8 ||| b0 <<< 16 = b0 * 65536 + b1 * 256 + b2 := by
    rw [← be24_or_eq_add b0 b1 b2 h1 h2, Nat.or_comm b2, Nat.or_comm _ (b0 <<< 16), Nat.or_assoc]
  dsimp only
  rw [hst, and_shiftRight, and_31_eq_mod, Nat.shiftRight_eq_div_pow]
  have h31 : 1015808 >>> 15 = 31 := by decide
  rw [h31, and_31_eq_mod]
  omega

/-! ## Frame decoder -/

/-- C1: for every 3-byte group of the receive buffer (bytes `b0 b1 b2` at offsets
`i`, `i + 1`, `i + 2`), the value the decode loop stores for the group is the 24-bit
big-endian two's-complement value: with `v = b0*65536 + b1*256 + b2` it is `v` when
`v < 8388608` and `v - 16777216` otherwise; the four groups named by the
specification decode to +8388607, -8388608, +1 and -1. -/
theorem sample_decode_group_twos_complement (spi_rx_buf : List Nat) (i : Nat)
    (h0 : spi_rx_buf.getD (i + 0) 0 < 256) (h1 : spi_rx_buf.getD (i + 1) 0 < 256)
    (h2 : spi_rx_buf.getD (i + 2) 0 < 256) :
    sample_decode_group spi_rx_buf i
      = (if spi_rx_buf.getD (i + 0) 0 * 65536 + spi_rx_buf.getD (i + 1) 0 * 256
              + spi_rx_buf.getD (i + 2) 0 < 8388608
         then ((spi_rx_buf.getD (i + 0) 0 * 65536 + spi_rx_buf.getD (i + 1) 0 * 256
              + spi_rx_buf.getD (i + 2) 0 : Nat) : Int)
         else ((spi_rx_buf.getD (i + 0) 0 * 65536 + spi_rx_buf.getD (i + 1) 0 * 256
              + spi_rx_buf.getD (i + 2) 0 : Nat) : Int) - 16777216)
    ∧ sample_decode_group [0x7F, 0xFF, 0xFF] 0 = 8388607
    ∧ sample_decode_group [0x80, 0x00, 0x00] 0 = -8388608
    ∧ sample_decode_group [0x00, 0x00, 0x01] 0 = 1
    ∧ sample_decode_group [0xFF, 0xFF, 0xFF] 0 = -1 := by
  refine ⟨?_, by decide, by decide, by decide, by decide⟩
  rw [sample_decode_group_eq spi_rx_buf i h0 h1 h2]
  rfl

/-- Witness of C1: the ECG group of a frame whose bytes 6, 7, 8 are 0x80, 0x00, 0x01. -/
theorem sample_decode_group_twos_complement_witness :
    ([0, 0, 0, 0x12, 0x34, 0x56, 0x80, 0x00, 0x01].getD (6 + 0) 0 < 256
      ∧ [0, 0, 0, 0x12, 0x34, 0x56, 0x80, 0x00, 0x01].getD (6 + 1) 0 < 256
      ∧ [0, 0, 0, 0x12, 0x34, 0x56, 0x80, 0x00, 0x01].getD (6 + 2) 0 < 256)
    ∧ sample_decode_group [0, 0, 0, 0x12, 0x34, 0x56, 0x80, 0x00, 0x01] 6 = -8388607 :=
  ⟨by decide,
   (sample_decode_group_twos_complement [0, 0, 0, 0x12, 0x34, 0x56, 0x80, 0x00, 0x01] 6
      (by decide) (by decide) (by decide)).1.trans (by decide)⟩

/-- C2: after a frame read, `lead_off_detected` is true exactly when one of bits
15..19 of the status word `byte0<<16 | byte1<<8 | byte2` is set, that is when
`(byte0 & 0x0F) != 0` or `(byte1 & 0x80) != 0`; two frames with the same bytes 0
and 1 give the same flag, whatever byte 2 and the six data bytes are; status bytes
`{0,0,x}` give false and `{0,0x80,x}` give true. -/
theorem sample_lead_off_detected_iff (env : Env) (dr cs : Int) (ds : ads1292_output_value_t)
    (s : St) (hpin : env.gpio_level s.n_pin (to_uint8 dr) = false) (hwf : s.wf) :
    ((ads1292_get_ecg_and_respiration_sample env dr cs ds s).2.1.lead_off_detected = true
        ↔ (spi_byte env s 0 &&& 0x0F ≠ 0 ∨ spi_byte env s 1 &&& 0x80 ≠ 0))
    ∧ ((ads1292_get_ecg_and_respiration_sample env dr cs ds s).2.1.lead_off_detected = true
        ↔ ∃ k, 15 ≤ k ∧ k ≤ 19 ∧
            Nat.testBit (spi_byte env s 0 <<< 16 ||| spi_byte env s 1 <<< 8 ||| spi_byte env s 2) k
              = true)
    ∧ (∀ (env2 : Env) (dr2 cs2 : Int) (ds2 : ads1292_output_value_t) (s2 : St),
        env2.gpio_level s2.n_pin (to_uint8 dr2) = false → s2.wf →
        spi_byte env2 s2 0 = spi_byte env s 0 → spi_byte env2 s2 1 = spi_byte env s 1 →
        (ads1292_get_ecg_and_respiration_sample env2 dr2 cs2 ds2 s2).2.1.lead_off_detected
          = (ads1292_get_ecg_and_respiration_sample env dr cs ds s).2.1.lead_off_detected)
    ∧ (spi_byte env s 0 = 0x00 → spi_byte env s 1 = 0x00 →
        (ads1292_get_ecg_and_respiration_sample env dr cs ds s).2.1.lead_off_detected = false)
    ∧ (spi_byte env s 0 = 0x00 → spi_byte env s 1 = 0x80 →
        (ads1292_get_ecg_and_respiration_sample env dr cs ds s).2.1.lead_off_detected = true) := by
  have key : ∀ (e : Env) (d c : Int) (r : ads1292_output_value_t) (t : St),
      e.gpio_level t.n_pin (to_uint8 d) = false → t.wf →
      ((ads1292_get_ecg_and_respiration_sample e d c r t).2.1.lead_off_detected = true
        ↔ (spi_byte e t 0 % 16) * 2 + spi_byte e t 1 / 128 ≠ 0) := by
    intro e d c r t hp hw
    rw [sample_ready_eq e d c r t hp hw]
    have h1 : (frame_buf e t).getD 1 0 < 256 := by
      rw [frame_buf_getD e t 1 (by decide)]; exact spi_byte_lt e t 1
    have h2 : (frame_buf e t).getD 2 0 < 256 := by
      rw [frame_buf_getD e t 2 (by decide)]; exact spi_byte_lt e t 2
    have hl := sample_lead_status_eq (frame_buf e t) h1 h2
    rw [frame_buf_getD e t 0 (by decide), frame_buf_getD e t 1 (by decide)] at hl
    simp only [decide_eq_true_eq, hl]
  have hb0 := and_15_eq_mod (spi_byte env s 0)
  have hb1 := byte_and_128 ⟨spi_byte env s 1, spi_byte_lt env s 1⟩
  have hlt0 := spi_byte_lt env s 0
  have hlt1 := spi_byte_lt env s 1
  have hlt2 := spi_byte_lt env s 2
  simp only at hb1
  have hmain := key env dr cs ds s hpin hwf
  refine ⟨?_, ?_, ?_, ?_, ?_⟩
  · rw [hmain, hb0, hb1]; omega
  · rw [hmain, be24_or_eq_add _ _ _ hlt1 hlt2]
    constructor
    · intro h
      by_cases h128 : 128 ≤ spi_byte env s 1
      · refine ⟨15, by decide, by decide, ?_⟩
        rw [Nat.testBit_to_div_mod]
        simp only [decide_eq_true_eq]
        omega
      · have hne : spi_byte env s 0 % 16 ≠ 0 := by omega
        by_cases c0 : spi_byte env s 0 % 2 = 1
        · refine ⟨16, by decide, by decide, ?_⟩
          rw [Nat.testBit_to_div_mod]; simp only [decide_eq_true_eq]; omega
        by_cases c1 : spi_byte env s 0 / 2 % 2 = 1
        · refine ⟨17, by decide, by decide, ?_⟩
          rw [Nat.testBit_to_div_mod]; simp only [decide_eq_true_eq]; omega
        by_cases c2 : spi_byte env s 0 / 4 % 2 = 1
        · refine ⟨18, by decide, by decide, ?_⟩
          rw [Nat.testBit_to_div_mod]; simp only [decide_eq_true_eq]; omega
        · refine ⟨19, by decide, by decide, ?_⟩
          rw [Nat.testBit_to_div_mod]; simp only [decide_eq_true_eq]; omega
    · rintro ⟨k, hk1, hk2, hk⟩
      rw [Nat.testBit_to_div_mod] at hk
      simp only [decide_eq_true_eq] at hk
      interval_cases k <;> omega
  · intro env2 dr2 cs2 ds2 s2 hp2 hw2 e0 e1
    have h2 := key env2 dr2 cs2 ds2 s2 hp2 hw2
    rw [e0, e1] at h2
    exact Bool.eq_iff_iff.mpr (h2.trans hmain.symm)
  · intro e0 e1
    rw [e0, e1] at hmain
    simpa using hmain
  · intro e0 e1
    rw [e0, e1] at hmain
    simpa using hmain

/-- Witness of C2: status bytes `{0x00, 0x80, 0x00}` read at power-up. -/
theorem sample_lead_off_detected_iff_witness :
    ((scripted_env false false [0x00, 0x80, 0x00, 1, 2, 3, 4, 5, 6]).gpio_level St.boot.n_pin
        (to_uint8 IO_AFE_DRDY) = false ∧ St.boot.wf)
    ∧ (ads1292_get_ecg_and_respiration_sample
        (scripted_env false false [0x00, 0x80, 0x00, 1, 2, 3, 4, 5, 6])
        IO_AFE_DRDY IO_AFE_CS sample_record_0 St.boot).2.1.lead_off_detected = true :=
  ⟨⟨rfl, rfl, rfl⟩,
   (sample_lead_off_detected_iff (scripted_env false false [0x00, 0x80, 0x00, 1, 2, 3, 4, 5, 6])
      IO_AFE_DRDY IO_AFE_CS sample_record_0 St.boot rfl ⟨rfl, rfl⟩).2.2.2.2 rfl rfl⟩

/-- C3: after a frame read the output pair is ordered respiration first, ECG
second: `daq_vals[0]` is the two's-complement value of frame bytes 3, 4, 5 and
`daq_vals[1]` that of frame bytes 6, 7, 8; each depends on its own three bytes
only, not on the status bytes, the other group, or the previous record. -/
theorem sample_daq_vals_order (env : Env) (dr cs : Int) (ds : ads1292_output_value_t) (s : St)
    (hpin : env.gpio_level s.n_pin (to_uint8 dr) = false) (hwf : s.wf)
    (hlen : ds.daq_vals.length = 8) :
    (ads1292_get_ecg_and_respiration_sample env dr cs ds s).1 = base_status_t.BS_OK
    ∧ (ads1292_get_ecg_and_respiration_sample env dr cs ds s).2.1.daq_vals.getD 0 0
        = twos_complement_24 (spi_byte env s 3) (spi_byte env s 4) (spi_byte env s 5)
    ∧ (ads1292_get_ecg_and_respiration_sample env dr cs ds s).2.1.daq_vals.getD 1 0
        = twos_complement_24 (spi_byte env s 6) (spi_byte env s 7) (spi_byte env s 8)
    ∧ (∀ (env2 : Env) (dr2 cs2 : Int) (ds2 : ads1292_output_value_t) (s2 : St),
        env2.gpio_level s2.n_pin (to_uint8 dr2) = false → s2.wf → ds2.daq_vals.length = 8 →
        spi_byte env2 s2 3 = spi_byte env s 3 → spi_byte env2 s2 4 = spi_byte env s 4 →
        spi_byte env2 s2 5 = spi_byte env s 5 →
        (ads1292_get_ecg_and_respiration_sample env2 dr2 cs2 ds2 s2).2.1.daq_vals.getD 0 0
          = (ads1292_get_ecg_and_respiration_sample env dr cs ds s).2.1.daq_vals.getD 0 0)
    ∧ (∀ (env2 : Env) (dr2 cs2 : Int) (ds2 : ads1292_output_value_t) (s2 : St),
        env2.gpio_level s2.n_pin (to_uint8 dr2) = false → s2.wf → ds2.daq_vals.length = 8 →
        spi_byte env2 s2 6 = spi_byte env s 6 → spi_byte env2 s2 7 = spi_byte env s 7 →
        spi_byte env2 s2 8 = spi_byte env s 8 →
        (ads1292_get_ecg_and_respiration_sample env2 dr2 cs2 ds2 s2).2.1.daq_vals.getD 1 0
          = (ads1292_get_ecg_and_respiration_sample env dr cs ds s).2.1.daq_vals.getD 1 0) := by
  have key : ∀ (e : Env) (d c : Int) (r : ads1292_output_value_t) (t : St),
      e.gpio_level t.n_pin (to_uint8 d) = false → t.wf → r.daq_vals.length = 8 →
      (ads1292_get_ecg_and_respiration_sample e d c r t).2.1.daq_vals.getD 0 0
          = twos_complement_24 (spi_byte e t 3) (spi_byte e t 4) (spi_byte e t 5)
      ∧ (ads1292_get_ecg_and_respiration_sample e d c r t).2.1.daq_vals.getD 1 0
          = twos_complement_24 (spi_byte e t 6) (spi_byte e t 7) (spi_byte e t 8) := by
    intro e d c r t hp hw hl
    obtain ⟨a0, a1, a2, a3, a4, a5, a6, a7, ha⟩ := list_length_8 _ hl
    have g3 := sample_decode_group_eq (frame_buf e t) 3
      (by rw [frame_buf_getD e t (3 + 0) (by decide)]; exact spi_byte_lt e t _)
      (by rw [frame_buf_getD e t (3 + 1) (by decide)]; exact spi_byte_lt e t _)
      (by rw [frame_buf_getD e t (3 + 2) (by decide)]; exact spi_byte_lt e t _)
    have g6 := sample_decode_group_eq (frame_buf e t) 6
      (by rw [frame_buf_getD e t (6 + 0) (by decide)]; exact spi_byte_lt e t _)
      (by rw [frame_buf_getD e t (6 + 1) (by decide)]; exact spi_byte_lt e t _)
      (by rw [frame_buf_getD e t (6 + 2) (by decide)]; exact spi_byte_lt e t _)
    rw [frame_buf_getD e t (3 + 0) (by decide), frame_buf_getD e t (3 + 1) (by decide),
      frame_buf_getD e t (3 + 2) (by decide)] at g3
    rw [frame_buf_getD e t (6 + 0) (by decide), frame_buf_getD e t (6 + 1) (by decide),
      frame_buf_getD e t (6 + 2) (by decide)] at g6
    rw [sample_ready_eq e d c r t hp hw, ha, g3, g6]
    exact ⟨rfl, rfl⟩
  have hmain := key env dr cs ds s hpin hwf hlen
  refine ⟨?_, hmain.1, hmain.2, ?_, ?_⟩
  · rw [sample_ready_eq env dr cs ds s hpin hwf]
  · intro env2 dr2 cs2 ds2 s2 hp2 hw2 hl2 e3 e4 e5
    rw [(key env2 dr2 cs2 ds2 s2 hp2 hw2 hl2).1, hmain.1, e3, e4, e5]
  · intro env2 dr2 cs2 ds2 s2 hp2 hw2 hl2 e6 e7 e8
    rw [(key env2 dr2 cs2 ds2 s2 hp2 hw2 hl2).2, hmain.2, e6, e7, e8]

/-- Witness of C3: the frame `00 00 00 | 00 00 01 | FF FF FF` read at power-up gives
respiration +1 in slot 0 and ECG -1 in slot 1. -/
theorem sample_daq_vals_order_witness :
    ((scripted_env true false [0, 0, 0, 0x00, 0x00, 0x01, 0xFF, 0xFF, 0xFF]).gpio_level
        St.boot.n_pin (to_uint8 IO_AFE_DRDY) = false
      ∧ St.boot.wf ∧ sample_record_0.daq_vals.length = 8)
    ∧ (ads1292_get_ecg_and_respiration_sample
        (scripted_env true false [0, 0, 0, 0x00, 0x00, 0x01, 0xFF, 0xFF, 0xFF])
        IO_AFE_DRDY IO_AFE_CS sample_record_0 St.boot).2.1.daq_vals.getD 0 0 = 1
    ∧ (ads1292_get_ecg_and_respiration_sample
        (scripted_env true false [0, 0, 0, 0x00, 0x00, 0x01, 0xFF, 0xFF, 0xFF])
        IO_AFE_DRDY IO_AFE_CS sample_record_0 St.boot).2.1.daq_vals.getD 1 0 = -1 :=
  ⟨⟨rfl, ⟨rfl, rfl⟩, rfl⟩,
   (sample_daq_vals_order (scripted_env true false [0, 0, 0, 0x00, 0x00, 0x01, 0xFF, 0xFF, 0xFF])
      IO_AFE_DRDY IO_AFE_CS sample_record_0 St.boot rfl ⟨rfl, rfl⟩ rfl).2.1.trans (by decide),
   (sample_daq_vals_order (scripted_env true false [0, 0, 0, 0x00, 0x00, 0x01, 0xFF, 0xFF, 0xFF])
      IO_AFE_DRDY IO_AFE_CS sample_record_0 St.boot rfl ⟨rfl, rfl⟩ rfl).2.2.1.trans (by decide)⟩

/-! ## Frame read -/

/-- C4: when the data-ready pin reads low, the call appends to the transport
history exactly: the pin read, chip-select low, nine transfers of the dummy byte
0xFF, chip-select high (no chip-select write or delay between the transfers); the
k-th received byte is element k of `spi_rx_buf` (k = 0..8); the call returns `BS_OK`. -/
theorem sample_ready_transport (env : Env) (dr cs : Int) (ds : ads1292_output_value_t) (s : St)
    (hpin : env.gpio_level s.n_pin (to_uint8 dr) = false) (hwf : s.wf) :
    (ads1292_get_ecg_and_respiration_sample env dr cs ds s).1 = base_status_t.BS_OK
    ∧ (ads1292_get_ecg_and_respiration_sample env dr cs ds s).2.2.trace
        = s.trace ++
          [Event.read_pin (to_uint8 dr) false,
           Event.write_pin (to_uint8 cs) false,
           Event.spi 0xFF (spi_byte env s 0), Event.spi 0xFF (spi_byte env s 1),
           Event.spi 0xFF (spi_byte env s 2), Event.spi 0xFF (spi_byte env s 3),
           Event.spi 0xFF (spi_byte env s 4), Event.spi 0xFF (spi_byte env s 5),
           Event.spi 0xFF (spi_byte env s 6), Event.spi 0xFF (spi_byte env s 7),
           Event.spi 0xFF (spi_byte env s 8),
           Event.write_pin (to_uint8 cs) true]
    ∧ (∀ k, k < 9 →
        (sample_copy_loop env
            (ads1292_read_data env cs (platform_read_pin env dr s).2)).1.getD k 0
          = spi_byte env s k) := by
  refine ⟨?_, ?_, ?_⟩
  · rw [sample_ready_eq env dr cs ds s hpin hwf]
  · rw [sample_ready_eq env dr cs ds s hpin hwf]
    simp [range_9]
  · intro k hk
    have hwf2 : (platform_read_pin env dr s).2.wf := hwf
    have hf : frame_buf env (platform_read_pin env dr s).2 = frame_buf env s := rfl
    rw [sample_copy_loop_eq env cs _ hwf2, hf]
    exact frame_buf_getD env s k hk

/-- Witness of C4: a frame read at power-up. -/
theorem sample_ready_transport_witness :
    ((scripted_env false false [9, 8, 7, 6, 5, 4, 3, 2, 1]).gpio_level St.boot.n_pin
        (to_uint8 IO_AFE_DRDY) = false ∧ St.boot.wf)
    ∧ (ads1292_get_ecg_and_respiration_sample (scripted_env false false [9, 8, 7, 6, 5, 4, 3, 2, 1])
        IO_AFE_DRDY IO_AFE_CS sample_record_0 St.boot).1 = base_status_t.BS_OK :=
  ⟨⟨rfl, rfl, rfl⟩,
   (sample_ready_transport (scripted_env false false [9, 8, 7, 6, 5, 4, 3, 2, 1])
      IO_AFE_DRDY IO_AFE_CS sample_record_0 St.boot rfl ⟨rfl, rfl⟩).1⟩

/-- C5: when the data-ready pin reads high, the call returns the not-ready
status (`BS_ERROR`) and its only transport operation is the read of the data-ready
pin: no SPI transfer, no chip-select write, no delay; the caller's record and the
`static` storage are left as they were. -/
theorem sample_not_ready_transport (env : Env) (dr cs : Int) (ds : ads1292_output_value_t)
    (s : St) (hpin : env.gpio_level s.n_pin (to_uint8 dr) = true) :
    (ads1292_get_ecg_and_respiration_sample env dr cs ds s).1 = base_status_t.BS_ERROR
    ∧ (ads1292_get_ecg_and_respiration_sample env dr cs ds s).2.2.trace
        = s.trace ++ [Event.read_pin (to_uint8 dr) true]
    ∧ (ads1292_get_ecg_and_respiration_sample env dr cs ds s).2.2.n_spi = s.n_spi
    ∧ (ads1292_get_ecg_and_respiration_sample env dr cs ds s).2.1 = ds
    ∧ (ads1292_get_ecg_and_respiration_sample env dr cs ds s).2.2.spi_rx_buf_cnt
        = s.spi_rx_buf_cnt
    ∧ (ads1292_get_ecg_and_respiration_sample env dr cs ds s).2.2.spi_dummy_buf
        = s.spi_dummy_buf := by
  rw [sample_not_ready_eq env dr cs ds s hpin]
  exact ⟨rfl, rfl, rfl, rfl, rfl, rfl⟩

/-- Witness of C5: a call at power-up with the data-ready pin high. -/
theorem sample_not_ready_transport_witness :
    (scripted_env false true [9, 8, 7, 6, 5, 4, 3, 2, 1]).gpio_level St.boot.n_pin
        (to_uint8 IO_AFE_DRDY) = true
    ∧ (ads1292_get_ecg_and_respiration_sample (scripted_env false true [9, 8, 7, 6, 5, 4, 3, 2, 1])
        IO_AFE_DRDY IO_AFE_CS sample_record_0 St.boot).2.2.trace
        = [Event.read_pin 20 true] :=
  ⟨rfl,
   (sample_not_ready_transport (scripted_env false true [9, 8, 7, 6, 5, 4, 3, 2, 1])
      IO_AFE_DRDY IO_AFE_CS sample_record_0 St.boot rfl).2.1⟩

/-! ## Initialisation -/

theorem events_since_append (s t : St) (l : List Event) (h : t.trace = s.trace ++ l) :
    events_since s t = l := by
  unfold events_since
  rw [h, List.drop_left]

/-- C6: for every device answer sequence and every earlier state of the driver,
`ads1292_init` returns `BS_OK` exactly when the byte received on the third transfer
of the ID-register read is 0x73 (and `BS_ERROR` otherwise); that read comes right
after the three command bytes 0x08, 0x0A, 0x11; the result is the same for any two
runs that receive the same byte there, whatever the other received bytes and the
value left in `ads1293_id` are. -/
theorem ads1292_init_ok_iff (env : Env) (cs pwdn start : Int) (s : St) :
    ((ads1292_init env cs pwdn start s).1 = base_status_t.BS_OK ↔ spi_byte env s 5 = 0x73)
    ∧ ((ads1292_init env cs pwdn start s).1 = base_status_t.BS_ERROR ↔ spi_byte env s 5 ≠ 0x73)
    ∧ (∃ pre post,
        (ads1292_init env cs pwdn start s).2.trace
          = s.trace ++ pre
              ++ reg_read_events (to_uint8 cs) 0x20 (spi_byte env s 3) (spi_byte env s 4)
                   (spi_byte env s 5)
              ++ post
        ∧ tx_bytes pre = [0x08, 0x0A, 0x11])
    ∧ (ads1292_init env cs pwdn start s).2.ads1293_id = spi_byte env s 5
    ∧ (∀ (env2 : Env) (cs2 pwdn2 start2 : Int) (s2 : St),
        spi_byte env2 s2 5 = spi_byte env s 5 →
        (ads1292_init env2 cs2 pwdn2 start2 s2).1 = (ads1292_init env cs pwdn start s).1) := by
  have key : ∀ (e : Env) (c p st : Int) (t : St),
      (ads1292_init e c p st t).1
        = if spi_byte e t 5 = 0x73 then base_status_t.BS_OK else base_status_t.BS_ERROR := by
    intro e c p st t
    by_cases h : spi_byte e t 5 = 0x73
    · rw [ads1292_init_match_eq e c p st t h, if_pos h]
    · rw [ads1292_init_mismatch_eq e c p st t h, if_neg h]
  refine ⟨?_, ?_, ?_, ?_, ?_⟩
  · rw [key]; by_cases h : spi_byte env s 5 = 0x73 <;> simp [h]
  · rw [key]; by_cases h : spi_byte env s 5 = 0x73 <;> simp [h]
  · by_cases h : spi_byte env s 5 = 0x73
    · refine ⟨init_preamble env s (to_uint8 cs) (to_uint8 pwdn) (to_uint8 start),
        init_config_phase env s (to_uint8 cs) (to_uint8 start), ?_, ?_⟩
      · rw [ads1292_init_match_eq env cs pwdn start s h]
        simp only [init_id_phase, List.append_assoc]
      · simp [init_preamble, tx_bytes, command_events]
    · refine ⟨init_preamble env s (to_uint8 cs) (to_uint8 pwdn) (to_uint8 start), [], ?_, ?_⟩
      · rw [ads1292_init_mismatch_eq env cs pwdn start s h]
        simp only [init_id_phase, List.append_assoc, List.append_nil]
      · simp [init_preamble, tx_bytes, command_events]
  · by_cases h : spi_byte env s 5 = 0x73
    · rw [ads1292_init_match_eq env cs pwdn start s h, h]
    · rw [ads1292_init_mismatch_eq env cs pwdn start s h]
  · intro env2 cs2 pwdn2 start2 s2 h2
    rw [key, key, h2]

/-- C7: for every ID byte other than 0x73, `ads1292_init` returns `BS_ERROR` and the
last platform call it makes is the chip-select deassert that ends the ID read; in the
whole call the bytes sent are 0x08, 0x0A, 0x11, 0x20, 0x00, 0x00, so no byte carries
the write-register opcode 0x40 and 0x10 is never sent; after the hard stop the START
pin is not driven high again. -/
theorem ads1292_init_mismatch (env : Env) (cs pwdn start : Int) (s : St)
    (hid : spi_byte env s 5 ≠ 0x73) :
    (ads1292_init env cs pwdn start s).1 = base_status_t.BS_ERROR
    ∧ events_since s (ads1292_init env cs pwdn start s).2
        = ([Event.write_pin (to_uint8 pwdn) true, Event.delay 100,
            Event.write_pin (to_uint8 pwdn) false, Event.delay 100,
            Event.write_pin (to_uint8 pwdn) true, Event.delay 100,
            Event.delay 100,
            Event.write_pin (to_uint8 start) false, Event.delay 20,
            Event.write_pin (to_uint8 start) true, Event.delay 20,
            Event.write_pin (to_uint8 start) false, Event.delay 100]
           ++ (command_events (to_uint8 cs) 0x08 (spi_byte env s 0)
               ++ command_events (to_uint8 cs) 0x0A (spi_byte env s 1)
               ++ [Event.delay 50]
               ++ command_events (to_uint8 cs) 0x11 (spi_byte env s 2)
               ++ [Event.delay 300]
               ++ reg_read_events (to_uint8 cs) 0x20 (spi_byte env s 3) (spi_byte env s 4)
                    (spi_byte env s 5)))
    ∧ (ads1292_init env cs pwdn start s).2.trace.getLast?
        = some (Event.write_pin (to_uint8 cs) true)
    ∧ tx_bytes (events_since s (ads1292_init env cs pwdn start s).2)
        = [0x08, 0x0A, 0x11, 0x20, 0x00, 0x00]
    ∧ (∀ tx, tx ∈ tx_bytes (events_since s (ads1292_init env cs pwdn start s).2) →
        tx &&& 0x40 = 0 ∧ tx ≠ 0x10)
    ∧ (to_uint8 cs ≠ to_uint8 start →
        Event.write_pin (to_uint8 start) true
          ∉ (events_since s (ads1292_init env cs pwdn start s).2).drop 13) := by
  have htr : (ads1292_init env cs pwdn start s).2.trace
      = s.trace ++ init_id_phase env s (to_uint8 cs) (to_uint8 pwdn) (to_uint8 start) := by
    rw [ads1292_init_mismatch_eq env cs pwdn start s hid]
  have hev := events_since_append s _ _ htr
  have htx : tx_bytes (init_id_phase env s (to_uint8 cs) (to_uint8 pwdn) (to_uint8 start))
      = [0x08, 0x0A, 0x11, 0x20, 0x00, 0x00] := by
    exact tx_bytes_init_id_phase env s _ _ _
  refine ⟨?_, ?_, ?_, ?_, ?_, ?_⟩
  · rw [ads1292_init_mismatch_eq env cs pwdn start s hid]
  · rw [hev]
    simp [init_id_phase, init_preamble]
  · rw [htr]
    simp [init_id_phase, init_preamble, reg_read_events, command_events, List.getLast?_append]
  · rw [hev, htx]
  · rw [hev, htx]
    decide
  · intro hne
    rw [hev]
    have hne2 : to_uint8 start ≠ to_uint8 cs := fun h => hne h.symm
    simp [init_id_phase, init_preamble, command_events, reg_read_events, hne2]

/-- Witness of C7: a device that answers the ID read with 0x72. -/
theorem ads1292_init_mismatch_witness :
    spi_byte (scripted_env false true [0, 0, 0, 0, 0, 0x72]) St.boot 5 ≠ 0x73
    ∧ (ads1292_init (scripted_env false true [0, 0, 0, 0, 0, 0x72])
        IO_AFE_CS IO_AFE_RST IO_AFE_START St.boot).1 = base_status_t.BS_ERROR :=
  ⟨by decide,
   (ads1292_init_mismatch (scripted_env false true [0, 0, 0, 0, 0, 0x72])
      IO_AFE_CS IO_AFE_RST IO_AFE_START St.boot (by decide)).1⟩

/-- C8: when the ID byte is 0x73, `ads1292_init` makes exactly these platform calls,
in this order and with nothing in between: reset pin high, 100 ms, low, 100 ms, high,
100 ms; 100 ms; START pin low, 20 ms; START pin high, 20 ms; START pin low, 100 ms;
command 0x08; command 0x0A; 50 ms; command 0x11; 300 ms; read of register 0; nine
register writes each followed by 10 ms; command 0x10; 10 ms; START pin high; 20 ms;
and it returns `BS_OK`. -/
theorem ads1292_init_step_order (env : Env) (cs pwdn start : Int) (s : St)
    (hid : spi_byte env s 5 = 0x73) :
    (ads1292_init env cs pwdn start s).1 = base_status_t.BS_OK
    ∧ events_since s (ads1292_init env cs pwdn start s).2
        = [Event.write_pin (to_uint8 pwdn) true, Event.delay 100,
           Event.write_pin (to_uint8 pwdn) false, Event.delay 100,
           Event.write_pin (to_uint8 pwdn) true, Event.delay 100]
          ++ [Event.delay 100]
          ++ [Event.write_pin (to_uint8 start) false, Event.delay 20]
          ++ [Event.write_pin (to_uint8 start) true, Event.delay 20]
          ++ [Event.write_pin (to_uint8 start) false, Event.delay 100]
          ++ command_events (to_uint8 cs) 0x08 (spi_byte env s 0)
          ++ command_events (to_uint8 cs) 0x0A (spi_byte env s 1)
          ++ [Event.delay 50]
          ++ command_events (to_uint8 cs) 0x11 (spi_byte env s 2)
          ++ [Event.delay 300]
          ++ reg_read_events (to_uint8 cs) (0 ||| 0x20) (spi_byte env s 3) (spi_byte env s 4)
               (spi_byte env s 5)
          ++ reg_write_events (to_uint8 cs) (1 ||| 0x40) 0x00
               (spi_byte env s 6) (spi_byte env s 7) (spi_byte env s 8)
          ++ [Event.delay 10]
          ++ reg_write_events (to_uint8 cs) (2 ||| 0x40) 0xA0
               (spi_byte env s 9) (spi_byte env s 10) (spi_byte env s 11)
          ++ [Event.delay 10]
          ++ reg_write_events (to_uint8 cs) (3 ||| 0x40) 0x10
               (spi_byte env s 12) (spi_byte env s 13) (spi_byte env s 14)
          ++ [Event.delay 10]
          ++ reg_write_events (to_uint8 cs) (4 ||| 0x40) 0x40
               (spi_byte env s 15) (spi_byte env s 16) (spi_byte env s 17)
          ++ [Event.delay 10]
          ++ reg_write_events (to_uint8 cs) (5 ||| 0x40) 0x60
               (spi_byte env s 18) (spi_byte env s 19) (spi_byte env s 20)
          ++ [Event.delay 10]
          ++ reg_write_events (to_uint8 cs) (6 ||| 0x40) 0x2C
               (spi_byte env s 21) (spi_byte env s 22) (spi_byte env s 23)
          ++ [Event.delay 10]
          ++ reg_write_events (to_uint8 cs) (7 ||| 0x40) 0x00
               (spi_byte env s 24) (spi_byte env s 25) (spi_byte env s 26)
          ++ [Event.delay 10]
          ++ reg_write_events (to_uint8 cs) (9 ||| 0x40) 0xF2
               (spi_byte env s 27) (spi_byte env s 28) (spi_byte env s 29)
          ++ [Event.delay 10]
          ++ reg_write_events (to_uint8 cs) (10 ||| 0x40) 0x03
               (spi_byte env s 30) (spi_byte env s 31) (spi_byte env s 32)
          ++ [Event.delay 10]
          ++ command_events (to_uint8 cs) 0x10 (spi_byte env s 33)
          ++ [Event.delay 10]
          ++ [Event.write_pin (to_uint8 start) true, Event.delay 20] := by
  have htr : (ads1292_init env cs pwdn start s).2.trace
      = s.trace ++ (init_id_phase env s (to_uint8 cs) (to_uint8 pwdn) (to_uint8 start)
                    ++ init_config_phase env s (to_uint8 cs) (to_uint8 start)) := by
    rw [ads1292_init_match_eq env cs pwdn start s hid]
  refine ⟨?_, ?_⟩
  · rw [ads1292_init_match_eq env cs pwdn start s hid]
  · rw [events_since_append s _ _ htr]
    simp [init_id_phase, init_preamble, init_config_phase]

/-- Witness of C8: a device that answers the ID read with 0x73, initialised at
power-up on the board's pins. -/
theorem ads1292_init_step_order_witness :
    spi_byte (scripted_env false true [0, 0, 0, 0, 0, 0x73]) St.boot 5 = 0x73
    ∧ (ads1292_init (scripted_env false true [0, 0, 0, 0, 0, 0x73])
        IO_AFE_CS IO_AFE_RST IO_AFE_START St.boot).1 = base_status_t.BS_OK :=
  ⟨by decide,
   (ads1292_init_step_order (scripted_env false true [0, 0, 0, 0, 0, 0x73])
      IO_AFE_CS IO_AFE_RST IO_AFE_START St.boot (by decide)).1⟩

/-! ## Register writes -/

/-- C9: on a successful `ads1292_init` the register writes seen on the wire, as
(address, data byte), are exactly (1,0x00), (2,0xA0), (3,0x10), (4,0x40), (5,0x60),
(6,0x2C), (7,0x00), (9,0xF2), (10,0x03), in this order; the part of the call between
the ID read and the command 0x10 consists of these nine write envelopes, each followed
by a 10 ms delay; the opcode of a write to register 8 is never sent; each
configured value is left unchanged by the write mask. -/
theorem ads1292_init_register_writes (env : Env) (cs pwdn start : Int) (s : St)
    (hid : spi_byte env s 5 = 0x73) :
    wire_reg_writes (tx_bytes (events_since s (ads1292_init env cs pwdn start s).2))
        = [(1, 0x00), (2, 0xA0), (3, 0x10), (4, 0x40), (5, 0x60), (6, 0x2C), (7, 0x00),
           (9, 0xF2), (10, 0x03)]
    ∧ events_since s (ads1292_init env cs pwdn start s).2
        = init_id_phase env s (to_uint8 cs) (to_uint8 pwdn) (to_uint8 start)
          ++ List.flatten (List.map
               (fun w : Nat × Nat × Nat =>
                  reg_write_events (to_uint8 cs) (w.1 ||| 0x40) w.2.1
                    (spi_byte env s w.2.2) (spi_byte env s (w.2.2 + 1))
                    (spi_byte env s (w.2.2 + 2))
                  ++ [Event.delay 10])
               [(1, 0x00, 6), (2, 0xA0, 9), (3, 0x10, 12), (4, 0x40, 15), (5, 0x60, 18),
                (6, 0x2C, 21), (7, 0x00, 24), (9, 0xF2, 27), (10, 0x03, 30)])
          ++ (command_events (to_uint8 cs) 0x10 (spi_byte env s 33)
              ++ [Event.delay 10, Event.write_pin (to_uint8 start) true, Event.delay 20])
    ∧ (ADS1292_REG_LOFFSTAT ||| ADS1292_CMD_WREG)
        ∉ tx_bytes (events_since s (ads1292_init env cs pwdn start s).2)
    ∧ (∀ w : Nat × Nat,
        w ∈ [(ADS1292_REG_CONFIG1, 0x00), (ADS1292_REG_CONFIG2, 160), (ADS1292_REG_LOFF, 16),
             (ADS1292_REG_CH1SET, 64), (ADS1292_REG_CH2SET, 96), (ADS1292_REG_RLDSENS, 44),
             (ADS1292_REG_LOFFSENS, 0x00), (ADS1292_REG_RESP1, 242), (ADS1292_REG_RESP2, 3)] →
        ads1292_reg_write_switch w.1 w.2 = w.2) := by
  have htr : (ads1292_init env cs pwdn start s).2.trace
      = s.trace ++ (init_id_phase env s (to_uint8 cs) (to_uint8 pwdn) (to_uint8 start)
                    ++ init_config_phase env s (to_uint8 cs) (to_uint8 start)) := by
    rw [ads1292_init_match_eq env cs pwdn start s hid]
  have hev := events_since_append s _ _ htr
  have htx : tx_bytes (init_id_phase env s (to_uint8 cs) (to_uint8 pwdn) (to_uint8 start)
                    ++ init_config_phase env s (to_uint8 cs) (to_uint8 start))
      = [0x08, 0x0A, 0x11, 0x20, 0x00, 0x00, 0x41, 0x00, 0x00, 0x42, 0x00, 0xA0,
         0x43, 0x00, 0x10, 0x44, 0x00, 0x40, 0x45, 0x00, 0x60, 0x46, 0x00, 0x2C,
         0x47, 0x00, 0x00, 0x49, 0x00, 0xF2, 0x4A, 0x00, 0x03, 0x10] := by
    rw [tx_bytes_append, tx_bytes_init_id_phase, tx_bytes_init_config_phase]
    rfl
  refine ⟨?_, ?_, ?_, ?_⟩
  · rw [hev, htx]
    decide
  · rw [hev]
    simp only [init_config_phase, List.flatten, List.map, List.append_assoc, List.append_nil]
    rfl
  · rw [hev, htx]
    decide
  · decide

/-- Witness of C9: a device that answers the ID read with 0x73. -/
theorem ads1292_init_register_writes_witness :
    spi_byte (scripted_env true true [1, 2, 3, 4, 5, 0x73, 7, 8]) St.boot 5 = 0x73
    ∧ wire_reg_writes (tx_bytes (events_since St.boot
        (ads1292_init (scripted_env true true [1, 2, 3, 4, 5, 0x73, 7, 8])
          IO_AFE_CS IO_AFE_RST IO_AFE_START St.boot).2))
        = [(1, 0x00), (2, 0xA0), (3, 0x10), (4, 0x40), (5, 0x60), (6, 0x2C), (7, 0x00),
           (9, 0xF2), (10, 0x03)] :=
  ⟨by decide,
   (ads1292_init_register_writes (scripted_env true true [1, 2, 3, 4, 5, 0x73, 7, 8])
      IO_AFE_CS IO_AFE_RST IO_AFE_START St.boot (by decide)).1⟩

set_option maxRecDepth 100000 in
theorem switch_eq_mask_small : ∀ (v : Fin 256) (a : Fin 12),
    ads1292_reg_write_switch a.val v.val = mask_table a.val v.val
      ∧ mask_table a.val v.val < 256 := by decide

theorem switch_eq_mask (a v : Nat) (hv : v < 256) :
    ads1292_reg_write_switch a v = mask_table a v ∧ mask_table a v < 256 := by
  by_cases ha : a < 12
  · exact switch_eq_mask_small ⟨v, hv⟩ ⟨a, ha⟩
  · have h1 : ads1292_reg_write_switch a v = v := by
      unfold ads1292_reg_write_switch
      split <;> omega
    have h2 : mask_table a v = v := by
      unfold mask_table
      split_ifs <;> omega
    rw [h1, h2]
    exact ⟨rfl, hv⟩

/-- C10: for every register address `a` and every 8-bit value `v`, the bytes
`ads1292_reg_write` sends are the opcode `a | 0x40`, the count byte 0x00, and as
third byte the mask table applied to `v` (a=1: `v & 0x87`; a=2: `(v & 0xFB) | 0x80`;
a=3: `(v & 0xFD) | 0x10`; a=7: `v & 0x3F`; a=8: `v & 0x5F`; a=9: `v | 0x02`;
a=10: `(v & 0x87) | 0x01`; a=11: `v & 0x0F`; otherwise `v`); so (1,0xFF) sends 0x87,
(2,0x00) sends 0x80, (9,0xFF) sends 0xFF and (9,0x00) sends 0x02. -/
theorem ads1292_reg_write_wire_data (env : Env) (a v : Nat) (cs : Int) (s : St)
    (ha : a < 256) (hv : v < 256) :
    tx_bytes (events_since s (ads1292_reg_write env a v cs s))
        = [a ||| 0x40, 0x00, mask_table a v]
    ∧ (tx_bytes (events_since s (ads1292_reg_write env a v cs s))).get? 2
        = some (mask_table a v)
    ∧ (tx_bytes (events_since s (ads1292_reg_write env 1 0xFF cs s))).get? 2 = some 0x87
    ∧ (tx_bytes (events_since s (ads1292_reg_write env 2 0x00 cs s))).get? 2 = some 0x80
    ∧ (tx_bytes (events_since s (ads1292_reg_write env 9 0xFF cs s))).get? 2 = some 0xFF
    ∧ (tx_bytes (events_since s (ads1292_reg_write env 9 0x00 cs s))).get? 2 = some 0x02 := by
  have key : ∀ (b w : Nat), w < 256 →
      tx_bytes (events_since s (ads1292_reg_write env b w cs s))
        = [(b ||| 0x40) % 256, 0x00, mask_table b w] := by
    intro b w hw
    have htr : (ads1292_reg_write env b w cs s).trace
        = s.trace ++ reg_write_events (to_uint8 cs) ((b ||| 0x40) % 256)
            (ads1292_reg_write_switch b w % 256) (env.spi_rx s.n_spi % 256)
            (env.spi_rx (s.n_spi + 1) % 256) (env.spi_rx (s.n_spi + 2) % 256) := by
      rw [ads1292_reg_write_eq]
    rw [events_since_append s _ _ htr, tx_bytes_reg_write_events, (switch_eq_mask b w hw).1,
      Nat.mod_eq_of_lt (switch_eq_mask b w hw).2]
  have hop : (a ||| 0x40) % 256 = a ||| 0x40 :=
    Nat.mod_eq_of_lt (Nat.or_lt_two_pow (n := 8) ha (by decide))
  refine ⟨by rw [key a v hv, hop], ?_, ?_, ?_, ?_, ?_⟩
  · rw [key a v hv]; rfl
  · rw [key 1 0xFF (by decide)]; rfl
  · rw [key 2 0x00 (by decide)]; rfl
  · rw [key 9 0xFF (by decide)]; rfl
  · rw [key 9 0x00 (by decide)]; rfl

/-- Witness of C10: a write of 0xFF to register 10 at power-up sends 0x4A, 0x00, 0x87. -/
theorem ads1292_reg_write_wire_data_witness :
    ((10 : Nat) < 256 ∧ (0xFF : Nat) < 256)
    ∧ tx_bytes (events_since St.boot
        (ads1292_reg_write (scripted_env false true []) 10 0xFF IO_AFE_CS St.boot))
        = [0x4A, 0x00, 0x87] :=
  ⟨by decide,
   (ads1292_reg_write_wire_data (scripted_env false true []) 10 0xFF IO_AFE_CS St.boot
      (by decide) (by decide)).1.trans (by decide)⟩

/-! ## The invariant of the static storage -/

theorem St.boot_wf : St.boot.wf := ⟨rfl, rfl⟩

theorem ads1292_init_wf (env : Env) (cs pwdn start : Int) (s : St) (h : s.wf) :
    (ads1292_init env cs pwdn start s).2.wf := by
  by_cases hid : spi_byte env s 5 = 0x73
  · rw [ads1292_init_match_eq env cs pwdn start s hid]; exact h
  · rw [ads1292_init_mismatch_eq env cs pwdn start s hid]; exact h

theorem ads1292_get_ecg_and_respiration_sample_wf (env : Env) (dr cs : Int)
    (ds : ads1292_output_value_t) (s : St) (h : s.wf) :
    (ads1292_get_ecg_and_respiration_sample env dr cs ds s).2.2.wf := by
  cases hpin : env.gpio_level s.n_pin (to_uint8 dr)
  · rw [sample_ready_eq env dr cs ds s hpin h]
    exact ⟨rfl, by simp [range_9]⟩
  · rw [sample_not_ready_eq env dr cs ds s hpin]; exact h

/-! ## Reserved bits of the register writes -/

theorem ads1292_reg_write_tx_bytes (env : Env) (a v : Nat) (cs : Int) (s : St) :
    tx_bytes (events_since s (ads1292_reg_write env a v cs s))
      = [(a ||| 0x40) % 256, 0x00, ads1292_reg_write_switch a v % 256] := by
  have htr : (ads1292_reg_write env a v cs s).trace
      = s.trace ++ reg_write_events (to_uint8 cs) ((a ||| 0x40) % 256)
          (ads1292_reg_write_switch a v % 256) (env.spi_rx s.n_spi % 256)
          (env.spi_rx (s.n_spi + 1) % 256) (env.spi_rx (s.n_spi + 2) % 256) := by
    rw [ads1292_reg_write_eq]
  rw [events_since_append s _ _ htr, tx_bytes_reg_write_events]

set_option maxRecDepth 100000 in
theorem switch_reserved_bits : ∀ v : Fin 256,
    (Nat.testBit (ads1292_reg_write_switch 2 v.val % 256) 7 = true
      ∧ Nat.testBit (ads1292_reg_write_switch 2 v.val % 256) 2 = false)
    ∧ (Nat.testBit (ads1292_reg_write_switch 3 v.val % 256) 4 = true
      ∧ Nat.testBit (ads1292_reg_write_switch 3 v.val % 256) 1 = false)
    ∧ Nat.testBit (ads1292_reg_write_switch 9 v.val % 256) 1 = true
    ∧ (Nat.testBit (ads1292_reg_write_switch 10 v.val % 256) 0 = true
      ∧ ads1292_reg_write_switch 10 v.val % 256 &&& 0x78 = 0)
    ∧ ads1292_reg_write_switch 1 v.val % 256 &&& 0x78 = 0
    ∧ ads1292_reg_write_switch 7 v.val % 256 &&& 0xC0 = 0
    ∧ ads1292_reg_write_switch 8 v.val % 256 &&& 0xA0 = 0
    ∧ ads1292_reg_write_switch 11 v.val % 256 &&& 0xF0 = 0 := by decide

/-- C11: for every caller-supplied 8-bit value `v`, the data byte `ads1292_reg_write`
sends (its third byte) respects the reserved bits of the addressed register: address
2 has bit 7 set and bit 2 clear; address 3 has bit 4 set and bit 1 clear; address 9
has bit 1 set; address 10 has bit 0 set and bits 3..6 clear; address 1 has bits 3..6
clear; address 7 has bits 6..7 clear; address 8 has bits 5 and 7 clear; address 11
has bits 4..7 clear. -/
theorem ads1292_reg_write_reserved_bits (env : Env) (v : Nat) (cs : Int) (s : St)
    (hv : v < 256) :
    (∃ d, tx_bytes (events_since s (ads1292_reg_write env 2 v cs s)) = [0x42, 0x00, d]
        ∧ Nat.testBit d 7 = true ∧ Nat.testBit d 2 = false)
    ∧ (∃ d, tx_bytes (events_since s (ads1292_reg_write env 3 v cs s)) = [0x43, 0x00, d]
        ∧ Nat.testBit d 4 = true ∧ Nat.testBit d 1 = false)
    ∧ (∃ d, tx_bytes (events_since s (ads1292_reg_write env 9 v cs s)) = [0x49, 0x00, d]
        ∧ Nat.testBit d 1 = true)
    ∧ (∃ d, tx_bytes (events_since s (ads1292_reg_write env 10 v cs s)) = [0x4A, 0x00, d]
        ∧ Nat.testBit d 0 = true
        ∧ Nat.testBit d 3 = false ∧ Nat.testBit d 4 = false
        ∧ Nat.testBit d 5 = false ∧ Nat.testBit d 6 = false)
    ∧ (∃ d, tx_bytes (events_since s (ads1292_reg_write env 1 v cs s)) = [0x41, 0x00, d]
        ∧ Nat.testBit d 3 = false ∧ Nat.testBit d 4 = false
        ∧ Nat.testBit d 5 = false ∧ Nat.testBit d 6 = false)
    ∧ (∃ d, tx_bytes (events_since s (ads1292_reg_write env 7 v cs s)) = [0x47, 0x00, d]
        ∧ Nat.testBit d 6 = false ∧ Nat.testBit d 7 = false)
    ∧ (∃ d, tx_bytes (events_since s (ads1292_reg_write env 8 v cs s)) = [0x48, 0x00, d]
        ∧ Nat.testBit d 5 = false ∧ Nat.testBit d 7 = false)
    ∧ (∃ d, tx_bytes (events_since s (ads1292_reg_write env 11 v cs s)) = [0x4B, 0x00, d]
        ∧ Nat.testBit d 4 = false ∧ Nat.testBit d 5 = false
        ∧ Nat.testBit d 6 = false ∧ Nat.testBit d 7 = false) := by
  have clr : ∀ (d m k : Nat), d &&& m = 0 → Nat.testBit m k = true → Nat.testBit d k = false := by
    intro d m k h hm
    have := Nat.testBit_and d m k
    rw [h, hm] at this
    simpa using this.symm
  obtain ⟨⟨h2a, h2b⟩, ⟨h3a, h3b⟩, h9, ⟨h10a, h10b⟩, h1, h7, h8, h11⟩ := switch_reserved_bits ⟨v, hv⟩
  simp only at h2a h2b h3a h3b h9 h10a h10b h1 h7 h8 h11
  refine ⟨⟨_, ads1292_reg_write_tx_bytes env 2 v cs s, h2a, h2b⟩,
    ⟨_, ads1292_reg_write_tx_bytes env 3 v cs s, h3a, h3b⟩,
    ⟨_, ads1292_reg_write_tx_bytes env 9 v cs s, h9⟩,
    ⟨_, ads1292_reg_write_tx_bytes env 10 v cs s, h10a,
      clr _ _ 3 h10b (by decide), clr _ _ 4 h10b (by decide), clr _ _ 5 h10b (by decide),
      clr _ _ 6 h10b (by decide)⟩,
    ⟨_, ads1292_reg_write_tx_bytes env 1 v cs s,
      clr _ _ 3 h1 (by decide), clr _ _ 4 h1 (by decide), clr _ _ 5 h1 (by decide),
      clr _ _ 6 h1 (by decide)⟩,
    ⟨_, ads1292_reg_write_tx_bytes env 7 v cs s, clr _ _ 6 h7 (by decide),
      clr _ _ 7 h7 (by decide)⟩,
    ⟨_, ads1292_reg_write_tx_bytes env 8 v cs s, clr _ _ 5 h8 (by decide),
      clr _ _ 7 h8 (by decide)⟩,
    ⟨_, ads1292_reg_write_tx_bytes env 11 v cs s, clr _ _ 4 h11 (by decide),
      clr _ _ 5 h11 (by decide), clr _ _ 6 h11 (by decide), clr _ _ 7 h11 (by decide)⟩⟩

/-- Witness of C11: the value 0x7F written to each masked register at power-up;
register 2 receives 0xFB, with bit 7 set and bit 2 clear. -/
theorem ads1292_reg_write_reserved_bits_witness :
    (0x7F : Nat) < 256
    ∧ ∃ d, tx_bytes (events_since St.boot
            (ads1292_reg_write (scripted_env false true []) 2 0x7F IO_AFE_CS St.boot))
          = [0x42, 0x00, d]
        ∧ Nat.testBit d 7 = true ∧ Nat.testBit d 2 = false :=
  ⟨by decide,
   (ads1292_reg_write_reserved_bits (scripted_env false true []) 0x7F IO_AFE_CS St.boot
      (by decide)).1⟩

/-! ## Values written by a frame read -/

theorem sample_result_temp_resp_eq (spi_rx_buf : List Nat)
    (h3 : spi_rx_buf.getD 3 0 < 256) (h4 : spi_rx_buf.getD 4 0 < 256)
    (h5 : spi_rx_buf.getD 5 0 < 256) :
    sample_result_temp_resp spi_rx_buf
      = 256 * twos_complement_24 (spi_rx_buf.getD 3 0) (spi_rx_buf.getD 4 0)
          (spi_rx_buf.getD 5 0) := by
  unfold sample_result_temp_resp twos_complement_24
  generalize spi_rx_buf.getD 3 0 = b3 at *
  generalize spi_rx_buf.getD 4 0 = b4 at *
  generalize spi_rx_buf.getD 5 0 = b5 at *
  have h0 : (0 <<< 24 ||| b3 <<< 16 ||| b4 <<< 8 ||| b5) = b3 * 65536 + b4 * 256 + b5 := by
    rw [Nat.zero_shiftLeft, Nat.zero_or, be24_or_eq_add b3 b4 b5 h4 h5]
  have hv : b3 * 65536 + b4 * 256 + b5 < 16777216 := by omega
  dsimp only
  rw [h0]
  generalize b3 * 65536 + b4 * 256 + b5 = v at *
  have hs : v <<< 8 = v * 256 := by rw [Nat.shiftLeft_eq]
  rw [to_uint32_of_lt (show v < 4294967296 by omega), hs,
    to_uint32_of_lt (show v * 256 < 4294967296 by omega)]
  unfold to_long
  split <;> split <;> omega

theorem sample_ready_values (env : Env) (dr cs : Int) (ds : ads1292_output_value_t) (s : St)
    (hpin : env.gpio_level s.n_pin (to_uint8 dr) = false) (hwf : s.wf)
    (hlen : ds.daq_vals.length = 8) :
    (ads1292_get_ecg_and_respiration_sample env dr cs ds s).1 = base_status_t.BS_OK
    ∧ (ads1292_get_ecg_and_respiration_sample env dr cs ds s).2.1.daq_vals.getD 0 0
        = twos_complement_24 (spi_byte env s 3) (spi_byte env s 4) (spi_byte env s 5)
    ∧ (ads1292_get_ecg_and_respiration_sample env dr cs ds s).2.1.daq_vals.getD 1 0
        = twos_complement_24 (spi_byte env s 6) (spi_byte env s 7) (spi_byte env s 8)
    ∧ (ads1292_get_ecg_and_respiration_sample env dr cs ds s).2.1.result_temp_resp
        = 256 * twos_complement_24 (spi_byte env s 3) (spi_byte env s 4) (spi_byte env s 5)
    ∧ (ads1292_get_ecg_and_respiration_sample env dr cs ds s).2.1.lead_off_detected
        = decide (spi_byte env s 0 &&& 0x0F ≠ 0 ∨ spi_byte env s 1 &&& 0x80 ≠ 0) := by
  obtain ⟨a0, a1, a2, a3, a4, a5, a6, a7, ha⟩ := list_length_8 _ hlen
  have hb : ∀ k, k < 9 → (frame_buf env s).getD k 0 < 256 := by
    intro k hk
    rw [frame_buf_getD env s k hk]; exact spi_byte_lt env s k
  have g3 := sample_decode_group_eq (frame_buf env s) 3 (hb _ (by decide)) (hb _ (by decide))
    (hb _ (by decide))
  have g6 := sample_decode_group_eq (frame_buf env s) 6 (hb _ (by decide)) (hb _ (by decide))
    (hb _ (by decide))
  have gr := sample_result_temp_resp_eq (frame_buf env s) (hb _ (by decide)) (hb _ (by decide))
    (hb _ (by decide))
  have gl := sample_lead_status_eq (frame_buf env s) (hb _ (by decide)) (hb _ (by decide))
  rw [frame_buf_getD env s (3 + 0) (by decide), frame_buf_getD env s (3 + 1) (by decide),
    frame_buf_getD env s (3 + 2) (by decide)] at g3
  rw [frame_buf_getD env s (6 + 0) (by decide), frame_buf_getD env s (6 + 1) (by decide),
    frame_buf_getD env s (6 + 2) (by decide)] at g6
  rw [frame_buf_getD env s 3 (by decide), frame_buf_getD env s 4 (by decide),
    frame_buf_getD env s 5 (by decide)] at gr
  rw [frame_buf_getD env s 0 (by decide), frame_buf_getD env s 1 (by decide)] at gl
  have hb0 := and_15_eq_mod (spi_byte env s 0)
  have hb1 := byte_and_128 ⟨spi_byte env s 1, spi_byte_lt env s 1⟩
  simp only at hb1
  rw [sample_ready_eq env dr cs ds s hpin hwf, ha, g3, g6, gr]
  refine ⟨rfl, rfl, rfl, rfl, ?_⟩
  show decide (sample_lead_status (frame_buf env s) &&& 0x1f ≠ 0) = _
  rw [gl, hb0]
  apply Bool.eq_iff_iff.mpr
  simp only [decide_eq_true_eq]
  rw [hb1]
  omega

theorem Reachable.wf {s : St} (h : Reachable s) : s.wf := by
  induction h with
  | boot => exact St.boot_wf
  | init env cs pwdn start s _ ih => exact ads1292_init_wf env cs pwdn start s ih
  | sample env dr cs ds s _ ih => exact ads1292_get_ecg_and_respiration_sample_wf env dr cs ds s ih

theorem ads1292_init_match_fields (env : Env) (cs pwdn start : Int) (s : St)
    (hid : spi_byte env s 5 = 0x73) :
    (ads1292_init env cs pwdn start s).2.n_spi = s.n_spi + 34
    ∧ (ads1292_init env cs pwdn start s).2.n_pin = s.n_pin := by
  rw [ads1292_init_match_eq env cs pwdn start s hid]
  exact ⟨rfl, rfl⟩

/-- C12: end to end, for every 9-byte frame `f`: against a transport that answers
the ID read with 0x73, then reads the data-ready pin low and returns `f 0 .. f 8`
on the nine frame transfers, `ads1292_init` returns `BS_OK` and the following
`ads1292_get_ecg_and_respiration_sample` returns `BS_OK` with `daq_vals[0]` the
two's-complement value of `f 3, f 4, f 5`, `daq_vals[1]` that of `f 6, f 7, f 8`, and
`lead_off_detected` equal to `(f 0 & 0x0F) != 0 or (f 1 & 0x80) != 0`. -/
theorem init_then_sample_end_to_end (env : Env) (dr cs pwdn start : Int)
    (ds : ads1292_output_value_t) (s : St) (f : Nat → Nat)
    (hwf : s.wf) (hlen : ds.daq_vals.length = 8)
    (hid : spi_byte env s 5 = 0x73)
    (hpin : env.gpio_level s.n_pin (to_uint8 dr) = false)
    (hf : ∀ k, k < 9 → spi_byte env s (34 + k) = f k) :
    (ads1292_init env cs pwdn start s).1 = base_status_t.BS_OK
    ∧ (ads1292_get_ecg_and_respiration_sample env dr cs ds
        (ads1292_init env cs pwdn start s).2).1 = base_status_t.BS_OK
    ∧ (ads1292_get_ecg_and_respiration_sample env dr cs ds
        (ads1292_init env cs pwdn start s).2).2.1.daq_vals.getD 0 0
        = twos_complement_24 (f 3) (f 4) (f 5)
    ∧ (ads1292_get_ecg_and_respiration_sample env dr cs ds
        (ads1292_init env cs pwdn start s).2).2.1.daq_vals.getD 1 0
        = twos_complement_24 (f 6) (f 7) (f 8)
    ∧ (ads1292_get_ecg_and_respiration_sample env dr cs ds
        (ads1292_init env cs pwdn start s).2).2.1.lead_off_detected
        = decide (f 0 &&& 0x0F ≠ 0 ∨ f 1 &&& 0x80 ≠ 0) := by
  have hfields := ads1292_init_match_fields env cs pwdn start s hid
  have hwf1 := ads1292_init_wf env cs pwdn start s hwf
  have hpin1 : env.gpio_level (ads1292_init env cs pwdn start s).2.n_pin (to_uint8 dr) = false := by
    rw [hfields.2]; exact hpin
  have hb : ∀ k, k < 9 → spi_byte env (ads1292_init env cs pwdn start s).2 k = f k := by
    intro k hk
    rw [← hf k hk, spi_byte_def, spi_byte_def, hfields.1, Nat.add_assoc]
  have hv := sample_ready_values env dr cs ds _ hpin1 hwf1 hlen
  rw [hb 0 (by decide), hb 1 (by decide), hb 3 (by decide), hb 4 (by decide), hb 5 (by decide),
    hb 6 (by decide), hb 7 (by decide), hb 8 (by decide)] at hv
  refine ⟨?_, hv.1, hv.2.1, hv.2.2.1, hv.2.2.2.2⟩
  rw [ads1292_init_match_eq env cs pwdn start s hid]

/-- Witness of C12: at power-up, a device that answers the ID read with 0x73 and then
streams the frame `00 80 00 | 00 00 01 | FF FF FF`. -/
theorem init_then_sample_end_to_end_witness :
    (St.boot.wf ∧ sample_record_0.daq_vals.length = 8
      ∧ spi_byte (scripted_env false false ([0, 0, 0, 0, 0, 0x73] ++ List.replicate 28 0
            ++ [0x00, 0x80, 0x00, 0x00, 0x00, 0x01, 0xFF, 0xFF, 0xFF])) St.boot 5 = 0x73)
    ∧ (ads1292_get_ecg_and_respiration_sample
        (scripted_env false false ([0, 0, 0, 0, 0, 0x73] ++ List.replicate 28 0
            ++ [0x00, 0x80, 0x00, 0x00, 0x00, 0x01, 0xFF, 0xFF, 0xFF]))
        IO_AFE_DRDY IO_AFE_CS sample_record_0
        (ads1292_init
          (scripted_env false false ([0, 0, 0, 0, 0, 0x73] ++ List.replicate 28 0
            ++ [0x00, 0x80, 0x00, 0x00, 0x00, 0x01, 0xFF, 0xFF, 0xFF]))
          IO_AFE_CS IO_AFE_RST IO_AFE_START St.boot).2).2.1.daq_vals.getD 1 0 = -1 :=
  ⟨⟨⟨rfl, rfl⟩, rfl, by decide⟩,
   (init_then_sample_end_to_end
      (scripted_env false false ([0, 0, 0, 0, 0, 0x73] ++ List.replicate 28 0
            ++ [0x00, 0x80, 0x00, 0x00, 0x00, 0x01, 0xFF, 0xFF, 0xFF]))
      IO_AFE_DRDY IO_AFE_CS IO_AFE_RST IO_AFE_START sample_record_0 St.boot
      (fun k => [0x00, 0x80, 0x00, 0x00, 0x00, 0x01, 0xFF, 0xFF, 0xFF].getD k 0)
      ⟨rfl, rfl⟩ rfl (by decide) rfl
      (by intro k hk; interval_cases k <;> rfl)).2.2.2.1.trans (by decide)⟩

/-- C13: decoding is deterministic and history-independent: for any two states of
the driver reachable by earlier calls, two frame reads that receive the same nine
bytes return `BS_OK` and write the same `daq_vals[0]`, `daq_vals[1]`,
`result_temp_resp` and `lead_off_detected`. -/
theorem sample_history_independent (env1 env2 : Env) (dr1 cs1 dr2 cs2 : Int)
    (ds1 ds2 : ads1292_output_value_t) (s1 s2 : St)
    (hr1 : Reachable s1) (hr2 : Reachable s2)
    (hp1 : env1.gpio_level s1.n_pin (to_uint8 dr1) = false)
    (hp2 : env2.gpio_level s2.n_pin (to_uint8 dr2) = false)
    (hl1 : ds1.daq_vals.length = 8) (hl2 : ds2.daq_vals.length = 8)
    (hf : ∀ k, k < 9 → spi_byte env1 s1 k = spi_byte env2 s2 k) :
    (ads1292_get_ecg_and_respiration_sample env1 dr1 cs1 ds1 s1).1 = base_status_t.BS_OK
    ∧ (ads1292_get_ecg_and_respiration_sample env2 dr2 cs2 ds2 s2).1 = base_status_t.BS_OK
    ∧ (ads1292_get_ecg_and_respiration_sample env1 dr1 cs1 ds1 s1).2.1.daq_vals.getD 0 0
        = (ads1292_get_ecg_and_respiration_sample env2 dr2 cs2 ds2 s2).2.1.daq_vals.getD 0 0
    ∧ (ads1292_get_ecg_and_respiration_sample env1 dr1 cs1 ds1 s1).2.1.daq_vals.getD 1 0
        = (ads1292_get_ecg_and_respiration_sample env2 dr2 cs2 ds2 s2).2.1.daq_vals.getD 1 0
    ∧ (ads1292_get_ecg_and_respiration_sample env1 dr1 cs1 ds1 s1).2.1.result_temp_resp
        = (ads1292_get_ecg_and_respiration_sample env2 dr2 cs2 ds2 s2).2.1.result_temp_resp
    ∧ (ads1292_get_ecg_and_respiration_sample env1 dr1 cs1 ds1 s1).2.1.lead_off_detected
        = (ads1292_get_ecg_and_respiration_sample env2 dr2 cs2 ds2 s2).2.1.lead_off_detected := by
  have h1 := sample_ready_values env1 dr1 cs1 ds1 s1 hp1 hr1.wf hl1
  have h2 := sample_ready_values env2 dr2 cs2 ds2 s2 hp2 hr2.wf hl2
  rw [hf 0 (by decide), hf 1 (by decide), hf 3 (by decide), hf 4 (by decide), hf 5 (by decide),
    hf 6 (by decide), hf 7 (by decide), hf 8 (by decide)] at h1
  exact ⟨h1.1, h2.1, h1.2.1.trans h2.2.1.symm, h1.2.2.1.trans h2.2.2.1.symm,
    h1.2.2.2.1.trans h2.2.2.2.1.symm, h1.2.2.2.2.trans h2.2.2.2.2.symm⟩

/-- Witness of C13: the frame `01 80 02 | 80 00 01 | 7F FF FF` read at power-up, and
read again by a driver that has already read another frame with `char` signed. -/
theorem sample_history_independent_witness :
    (Reachable St.boot
      ∧ Reachable (ads1292_get_ecg_and_respiration_sample
          (scripted_env true false [0xFF, 0xFF, 0xFF, 0xFF, 0xFF, 0xFF, 0xFF, 0xFF, 0xFF,
            0x01, 0x80, 0x02, 0x80, 0x00, 0x01, 0x7F, 0xFF, 0xFF])
          IO_AFE_DRDY IO_AFE_CS sample_record_0 St.boot).2.2)
    ∧ (ads1292_get_ecg_and_respiration_sample
        (scripted_env false false [0x01, 0x80, 0x02, 0x80, 0x00, 0x01, 0x7F, 0xFF, 0xFF])
        IO_AFE_DRDY IO_AFE_CS sample_record_0 St.boot).2.1.result_temp_resp
      = (ads1292_get_ecg_and_respiration_sample
          (scripted_env true false [0xFF, 0xFF, 0xFF, 0xFF, 0xFF, 0xFF, 0xFF, 0xFF, 0xFF,
            0x01, 0x80, 0x02, 0x80, 0x00, 0x01, 0x7F, 0xFF, 0xFF])
          IO_AFE_DRDY IO_AFE_CS sample_record_0
          (ads1292_get_ecg_and_respiration_sample
            (scripted_env true false [0xFF, 0xFF, 0xFF, 0xFF, 0xFF, 0xFF, 0xFF, 0xFF, 0xFF,
              0x01, 0x80, 0x02, 0x80, 0x00, 0x01, 0x7F, 0xFF, 0xFF])
            IO_AFE_DRDY IO_AFE_CS sample_record_0 St.boot).2.2).2.1.result_temp_resp :=
  ⟨⟨Reachable.boot, Reachable.sample _ _ _ _ _ Reachable.boot⟩,
   (sample_history_independent
      (scripted_env false false [0x01, 0x80, 0x02, 0x80, 0x00, 0x01, 0x7F, 0xFF, 0xFF])
      (scripted_env true false [0xFF, 0xFF, 0xFF, 0xFF, 0xFF, 0xFF, 0xFF, 0xFF, 0xFF,
        0x01, 0x80, 0x02, 0x80, 0x00, 0x01, 0x7F, 0xFF, 0xFF])
      IO_AFE_DRDY IO_AFE_CS IO_AFE_DRDY IO_AFE_CS sample_record_0 sample_record_0
      St.boot
      (ads1292_get_ecg_and_respiration_sample
        (scripted_env true false [0xFF, 0xFF, 0xFF, 0xFF, 0xFF, 0xFF, 0xFF, 0xFF, 0xFF,
          0x01, 0x80, 0x02, 0x80, 0x00, 0x01, 0x7F, 0xFF, 0xFF])
        IO_AFE_DRDY IO_AFE_CS sample_record_0 St.boot).2.2
      Reachable.boot (Reachable.sample _ _ _ _ _ Reachable.boot) rfl rfl rfl rfl
      (by intro k hk; interval_cases k <;> rfl)).2.2.2.2.1⟩

/-- C14: after a frame read, `result_temp_resp` is the 24-bit big-endian value `v` of
frame bytes 3, 4, 5 shifted left by 8 in a 32-bit word and read as a signed 32-bit
value; its low 8 bits are zero; it is 256 times `daq_vals[0]`, and shifted right
arithmetically by 8 it equals `daq_vals[0]`. -/
theorem sample_result_temp_resp_raw (env : Env) (dr cs : Int) (ds : ads1292_output_value_t)
    (s : St) (hpin : env.gpio_level s.n_pin (to_uint8 dr) = false) (hwf : s.wf)
    (hlen : ds.daq_vals.length = 8) :
    (ads1292_get_ecg_and_respiration_sample env dr cs ds s).2.1.result_temp_resp
        = to_long (to_uint32
            ((spi_byte env s 3 * 65536 + spi_byte env s 4 * 256 + spi_byte env s 5) <<< 8))
    ∧ (ads1292_get_ecg_and_respiration_sample env dr cs ds s).2.1.result_temp_resp
        = (if (spi_byte env s 3 * 65536 + spi_byte env s 4 * 256 + spi_byte env s 5) * 256
                < 2147483648
           then (((spi_byte env s 3 * 65536 + spi_byte env s 4 * 256 + spi_byte env s 5) * 256
                : Nat) : Int)
           else (((spi_byte env s 3 * 65536 + spi_byte env s 4 * 256 + spi_byte env s 5) * 256
                : Nat) : Int) - 4294967296)
    ∧ (ads1292_get_ecg_and_respiration_sample env dr cs ds s).2.1.result_temp_resp % 256 = 0
    ∧ (ads1292_get_ecg_and_respiration_sample env dr cs ds s).2.1.result_temp_resp
        = 256 * (ads1292_get_ecg_and_respiration_sample env dr cs ds s).2.1.daq_vals.getD 0 0
    ∧ (ads1292_get_ecg_and_respiration_sample env dr cs ds s).2.1.result_temp_resp >>> (8 : Nat)
        = (ads1292_get_ecg_and_respiration_sample env dr cs ds s).2.1.daq_vals.getD 0 0 := by
  have hv := sample_ready_values env dr cs ds s hpin hwf hlen
  have h3 := spi_byte_lt env s 3
  have h4 := spi_byte_lt env s 4
  have h5 := spi_byte_lt env s 5
  rw [hv.2.2.2.1, hv.2.1, shiftRight_8_eq_div]
  unfold twos_complement_24
  generalize spi_byte env s 3 = b3 at *
  generalize spi_byte env s 4 = b4 at *
  generalize spi_byte env s 5 = b5 at *
  have hlt : b3 * 65536 + b4 * 256 + b5 < 16777216 := by omega
  generalize b3 * 65536 + b4 * 256 + b5 = v at *
  have hs : v <<< 8 = v * 256 := by rw [Nat.shiftLeft_eq]
  rw [hs, to_uint32_of_lt (show v * 256 < 4294967296 by omega)]
  unfold to_long
  refine ⟨?_, ?_, ?_, rfl, ?_⟩
  · split <;> split <;> omega
  · split <;> split <;> omega
  · split <;> omega
  · split <;> omega

/-- Witness of C14: the respiration group `80 00 01` read at power-up gives the raw
field -2147483392, which is 256 times -8388607. -/
theorem sample_result_temp_resp_raw_witness :
    ((scripted_env false false [0, 0, 0, 0x80, 0x00, 0x01, 0, 0, 0]).gpio_level St.boot.n_pin
        (to_uint8 IO_AFE_DRDY) = false
      ∧ St.boot.wf ∧ sample_record_0.daq_vals.length = 8)
    ∧ (ads1292_get_ecg_and_respiration_sample
        (scripted_env false false [0, 0, 0, 0x80, 0x00, 0x01, 0, 0, 0])
        IO_AFE_DRDY IO_AFE_CS sample_record_0 St.boot).2.1.result_temp_resp = -2147483392 :=
  ⟨⟨rfl, ⟨rfl, rfl⟩, rfl⟩,
   (sample_result_temp_resp_raw (scripted_env false false [0, 0, 0, 0x80, 0x00, 0x01, 0, 0, 0])
      IO_AFE_DRDY IO_AFE_CS sample_record_0 St.boot rfl ⟨rfl, rfl⟩ rfl).1.trans (by decide)⟩

/-! ## Chip-select discipline -/

theorem last_pin_write_append (pin : Nat) (l1 l2 : List Event) :
    last_pin_write pin (l1 ++ l2)
      = match last_pin_write pin l2 with
        | some l => some l
        | none => last_pin_write pin l1 := by
  induction l1 with
  | nil => cases h : last_pin_write pin l2 <;> simp [last_pin_write, h]
  | cons e es ih =>
    cases e with
    | write_pin p b =>
      have e1 : last_pin_write pin (Event.write_pin p b :: (es ++ l2))
          = match last_pin_write pin (es ++ l2) with
            | some l => some l
            | none => if p = pin then some b else none := rfl
      have e2 : last_pin_write pin (Event.write_pin p b :: es)
          = match last_pin_write pin es with
            | some l => some l
            | none => if p = pin then some b else none := rfl
      rw [List.cons_append, e1, e2, ih]
      cases last_pin_write pin l2 <;> rfl
    | read_pin p l => simpa [last_pin_write] using ih
    | delay ms => simpa [last_pin_write] using ih
    | spi tx rx => simpa [last_pin_write] using ih

theorem last_pin_write_append_some (pin : Nat) (l1 l2 : List Event) (b : Bool)
    (h : last_pin_write pin l2 = some b) : last_pin_write pin (l1 ++ l2) = some b := by
  rw [last_pin_write_append, h]

theorem last_pin_write_append_none (pin : Nat) (l1 l2 : List Event)
    (h : last_pin_write pin l2 = none) :
    last_pin_write pin (l1 ++ l2) = last_pin_write pin l1 := by
  rw [last_pin_write_append, h]

theorem last_pin_write_command_events (cs op rx : Nat) :
    last_pin_write cs (command_events cs op rx) = some true := by
  simp [command_events, last_pin_write]

theorem last_pin_write_reg_read_events (cs op rx0 rx1 rx2 : Nat) :
    last_pin_write cs (reg_read_events cs op rx0 rx1 rx2) = some true := by
  simp [reg_read_events, last_pin_write]

theorem last_pin_write_reg_write_events (cs op v rx0 rx1 rx2 : Nat) :
    last_pin_write cs (reg_write_events cs op v rx0 rx1 rx2) = some true := by
  simp [reg_write_events, last_pin_write]

theorem ads1292_read_data_trace (env : Env) (cs : Int) (s : St) :
    (ads1292_read_data env cs s).trace
      = s.trace ++
          [Event.write_pin (to_uint8 cs) false,
           Event.spi 0xFF (spi_byte env s 0), Event.spi 0xFF (spi_byte env s 1),
           Event.spi 0xFF (spi_byte env s 2), Event.spi 0xFF (spi_byte env s 3),
           Event.spi 0xFF (spi_byte env s 4), Event.spi 0xFF (spi_byte env s 5),
           Event.spi 0xFF (spi_byte env s 6), Event.spi 0xFF (spi_byte env s 7),
           Event.spi 0xFF (spi_byte env s 8),
           Event.write_pin (to_uint8 cs) true] := by
  simp [ads1292_read_data, platform_write_pin, platform_spi_transfer,
    bsp_spi_1_transmit_receive, range_9, CONFIG_SPI_MASTER_DUMMY, spi_byte_def, Nat.add_assoc]

theorem sample_trace (env : Env) (dr cs : Int) (ds : ads1292_output_value_t) (s : St) :
    (ads1292_get_ecg_and_respiration_sample env dr cs ds s).2.2.trace
      = if env.gpio_level s.n_pin (to_uint8 dr) = false then
          s.trace ++
            [Event.read_pin (to_uint8 dr) false,
             Event.write_pin (to_uint8 cs) false,
             Event.spi 0xFF (spi_byte env s 0), Event.spi 0xFF (spi_byte env s 1),
             Event.spi 0xFF (spi_byte env s 2), Event.spi 0xFF (spi_byte env s 3),
             Event.spi 0xFF (spi_byte env s 4), Event.spi 0xFF (spi_byte env s 5),
             Event.spi 0xFF (spi_byte env s 6), Event.spi 0xFF (spi_byte env s 7),
             Event.spi 0xFF (spi_byte env s 8),
             Event.write_pin (to_uint8 cs) true]
        else s.trace ++ [Event.read_pin (to_uint8 dr) true] := by
  cases hpin : env.gpio_level s.n_pin (to_uint8 dr)
  · have h := ads1292_read_data_trace env cs (platform_read_pin env dr s).2
    simp only [ads1292_get_ecg_and_respiration_sample, platform_read_pin, hpin,
      beq_self_eq_true, if_true] at h ⊢
    rw [h]
    simp [spi_byte_def]
  · simp [ads1292_get_ecg_and_respiration_sample, platform_read_pin, hpin]

theorem ads1292_reg_read_trace (env : Env) (a : Nat) (cs : Int) (s : St) :
    (ads1292_reg_read env a cs s).2.trace
      = s.trace ++ reg_read_events (to_uint8 cs) ((a ||| 0x20) % 256)
          (spi_byte env s 0) (spi_byte env s 1) (spi_byte env s 2) := by
  rw [ads1292_reg_read_eq]
  rfl

theorem ads1292_reg_write_trace (env : Env) (a v : Nat) (cs : Int) (s : St) :
    (ads1292_reg_write env a v cs s).trace
      = s.trace ++ reg_write_events (to_uint8 cs) ((a ||| 0x40) % 256)
          (ads1292_reg_write_switch a v % 256)
          (spi_byte env s 0) (spi_byte env s 1) (spi_byte env s 2) := by
  rw [ads1292_reg_write_eq]
  rfl

theorem ads1292_spi_command_data_trace (env : Env) (op : Nat) (cs : Int) (s : St) :
    (ads1292_spi_command_data env op cs s).trace
      = s.trace ++ command_events (to_uint8 cs) (op % 256) (spi_byte env s 0) := by
  rw [ads1292_spi_command_data_eq]
  rfl

theorem last_pin_write_init_config_phase (env : Env) (s : St) (cs start : Nat) :
    last_pin_write cs (init_config_phase env s cs start) = some true := by
  unfold init_config_phase
  by_cases h : start = cs
  · apply last_pin_write_append_some
    simp [last_pin_write, h]
  · rw [last_pin_write_append_none _ _ _ (by simp [last_pin_write, h]),
      last_pin_write_append_none _ _ _ (by simp [last_pin_write])]
    exact last_pin_write_append_some _ _ _ _ (last_pin_write_command_events cs _ _)

theorem last_pin_write_init_id_phase (env : Env) (s : St) (cs pwdn start : Nat) :
    last_pin_write cs (init_id_phase env s cs pwdn start) = some true := by
  unfold init_id_phase
  exact last_pin_write_append_some _ _ _ _ (last_pin_write_reg_read_events cs _ _ _ _)

/-- C15: on both return paths of `ads1292_init`, on the frame-read path of
`ads1292_get_ecg_and_respiration_sample`, and at the end of every register read,
register write, command and frame read, the most recent level written to the
chip-select pin during the call is high; on the not-ready path the call writes no pin
at all, so the chip-select level is the one the previous call left. -/
theorem chip_select_deasserted_on_return (env : Env) (dr cs pwdn start : Int)
    (ds : ads1292_output_value_t) (s : St) (a v op : Nat) :
    last_pin_write (to_uint8 cs) (events_since s (ads1292_init env cs pwdn start s).2)
        = some true
    ∧ last_pin_write (to_uint8 cs) (ads1292_init env cs pwdn start s).2.trace = some true
    ∧ last_pin_write (to_uint8 cs)
          (events_since s (ads1292_get_ecg_and_respiration_sample env dr cs ds s).2.2)
        = (if env.gpio_level s.n_pin (to_uint8 dr) = false then some true else none)
    ∧ last_pin_write (to_uint8 cs)
          (ads1292_get_ecg_and_respiration_sample env dr cs ds s).2.2.trace
        = (if env.gpio_level s.n_pin (to_uint8 dr) = false then some true
           else last_pin_write (to_uint8 cs) s.trace)
    ∧ last_pin_write (to_uint8 cs) (events_since s (ads1292_reg_read env a cs s).2) = some true
    ∧ last_pin_write (to_uint8 cs) (events_since s (ads1292_reg_write env a v cs s)) = some true
    ∧ last_pin_write (to_uint8 cs) (events_since s (ads1292_spi_command_data env op cs s))
        = some true
    ∧ last_pin_write (to_uint8 cs) (events_since s (ads1292_read_data env cs s)) = some true := by
  have hinit : ∃ l, (ads1292_init env cs pwdn start s).2.trace = s.trace ++ l
      ∧ last_pin_write (to_uint8 cs) l = some true := by
    by_cases hid : spi_byte env s 5 = 0x73
    · refine ⟨init_id_phase env s (to_uint8 cs) (to_uint8 pwdn) (to_uint8 start)
          ++ init_config_phase env s (to_uint8 cs) (to_uint8 start), ?_,
        last_pin_write_append_some _ _ _ _
          (last_pin_write_init_config_phase env s (to_uint8 cs) (to_uint8 start))⟩
      rw [ads1292_init_match_eq env cs pwdn start s hid]
    · refine ⟨init_id_phase env s (to_uint8 cs) (to_uint8 pwdn) (to_uint8 start), ?_,
        last_pin_write_init_id_phase env s (to_uint8 cs) (to_uint8 pwdn) (to_uint8 start)⟩
      rw [ads1292_init_mismatch_eq env cs pwdn start s hid]
  obtain ⟨l, hl, hlast⟩ := hinit
  have hsample := sample_trace env dr cs ds s
  refine ⟨?_, ?_, ?_, ?_, ?_, ?_, ?_, ?_⟩
  · rw [events_since_append s _ _ hl, hlast]
  · rw [hl]; exact last_pin_write_append_some _ _ _ _ hlast
  · cases hpin : env.gpio_level s.n_pin (to_uint8 dr)
    · rw [hpin] at hsample
      simp only [if_true] at hsample ⊢
      rw [events_since_append s _ _ hsample]
      simp [last_pin_write]
    · rw [hpin] at hsample
      simp only [Bool.true_eq_false, if_false] at hsample ⊢
      rw [events_since_append s _ _ hsample]
      simp [last_pin_write]
  · cases hpin : env.gpio_level s.n_pin (to_uint8 dr)
    · rw [hpin] at hsample
      simp only [if_true] at hsample ⊢
      rw [hsample]
      apply last_pin_write_append_some
      simp [last_pin_write]
    · rw [hpin] at hsample
      simp only [Bool.true_eq_false, if_false] at hsample ⊢
      rw [hsample]
      apply last_pin_write_append_none
      simp [last_pin_write]
  · rw [events_since_append s _ _ (ads1292_reg_read_trace env a cs s)]
    exact last_pin_write_reg_read_events _ _ _ _ _
  · rw [events_since_append s _ _ (ads1292_reg_write_trace env a v cs s)]
    exact last_pin_write_reg_write_events _ _ _ _ _ _
  · rw [events_since_append s _ _ (ads1292_spi_command_data_trace env op cs s)]
    exact last_pin_write_command_events _ _ _
  · rw [events_since_append s _ _ (ads1292_read_data_trace env cs s)]
    simp [last_pin_write]

/-! ## Status of the transfers -/

theorem platform_spi_transfer_status_irrelevant (env : Env) (g : Nat → Bool) (data : Nat)
    (s : St) :
    platform_spi_transfer { env with spi_success := g } data s = platform_spi_transfer env data s :=
  rfl

theorem ads1292_init_status_irrelevant (env : Env) (g : Nat → Bool) (cs pwdn start : Int)
    (s : St) :
    ads1292_init { env with spi_success := g } cs pwdn start s
      = ads1292_init env cs pwdn start s := by
  by_cases hid : spi_byte env s 5 = 0x73
  · have hid2 : spi_byte { env with spi_success := g } s 5 = 0x73 := hid
    rw [ads1292_init_match_eq env cs pwdn start s hid,
      ads1292_init_match_eq { env with spi_success := g } cs pwdn start s hid2]
    rfl
  · have hid2 : spi_byte { env with spi_success := g } s 5 ≠ 0x73 := hid
    rw [ads1292_init_mismatch_eq env cs pwdn start s hid,
      ads1292_init_mismatch_eq { env with spi_success := g } cs pwdn start s hid2]
    rfl

theorem ads1292_read_data_status_irrelevant (env : Env) (g : Nat → Bool) (cs : Int) (s : St) :
    ads1292_read_data { env with spi_success := g } cs s = ads1292_read_data env cs s := rfl

theorem sample_status_irrelevant (env : Env) (g : Nat → Bool) (dr cs : Int)
    (ds : ads1292_output_value_t) (s : St) :
    ads1292_get_ecg_and_respiration_sample { env with spi_success := g } dr cs ds s
      = ads1292_get_ecg_and_respiration_sample env dr cs ds s := rfl

/-- C16, counterexample: on a transport where every SPI transfer reports failure
(`bsp_spi_1_transmit_receive` returns `BS_ERROR`), `ads1292_init` still returns
`BS_OK` when the byte left in the receive buffer by the ID read is 0x73, and a frame
read still returns `BS_OK` with samples decoded from the failed transfers. -/
theorem transfer_failure_not_propagated :
    (bsp_spi_1_transmit_receive (failing_env false [0, 0, 0, 0, 0, 0x73]) 5).1
        = base_status_t.BS_ERROR
    ∧ (ads1292_init (failing_env false [0, 0, 0, 0, 0, 0x73])
        IO_AFE_CS IO_AFE_RST IO_AFE_START St.boot).1 = base_status_t.BS_OK
    ∧ (bsp_spi_1_transmit_receive (failing_env false [0, 0, 0, 0, 0, 1, 0xFF, 0xFF, 0xFF]) 8).1
        = base_status_t.BS_ERROR
    ∧ (ads1292_get_ecg_and_respiration_sample
        (failing_env false [0, 0, 0, 0, 0, 1, 0xFF, 0xFF, 0xFF])
        IO_AFE_DRDY IO_AFE_CS sample_record_0 St.boot).1 = base_status_t.BS_OK
    ∧ (ads1292_get_ecg_and_respiration_sample
        (failing_env false [0, 0, 0, 0, 0, 1, 0xFF, 0xFF, 0xFF])
        IO_AFE_DRDY IO_AFE_CS sample_record_0 St.boot).2.1.daq_vals
        = [1, -1, 13, 14, 15, 16, 17, 18] := by
  refine ⟨by decide, by decide, by decide, by decide, by decide⟩

/-- C16, as amended: the status reported by the SPI transfers has no influence on
the driver: whatever each transfer reports, `ads1292_init` and
`ads1292_get_ecg_and_respiration_sample` return the same status, outputs and state;
`ads1292_init` returns `BS_OK` exactly when the byte left in the receive buffer by the
third transfer of the ID read is 0x73, and the sample call returns `BS_OK` exactly
when the data-ready pin reads low. -/
theorem transfer_status_ignored (env : Env) (g : Nat → Bool) (dr cs pwdn start : Int)
    (ds : ads1292_output_value_t) (s : St) :
    ads1292_init { env with spi_success := g } cs pwdn start s
        = ads1292_init env cs pwdn start s
    ∧ ads1292_get_ecg_and_respiration_sample { env with spi_success := g } dr cs ds s
        = ads1292_get_ecg_and_respiration_sample env dr cs ds s
    ∧ ((ads1292_init { env with spi_success := g } cs pwdn start s).1 = base_status_t.BS_OK
        ↔ spi_byte env s 5 = 0x73)
    ∧ ((ads1292_get_ecg_and_respiration_sample { env with spi_success := g } dr cs ds s).1
          = base_status_t.BS_OK
        ↔ env.gpio_level s.n_pin (to_uint8 dr) = false) := by
  refine ⟨ads1292_init_status_irrelevant env g cs pwdn start s,
    sample_status_irrelevant env g dr cs ds s, ?_, ?_⟩
  · rw [ads1292_init_status_irrelevant]
    by_cases hid : spi_byte env s 5 = 0x73
    · rw [ads1292_init_match_eq env cs pwdn start s hid]; simp [hid]
    · rw [ads1292_init_mismatch_eq env cs pwdn start s hid]; simp [hid]
  · rw [sample_status_irrelevant]
    cases hpin : env.gpio_level s.n_pin (to_uint8 dr)
    · simp [ads1292_get_ecg_and_respiration_sample, platform_read_pin, hpin]
    · simp [ads1292_get_ecg_and_respiration_sample, platform_read_pin, hpin]

/-! ## Status of the not-ready path -/

/-- C17, counterexample: with the data-ready pin high the sample call returns
`BS_ERROR`, the very status `ads1292_init` returns for a device whose ID is not 0x73. -/
theorem not_ready_returns_bs_error :
    (ads1292_get_ecg_and_respiration_sample (scripted_env false true [1, 2, 3])
        IO_AFE_DRDY IO_AFE_CS sample_record_0 St.boot).1 = base_status_t.BS_ERROR
    ∧ (ads1292_init (scripted_env false true [0, 0, 0, 0, 0, 0x72])
        IO_AFE_CS IO_AFE_RST IO_AFE_START St.boot).1
      = (ads1292_get_ecg_and_respiration_sample (scripted_env false true [1, 2, 3])
        IO_AFE_DRDY IO_AFE_CS sample_record_0 St.boot).1 := by
  refine ⟨by decide, by decide⟩

/-- C17, as amended: when the data-ready input is not asserted the sample call
reports not-ready by returning `BS_ERROR`: a status different from `BS_OK`, and the
same status `ads1292_init` returns for a device that was not found. -/
theorem not_ready_status (env : Env) (dr cs : Int) (ds : ads1292_output_value_t) (s : St)
    (hpin : env.gpio_level s.n_pin (to_uint8 dr) = true) :
    (ads1292_get_ecg_and_respiration_sample env dr cs ds s).1 = base_status_t.BS_ERROR
    ∧ (ads1292_get_ecg_and_respiration_sample env dr cs ds s).1 ≠ base_status_t.BS_OK
    ∧ (∀ (env2 : Env) (cs2 pwdn2 start2 : Int) (s2 : St), spi_byte env2 s2 5 ≠ 0x73 →
        (ads1292_init env2 cs2 pwdn2 start2 s2).1
          = (ads1292_get_ecg_and_respiration_sample env dr cs ds s).1) := by
  rw [sample_not_ready_eq env dr cs ds s hpin]
  refine ⟨rfl, ?_, ?_⟩
  · intro h
    exact base_status_t.noConfusion h
  · intro env2 cs2 pwdn2 start2 s2 hid
    rw [ads1292_init_mismatch_eq env2 cs2 pwdn2 start2 s2 hid]

/-- Witness of C17 as amended: a call at power-up with the data-ready pin high. -/
theorem not_ready_status_witness :
    (scripted_env true true [7, 7, 7]).gpio_level St.boot.n_pin (to_uint8 IO_AFE_DRDY) = true
    ∧ (ads1292_get_ecg_and_respiration_sample (scripted_env true true [7, 7, 7])
        IO_AFE_DRDY IO_AFE_CS sample_record_0 St.boot).1 ≠ base_status_t.BS_OK :=
  ⟨rfl,
   (not_ready_status (scripted_env true true [7, 7, 7]) IO_AFE_DRDY IO_AFE_CS sample_record_0
      St.boot rfl).2.1⟩

/-! ## Envelopes of the register and command primitives -/

/-- C18, counterexample: the write of 0xFF to register 1 at power-up does not make
the seven platform calls of the claimed sequence (chip-select low, 2 ms, three
transfers, 2 ms, chip-select high): it makes eleven, with four chip-select writes and
four delays. -/
theorem reg_write_envelope_not_two_toggles :
    events_since St.boot
        (ads1292_reg_write (scripted_env false true []) 1 0xFF IO_AFE_CS St.boot)
      ≠ [Event.write_pin 31 false, Event.delay 2, Event.spi 0x41 0, Event.spi 0x00 0,
         Event.spi 0x87 0, Event.delay 2, Event.write_pin 31 true]
    ∧ pin_write_count (events_since St.boot
        (ads1292_reg_write (scripted_env false true []) 1 0xFF IO_AFE_CS St.boot)) = 4
    ∧ delay_count (events_since St.boot
        (ads1292_reg_write (scripted_env false true []) 1 0xFF IO_AFE_CS St.boot)) = 4
    ∧ (events_since St.boot
        (ads1292_reg_write (scripted_env false true []) 1 0xFF IO_AFE_CS St.boot)).length = 11 := by
  refine ⟨by decide, by decide, by decide, by decide⟩

/-- C18, as amended: for every address `a` and 8-bit value `v`, `ads1292_reg_write`
makes exactly these platform calls: chip-select low, 2 ms, chip-select high, 2 ms,
chip-select low, 2 ms, transfer of `a | 0x40`, transfer of 0x00, transfer of the
masked value, 2 ms, chip-select high; that is four chip-select writes, four delays
and three transfers. -/
theorem ads1292_reg_write_envelope (env : Env) (a v : Nat) (cs : Int) (s : St)
    (ha : a < 256) (hv : v < 256) :
    events_since s (ads1292_reg_write env a v cs s)
      = [Event.write_pin (to_uint8 cs) false, Event.delay 2,
         Event.write_pin (to_uint8 cs) true, Event.delay 2,
         Event.write_pin (to_uint8 cs) false, Event.delay 2,
         Event.spi (a ||| 0x40) (spi_byte env s 0),
         Event.spi 0x00 (spi_byte env s 1),
         Event.spi (mask_table a v) (spi_byte env s 2),
         Event.delay 2,
         Event.write_pin (to_uint8 cs) true]
    ∧ pin_write_count (events_since s (ads1292_reg_write env a v cs s)) = 4
    ∧ delay_count (events_since s (ads1292_reg_write env a v cs s)) = 4
    ∧ spi_count (events_since s (ads1292_reg_write env a v cs s)) = 3 := by
  have hop : (a ||| 0x40) % 256 = a ||| 0x40 :=
    Nat.mod_eq_of_lt (Nat.or_lt_two_pow (n := 8) ha (by decide))
  have hm := switch_eq_mask a v hv
  rw [events_since_append s _ _ (ads1292_reg_write_trace env a v cs s), hop, hm.1,
    Nat.mod_eq_of_lt hm.2]
  exact ⟨rfl, rfl, rfl, rfl⟩

/-- Witness of C18 as amended: the write of 0xFF to register 1 at power-up. -/
theorem ads1292_reg_write_envelope_witness :
    ((1 : Nat) < 256 ∧ (0xFF : Nat) < 256)
    ∧ events_since St.boot
        (ads1292_reg_write (scripted_env false true []) 1 0xFF IO_AFE_CS St.boot)
      = [Event.write_pin 31 false, Event.delay 2, Event.write_pin 31 true, Event.delay 2,
         Event.write_pin 31 false, Event.delay 2, Event.spi 0x41 0, Event.spi 0x00 0,
         Event.spi 0x87 0, Event.delay 2, Event.write_pin 31 true] :=
  ⟨by decide,
   (ads1292_reg_write_envelope (scripted_env false true []) 1 0xFF IO_AFE_CS St.boot
      (by decide) (by decide)).1.trans (by decide)⟩

/-- C19, counterexample: the read of register 0 at power-up does not make the seven
platform calls of the claimed sequence (chip-select low, 2 ms, three transfers, 2 ms,
chip-select high): it makes eleven, with four chip-select writes and four delays. -/
theorem reg_read_envelope_not_two_toggles :
    events_since St.boot
        (ads1292_reg_read (scripted_env false true [0, 0, 0x73]) 0 IO_AFE_CS St.boot).2
      ≠ [Event.write_pin 31 false, Event.delay 2, Event.spi 0x20 0, Event.spi 0x00 0,
         Event.spi 0x00 0x73, Event.delay 2, Event.write_pin 31 true]
    ∧ pin_write_count (events_since St.boot
        (ads1292_reg_read (scripted_env false true [0, 0, 0x73]) 0 IO_AFE_CS St.boot).2) = 4
    ∧ delay_count (events_since St.boot
        (ads1292_reg_read (scripted_env false true [0, 0, 0x73]) 0 IO_AFE_CS St.boot).2) = 4
    ∧ (events_since St.boot
        (ads1292_reg_read (scripted_env false true [0, 0, 0x73]) 0 IO_AFE_CS St.boot).2).length
      = 11 := by
  refine ⟨by decide, by decide, by decide, by decide⟩

/-- C19, as amended: for every address `a`, `ads1292_reg_read` makes exactly these
platform calls: chip-select low, 2 ms, chip-select high, 2 ms, chip-select low, 2 ms,
transfer of `a | 0x20`, transfer of 0x00, transfer of 0x00, 2 ms, chip-select high;
the value it returns is the byte received during the third transfer, with no mask
applied. -/
theorem ads1292_reg_read_envelope (env : Env) (a : Nat) (cs : Int) (s : St) (ha : a < 256) :
    events_since s (ads1292_reg_read env a cs s).2
      = [Event.write_pin (to_uint8 cs) false, Event.delay 2,
         Event.write_pin (to_uint8 cs) true, Event.delay 2,
         Event.write_pin (to_uint8 cs) false, Event.delay 2,
         Event.spi (a ||| 0x20) (spi_byte env s 0),
         Event.spi 0x00 (spi_byte env s 1),
         Event.spi 0x00 (spi_byte env s 2),
         Event.delay 2,
         Event.write_pin (to_uint8 cs) true]
    ∧ (ads1292_reg_read env a cs s).1 = spi_byte env s 2
    ∧ pin_write_count (events_since s (ads1292_reg_read env a cs s).2) = 4
    ∧ delay_count (events_since s (ads1292_reg_read env a cs s).2) = 4
    ∧ spi_count (events_since s (ads1292_reg_read env a cs s).2) = 3 := by
  have hop : (a ||| 0x20) % 256 = a ||| 0x20 :=
    Nat.mod_eq_of_lt (Nat.or_lt_two_pow (n := 8) ha (by decide))
  have hval : (ads1292_reg_read env a cs s).1 = spi_byte env s 2 := by
    rw [ads1292_reg_read_eq]
    rfl
  rw [events_since_append s _ _ (ads1292_reg_read_trace env a cs s), hop]
  exact ⟨rfl, hval, rfl, rfl, rfl⟩

/-- Witness of C19 as amended: the read of register 0 at power-up returns the third
received byte, 0xF3, unmasked. -/
theorem ads1292_reg_read_envelope_witness :
    (0 : Nat) < 256
    ∧ (ads1292_reg_read (scripted_env false true [0x11, 0x22, 0xF3]) 0 IO_AFE_CS St.boot).1
      = 0xF3 :=
  ⟨by decide,
   (ads1292_reg_read_envelope (scripted_env false true [0x11, 0x22, 0xF3]) 0 IO_AFE_CS St.boot
      (by decide)).2.1.trans (by decide)⟩

/-- C20: each of the four command primitives (START 0x08, STOP 0x0A,
start-continuous-read 0x10, stop-continuous-read 0x11) makes exactly the calls of the
four-toggle envelope: chip-select low, 2 ms, chip-select high, 2 ms, chip-select
low, 2 ms, one transfer of the opcode byte, 2 ms, chip-select high; so every command
costs one transfer, four chip-select writes and 8 ms of delay. -/
theorem command_primitives_envelope (env : Env) (cs : Int) (s : St) :
    (events_since s (ads1292_start_data_conv_command env cs s)
        = [Event.write_pin (to_uint8 cs) false, Event.delay 2,
           Event.write_pin (to_uint8 cs) true, Event.delay 2,
           Event.write_pin (to_uint8 cs) false, Event.delay 2,
           Event.spi 0x08 (spi_byte env s 0), Event.delay 2,
           Event.write_pin (to_uint8 cs) true]
      ∧ spi_count (events_since s (ads1292_start_data_conv_command env cs s)) = 1
      ∧ pin_write_count (events_since s (ads1292_start_data_conv_command env cs s)) = 4
      ∧ delay_total (events_since s (ads1292_start_data_conv_command env cs s)) = 8)
    ∧ (events_since s (ads1292_soft_stop env cs s)
        = [Event.write_pin (to_uint8 cs) false, Event.delay 2,
           Event.write_pin (to_uint8 cs) true, Event.delay 2,
           Event.write_pin (to_uint8 cs) false, Event.delay 2,
           Event.spi 0x0A (spi_byte env s 0), Event.delay 2,
           Event.write_pin (to_uint8 cs) true]
      ∧ spi_count (events_since s (ads1292_soft_stop env cs s)) = 1
      ∧ pin_write_count (events_since s (ads1292_soft_stop env cs s)) = 4
      ∧ delay_total (events_since s (ads1292_soft_stop env cs s)) = 8)
    ∧ (events_since s (ads1292_start_read_data_continuous env cs s)
        = [Event.write_pin (to_uint8 cs) false, Event.delay 2,
           Event.write_pin (to_uint8 cs) true, Event.delay 2,
           Event.write_pin (to_uint8 cs) false, Event.delay 2,
           Event.spi 0x10 (spi_byte env s 0), Event.delay 2,
           Event.write_pin (to_uint8 cs) true]
      ∧ spi_count (events_since s (ads1292_start_read_data_continuous env cs s)) = 1
      ∧ pin_write_count (events_since s (ads1292_start_read_data_continuous env cs s)) = 4
      ∧ delay_total (events_since s (ads1292_start_read_data_continuous env cs s)) = 8)
    ∧ (events_since s (ads1292_stop_read_data_continuous env cs s)
        = [Event.write_pin (to_uint8 cs) false, Event.delay 2,
           Event.write_pin (to_uint8 cs) true, Event.delay 2,
           Event.write_pin (to_uint8 cs) false, Event.delay 2,
           Event.spi 0x11 (spi_byte env s 0), Event.delay 2,
           Event.write_pin (to_uint8 cs) true]
      ∧ spi_count (events_since s (ads1292_stop_read_data_continuous env cs s)) = 1
      ∧ pin_write_count (events_since s (ads1292_stop_read_data_continuous env cs s)) = 4
      ∧ delay_total (events_since s (ads1292_stop_read_data_continuous env cs s)) = 8) := by
  have key : ∀ op, op < 256 →
      events_since s (ads1292_spi_command_data env op cs s)
        = command_events (to_uint8 cs) op (spi_byte env s 0) := by
    intro op hop
    rw [events_since_append s _ _ (ads1292_spi_command_data_trace env op cs s),
      Nat.mod_eq_of_lt hop]
  refine ⟨?_, ?_, ?_, ?_⟩
  · unfold ads1292_start_data_conv_command
    rw [key ADS1292_CMD_START (by decide)]
    exact ⟨rfl, rfl, rfl, rfl⟩
  · unfold ads1292_soft_stop
    rw [key ADS1292_CMD_STOP (by decide)]
    exact ⟨rfl, rfl, rfl, rfl⟩
  · unfold ads1292_start_read_data_continuous
    rw [key ADS1292_CMD_RDATAC (by decide)]
    exact ⟨rfl, rfl, rfl, rfl⟩
  · unfold ads1292_stop_read_data_continuous
    rw [key ADS1292_CMD_SDATAC (by decide)]
    exact ⟨rfl, rfl, rfl, rfl⟩

/-! ## Cost and ordering of the initialisation -/

theorem delay_total_append (l1 l2 : List Event) :
    delay_total (l1 ++ l2) = delay_total l1 + delay_total l2 := by
  induction l1 with
  | nil => simp [delay_total]
  | cons e es ih => cases e <;> simp [delay_total, ih, Nat.add_assoc]

theorem spi_count_append (l1 l2 : List Event) :
    spi_count (l1 ++ l2) = spi_count l1 + spi_count l2 := by
  induction l1 with
  | nil => simp [spi_count]
  | cons e es ih =>
    cases e <;> simp [spi_count, ih]
    omega

theorem delay_total_command_events (cs op rx : Nat) :
    delay_total (command_events cs op rx) = 8 := rfl

theorem delay_total_reg_read_events (cs op rx0 rx1 rx2 : Nat) :
    delay_total (reg_read_events cs op rx0 rx1 rx2) = 8 := rfl

theorem delay_total_reg_write_events (cs op v rx0 rx1 rx2 : Nat) :
    delay_total (reg_write_events cs op v rx0 rx1 rx2) = 8 := rfl

theorem spi_count_command_events (cs op rx : Nat) :
    spi_count (command_events cs op rx) = 1 := rfl

theorem spi_count_reg_read_events (cs op rx0 rx1 rx2 : Nat) :
    spi_count (reg_read_events cs op rx0 rx1 rx2) = 3 := rfl

theorem spi_count_reg_write_events (cs op v rx0 rx1 rx2 : Nat) :
    spi_count (reg_write_events cs op v rx0 rx1 rx2) = 3 := rfl

theorem delay_total_delay_cons (ms : Nat) (es : List Event) :
    delay_total (Event.delay ms :: es) = ms + delay_total es := rfl

theorem delay_total_write_pin_cons (p : Nat) (b : Bool) (es : List Event) :
    delay_total (Event.write_pin p b :: es) = delay_total es := rfl

theorem delay_total_nil : delay_total [] = 0 := rfl

theorem spi_count_delay_cons (ms : Nat) (es : List Event) :
    spi_count (Event.delay ms :: es) = spi_count es := rfl

theorem spi_count_write_pin_cons (p : Nat) (b : Bool) (es : List Event) :
    spi_count (Event.write_pin p b :: es) = spi_count es := rfl

theorem spi_count_nil : spi_count [] = 0 := rfl

theorem delay_total_init_id_phase (env : Env) (s : St) (cs pwdn start : Nat) :
    delay_total (init_id_phase env s cs pwdn start) = 922 := by
  unfold init_id_phase init_preamble
  simp only [delay_total_append, delay_total_command_events, delay_total_reg_read_events,
    delay_total_delay_cons, delay_total_write_pin_cons, delay_total_nil]

theorem delay_total_init_config_phase (env : Env) (s : St) (cs start : Nat) :
    delay_total (init_config_phase env s cs start) = 200 := by
  unfold init_config_phase
  simp only [delay_total_append, delay_total_command_events, delay_total_reg_write_events,
    delay_total_delay_cons, delay_total_write_pin_cons, delay_total_nil]

theorem spi_count_init_id_phase (env : Env) (s : St) (cs pwdn start : Nat) :
    spi_count (init_id_phase env s cs pwdn start) = 6 := by
  unfold init_id_phase init_preamble
  simp only [spi_count_append, spi_count_command_events, spi_count_reg_read_events,
    spi_count_delay_cons, spi_count_write_pin_cons, spi_count_nil]

theorem spi_count_init_config_phase (env : Env) (s : St) (cs start : Nat) :
    spi_count (init_config_phase env s cs start) = 28 := by
  unfold init_config_phase
  simp only [spi_count_append, spi_count_command_events, spi_count_reg_write_events,
    spi_count_delay_cons, spi_count_write_pin_cons, spi_count_nil]

theorem ads1292_init_events (env : Env) (cs pwdn start : Int) (s : St) :
    events_since s (ads1292_init env cs pwdn start s).2
      = if spi_byte env s 5 = 0x73 then
          init_id_phase env s (to_uint8 cs) (to_uint8 pwdn) (to_uint8 start)
            ++ init_config_phase env s (to_uint8 cs) (to_uint8 start)
        else init_id_phase env s (to_uint8 cs) (to_uint8 pwdn) (to_uint8 start) := by
  by_cases hid : spi_byte env s 5 = 0x73
  · rw [if_pos hid]
    apply events_since_append
    rw [ads1292_init_match_eq env cs pwdn start s hid]
  · rw [if_neg hid]
    apply events_since_append
    rw [ads1292_init_mismatch_eq env cs pwdn start s hid]

/-- C28: the total blocking delay requested by one call of `ads1292_init` depends on
the outcome only: 1122 ms and 34 SPI transfers when the device ID matches, 922 ms and
6 SPI transfers when it does not. -/
theorem ads1292_init_cost (env : Env) (cs pwdn start : Int) (s : St) :
    delay_total (events_since s (ads1292_init env cs pwdn start s).2)
        = (if spi_byte env s 5 = 0x73 then 1122 else 922)
    ∧ spi_count (events_since s (ads1292_init env cs pwdn start s).2)
        = (if spi_byte env s 5 = 0x73 then 34 else 6)
    ∧ (ads1292_init env cs pwdn start s).2.n_spi
        = s.n_spi + (if spi_byte env s 5 = 0x73 then 34 else 6)
    ∧ ((ads1292_init env cs pwdn start s).1 = base_status_t.BS_OK
        ↔ spi_byte env s 5 = 0x73) := by
  rw [ads1292_init_events]
  by_cases hid : spi_byte env s 5 = 0x73
  · simp only [if_pos hid]
    rw [delay_total_append, spi_count_append, delay_total_init_id_phase,
      delay_total_init_config_phase, spi_count_init_id_phase, spi_count_init_config_phase,
      ads1292_init_match_eq env cs pwdn start s hid]
    exact ⟨rfl, rfl, rfl, fun _ => hid, fun _ => rfl⟩
  · simp only [if_neg hid]
    rw [delay_total_init_id_phase, spi_count_init_id_phase,
      ads1292_init_mismatch_eq env cs pwdn start s hid]
    refine ⟨rfl, rfl, rfl, fun h => ?_, fun h => absurd h hid⟩
    exact base_status_t.noConfusion h

/-- C21: in every run of `ads1292_init`, register access happens only while the
device is out of continuous-read mode: the call first sends the commands 0x08 and
0x0A, then the command 0x11 followed by 300 ms, then the register read and (when the
ID matches) the nine register writes, and only then the command 0x10, which is the
last byte it transfers; on an ID mismatch 0x10 is not sent. -/
theorem ads1292_init_register_access_window (env : Env) (cs pwdn start : Int) (s : St) :
    (∃ pre,
        tx_bytes pre = [0x08, 0x0A]
        ∧ events_since s (ads1292_init env cs pwdn start s).2
          = if spi_byte env s 5 = 0x73 then
              pre
              ++ (command_events (to_uint8 cs) 0x11 (spi_byte env s 2) ++ [Event.delay 300])
              ++ (reg_read_events (to_uint8 cs) 0x20 (spi_byte env s 3) (spi_byte env s 4)
                    (spi_byte env s 5)
                  ++ List.flatten (List.map
                       (fun w : Nat × Nat × Nat =>
                          reg_write_events (to_uint8 cs) (w.1 ||| 0x40) w.2.1
                            (spi_byte env s w.2.2) (spi_byte env s (w.2.2 + 1))
                            (spi_byte env s (w.2.2 + 2))
                          ++ [Event.delay 10])
                       [(1, 0x00, 6), (2, 0xA0, 9), (3, 0x10, 12), (4, 0x40, 15),
                        (5, 0x60, 18), (6, 0x2C, 21), (7, 0x00, 24), (9, 0xF2, 27),
                        (10, 0x03, 30)]))
              ++ (command_events (to_uint8 cs) 0x10 (spi_byte env s 33)
                  ++ [Event.delay 10, Event.write_pin (to_uint8 start) true, Event.delay 20])
            else
              pre
              ++ (command_events (to_uint8 cs) 0x11 (spi_byte env s 2) ++ [Event.delay 300])
              ++ reg_read_events (to_uint8 cs) 0x20 (spi_byte env s 3) (spi_byte env s 4)
                    (spi_byte env s 5))
    ∧ wire_ops (tx_bytes (events_since s (ads1292_init env cs pwdn start s).2))
        = (if spi_byte env s 5 = 0x73 then
            [WireOp.command 0x08, WireOp.command 0x0A, WireOp.command 0x11, WireOp.rreg 0,
             WireOp.wreg 1 0x00, WireOp.wreg 2 0xA0, WireOp.wreg 3 0x10, WireOp.wreg 4 0x40,
             WireOp.wreg 5 0x60, WireOp.wreg 6 0x2C, WireOp.wreg 7 0x00, WireOp.wreg 9 0xF2,
             WireOp.wreg 10 0x03, WireOp.command 0x10]
           else
            [WireOp.command 0x08, WireOp.command 0x0A, WireOp.command 0x11, WireOp.rreg 0])
    ∧ (tx_bytes (events_since s (ads1292_init env cs pwdn start s).2)).getLast?
        = (if spi_byte env s 5 = 0x73 then some 0x10 else some 0x00) := by
  have htx1 := tx_bytes_init_id_phase env s (to_uint8 cs) (to_uint8 pwdn) (to_uint8 start)
  have htx2 := tx_bytes_init_config_phase env s (to_uint8 cs) (to_uint8 start)
  rw [ads1292_init_events]
  refine ⟨⟨[Event.write_pin (to_uint8 pwdn) true, Event.delay 100,
            Event.write_pin (to_uint8 pwdn) false, Event.delay 100,
            Event.write_pin (to_uint8 pwdn) true, Event.delay 100,
            Event.delay 100,
            Event.write_pin (to_uint8 start) false, Event.delay 20,
            Event.write_pin (to_uint8 start) true, Event.delay 20,
            Event.write_pin (to_uint8 start) false, Event.delay 100]
           ++ command_events (to_uint8 cs) 0x08 (spi_byte env s 0)
           ++ command_events (to_uint8 cs) 0x0A (spi_byte env s 1)
           ++ [Event.delay 50], ?_, ?_⟩, ?_, ?_⟩
  · simp only [tx_bytes_append, tx_bytes_command_events, tx_bytes_delay_cons,
      tx_bytes_write_pin_cons, tx_bytes_nil]
    rfl
  · by_cases hid : spi_byte env s 5 = 0x73
    · simp only [if_pos hid]
      simp only [init_id_phase, init_preamble, init_config_phase, List.flatten, List.map,
        List.append_assoc, List.append_nil]
      rfl
    · simp only [if_neg hid]
      simp only [init_id_phase, init_preamble, List.append_assoc]
      rfl
  · by_cases hid : spi_byte env s 5 = 0x73
    · simp only [if_pos hid]
      rw [tx_bytes_append, htx1, htx2]
      decide
    · simp only [if_neg hid]
      rw [htx1]
      decide
  · by_cases hid : spi_byte env s 5 = 0x73
    · simp only [if_pos hid]
      rw [tx_bytes_append, htx1, htx2]
      decide
    · simp only [if_neg hid]
      rw [htx1]
      decide

/-! ## Buffers, frame effect and `char` signedness -/

theorem Reachable.no_fault {s : St} (h : Reachable s) : s.mem_fault = false := by
  induction h with
  | boot => rfl
  | init env cs pwdn start s _ ih =>
    by_cases hid : spi_byte env s 5 = 0x73
    · rw [ads1292_init_match_eq env cs pwdn start s hid]; exact ih
    · rw [ads1292_init_mismatch_eq env cs pwdn start s hid]; exact ih
  | sample env dr cs ds s hr ih =>
    cases hpin : env.gpio_level s.n_pin (to_uint8 dr)
    · rw [sample_ready_eq env dr cs ds s hpin hr.wf]; exact ih
    · rw [sample_not_ready_eq env dr cs ds s hpin]; exact ih

theorem frame_buf_tail (env : Env) (s : St) (k : Nat) (h9 : 9 ≤ k) (h15 : k < 15) :
    (frame_buf env s).getD k 0 = env.stack_init k % 256 := by
  unfold frame_buf
  rw [range_9]
  interval_cases k <;> rfl

theorem frame_buf_length (env : Env) (s : St) : (frame_buf env s).length = 15 := by
  simp [frame_buf]

theorem decoder_reads_first_nine (buf1 buf2 : List Nat)
    (h : ∀ k, k < 9 → buf1.getD k 0 = buf2.getD k 0) :
    sample_decode_group buf1 3 = sample_decode_group buf2 3
    ∧ sample_decode_group buf1 6 = sample_decode_group buf2 6
    ∧ sample_lead_status buf1 = sample_lead_status buf2
    ∧ sample_result_temp_resp buf1 = sample_result_temp_resp buf2 := by
  unfold sample_decode_group sample_lead_status sample_result_temp_resp
  simp only [Nat.reduceAdd, Nat.add_zero]
  rw [h 0 (by decide), h 1 (by decide), h 2 (by decide), h 3 (by decide), h 4 (by decide),
    h 5 (by decide), h 6 (by decide), h 7 (by decide), h 8 (by decide)]
  exact ⟨rfl, rfl, rfl, rfl⟩

/-- C24: over every sequence of ready and not-ready calls, the static rolling counter
`spi_rx_buf_cnt` is 0 at the entry and at the exit of every call and no array is
indexed out of bounds; a frame read leaves the counter of the copy loop at 9, writes
elements 0..8 of the 15-element receive buffer (elements 9..14 keep their previous
content) and elements 0..8 of the 10-element dummy buffer (element 9 keeps its
content); the decoder reads elements 0..8 only, all written in the same call. -/
theorem static_counter_and_buffer_bounds (env : Env) (dr cs : Int)
    (ds : ads1292_output_value_t) (s : St) (hr : Reachable s) :
    (s.spi_rx_buf_cnt = 0 ∧ s.mem_fault = false ∧ s.spi_dummy_buf.length = 10)
    ∧ ((ads1292_get_ecg_and_respiration_sample env dr cs ds s).2.2.spi_rx_buf_cnt = 0
      ∧ (ads1292_get_ecg_and_respiration_sample env dr cs ds s).2.2.mem_fault = false
      ∧ (ads1292_get_ecg_and_respiration_sample env dr cs ds s).2.2.spi_dummy_buf.length = 10)
    ∧ (env.gpio_level s.n_pin (to_uint8 dr) = false →
        sample_copy_loop env (ads1292_read_data env cs (platform_read_pin env dr s).2)
            = (frame_buf env s, 9, false)
        ∧ (frame_buf env s).length = 15
        ∧ (∀ k, k < 9 → (frame_buf env s).getD k 0 = spi_byte env s k)
        ∧ (∀ k, 9 ≤ k → k < 15 → (frame_buf env s).getD k 0 = env.stack_init k % 256)
        ∧ (∀ k, k < 9 →
            (ads1292_get_ecg_and_respiration_sample env dr cs ds s).2.2.spi_dummy_buf.getD k 0
              = to_char env (spi_byte env s k))
        ∧ (ads1292_get_ecg_and_respiration_sample env dr cs ds s).2.2.spi_dummy_buf.getD 9 0
            = s.spi_dummy_buf.getD 9 0)
    ∧ (∀ buf1 buf2 : List Nat, (∀ k, k < 9 → buf1.getD k 0 = buf2.getD k 0) →
        sample_decode_group buf1 3 = sample_decode_group buf2 3
        ∧ sample_decode_group buf1 6 = sample_decode_group buf2 6
        ∧ sample_lead_status buf1 = sample_lead_status buf2
        ∧ sample_result_temp_resp buf1 = sample_result_temp_resp buf2) := by
  have hr2 : Reachable (ads1292_get_ecg_and_respiration_sample env dr cs ds s).2.2 :=
    Reachable.sample env dr cs ds s hr
  refine ⟨⟨hr.wf.1, hr.no_fault, hr.wf.2⟩, ⟨hr2.wf.1, hr2.no_fault, hr2.wf.2⟩, ?_,
    decoder_reads_first_nine⟩
  intro hpin
  have hwf2 : (platform_read_pin env dr s).2.wf := hr.wf
  have hf : frame_buf env (platform_read_pin env dr s).2 = frame_buf env s := rfl
  have hfault : (platform_read_pin env dr s).2.mem_fault = false := hr.no_fault
  refine ⟨?_, frame_buf_length env s, frame_buf_getD env s, frame_buf_tail env s, ?_, ?_⟩
  · rw [sample_copy_loop_eq env cs _ hwf2, hf, hfault]
  · intro k hk
    rw [sample_ready_eq env dr cs ds s hpin hr.wf]
    simp only [range_9]
    interval_cases k <;> rfl
  · rw [sample_ready_eq env dr cs ds s hpin hr.wf]
    simp [range_9]

/-- Witness of C24: the state after one frame read at power-up. -/
theorem static_counter_and_buffer_bounds_witness :
    Reachable (ads1292_get_ecg_and_respiration_sample
        (scripted_env true false [1, 2, 3, 4, 5, 6, 7, 8, 9])
        IO_AFE_DRDY IO_AFE_CS sample_record_0 St.boot).2.2
    ∧ (ads1292_get_ecg_and_respiration_sample
        (scripted_env true false [1, 2, 3, 4, 5, 6, 7, 8, 9])
        IO_AFE_DRDY IO_AFE_CS sample_record_0 St.boot).2.2.spi_rx_buf_cnt = 0 :=
  ⟨Reachable.sample _ _ _ _ _ Reachable.boot,
   (static_counter_and_buffer_bounds (scripted_env true false [1, 2, 3, 4, 5, 6, 7, 8, 9])
      IO_AFE_DRDY IO_AFE_CS sample_record_0
      (ads1292_get_ecg_and_respiration_sample
        (scripted_env true false [1, 2, 3, 4, 5, 6, 7, 8, 9])
        IO_AFE_DRDY IO_AFE_CS sample_record_0 St.boot).2.2
      (Reachable.sample _ _ _ _ _ Reachable.boot)).1.1⟩

/-- C26: `ads1292_get_ecg_and_respiration_sample` changes the caller's record only as
follows: on the not-ready path no field is written; on a frame read `daq_vals[0]`,
`daq_vals[1]`, `result_temp_resp` and `lead_off_detected` are written and
`daq_vals[2..7]` keep their previous values. -/
theorem sample_frame_effect (env : Env) (dr cs : Int) (ds : ads1292_output_value_t) (s : St)
    (hwf : s.wf) :
    (env.gpio_level s.n_pin (to_uint8 dr) = true →
        (ads1292_get_ecg_and_respiration_sample env dr cs ds s).2.1 = ds)
    ∧ (env.gpio_level s.n_pin (to_uint8 dr) = false →
        (ads1292_get_ecg_and_respiration_sample env dr cs ds s).2.1
          = { daq_vals := (ds.daq_vals.set 0 (sample_decode_group (frame_buf env s) 3)).set 1
                            (sample_decode_group (frame_buf env s) 6),
              lead_off_detected := decide (sample_lead_status (frame_buf env s) &&& 0x1f ≠ 0),
              result_temp_resp := sample_result_temp_resp (frame_buf env s) }
        ∧ (ads1292_get_ecg_and_respiration_sample env dr cs ds s).2.1.daq_vals.length
            = ds.daq_vals.length
        ∧ (∀ k, 2 ≤ k →
            (ads1292_get_ecg_and_respiration_sample env dr cs ds s).2.1.daq_vals.get? k
              = ds.daq_vals.get? k)) := by
  refine ⟨?_, ?_⟩
  · intro hpin
    rw [sample_not_ready_eq env dr cs ds s hpin]
  · intro hpin
    rw [sample_ready_eq env dr cs ds s hpin hwf]
    refine ⟨rfl, by simp, ?_⟩
    intro k hk
    simp only [List.get?_eq_getElem?]
    rw [List.getElem?_set_ne (by omega), List.getElem?_set_ne (by omega)]

/-- Witness of C26: a frame read at power-up into a record holding 11..18 leaves
slots 2..7 at 13..18. -/
theorem sample_frame_effect_witness :
    St.boot.wf
    ∧ (ads1292_get_ecg_and_respiration_sample
        (scripted_env false false [0, 0, 0, 0, 0, 1, 0xFF, 0xFF, 0xFF])
        IO_AFE_DRDY IO_AFE_CS sample_record_0 St.boot).2.1.daq_vals.get? 7 = some 18 :=
  ⟨⟨rfl, rfl⟩,
   ((sample_frame_effect (scripted_env false false [0, 0, 0, 0, 0, 1, 0xFF, 0xFF, 0xFF])
      IO_AFE_DRDY IO_AFE_CS sample_record_0 St.boot ⟨rfl, rfl⟩).2 rfl).2.2 7 (by decide)⟩

/-- C27: the decoded sample does not depend on the signedness of plain `char`: a
received byte of 128..255 is stored in the `char` buffer as -128..-1 when `char` is
signed and as itself when it is unsigned, and for every frame both embeddings return
the same status and the same record (`daq_vals`, `result_temp_resp`,
`lead_off_detected`). -/
theorem sample_char_signedness_irrelevant (env : Env) (dr cs : Int)
    (ds : ads1292_output_value_t) (s : St) (hwf : s.wf) :
    (ads1292_get_ecg_and_respiration_sample { env with char_signed := true } dr cs ds s).1
        = (ads1292_get_ecg_and_respiration_sample { env with char_signed := false } dr cs ds s).1
    ∧ (ads1292_get_ecg_and_respiration_sample { env with char_signed := true } dr cs ds s).2.1
        = (ads1292_get_ecg_and_respiration_sample { env with char_signed := false } dr cs ds s).2.1
    ∧ (∀ b, 128 ≤ b → b < 256 →
        to_char { env with char_signed := true } b = (b : Int) - 256
        ∧ to_char { env with char_signed := false } b = (b : Int))
    ∧ (∀ b, b < 256 →
        to_uint8 (to_char { env with char_signed := true } b) = b
        ∧ to_uint8 (to_char { env with char_signed := false } b) = b) := by
  refine ⟨?_, ?_, ?_, ?_⟩
  · cases hpin : env.gpio_level s.n_pin (to_uint8 dr)
    · rw [sample_ready_eq { env with char_signed := true } dr cs ds s hpin hwf,
        sample_ready_eq { env with char_signed := false } dr cs ds s hpin hwf]
    · rw [sample_not_ready_eq { env with char_signed := true } dr cs ds s hpin,
        sample_not_ready_eq { env with char_signed := false } dr cs ds s hpin]
  · cases hpin : env.gpio_level s.n_pin (to_uint8 dr)
    · rw [sample_ready_eq { env with char_signed := true } dr cs ds s hpin hwf,
        sample_ready_eq { env with char_signed := false } dr cs ds s hpin hwf]
      rfl
    · rw [sample_not_ready_eq { env with char_signed := true } dr cs ds s hpin,
        sample_not_ready_eq { env with char_signed := false } dr cs ds s hpin]
  · intro b h1 h2
    unfold to_char
    simp only [Bool.true_and, Bool.false_and, decide_eq_true_eq]
    refine ⟨?_, ?_⟩
    · rw [if_pos (by omega)]; omega
    · simp only [Bool.false_eq_true, if_false]; omega
  · intro b hb
    rw [to_uint8_to_char, to_uint8_to_char]
    exact ⟨Nat.mod_eq_of_lt hb, Nat.mod_eq_of_lt hb⟩

/-- Witness of C27: the frame `FF 80 00 | 80 00 01 | FF FF FF` read at power-up. -/
theorem sample_char_signedness_irrelevant_witness :
    St.boot.wf
    ∧ (ads1292_get_ecg_and_respiration_sample
        { scripted_env false false [0xFF, 0x80, 0, 0x80, 0, 1, 0xFF, 0xFF, 0xFF]
            with char_signed := true }
        IO_AFE_DRDY IO_AFE_CS sample_record_0 St.boot).2.1
      = (ads1292_get_ecg_and_respiration_sample
        { scripted_env false false [0xFF, 0x80, 0, 0x80, 0, 1, 0xFF, 0xFF, 0xFF]
            with char_signed := false }
        IO_AFE_DRDY IO_AFE_CS sample_record_0 St.boot).2.1 :=
  ⟨⟨rfl, rfl⟩,
   (sample_char_signedness_irrelevant
      (scripted_env false false [0xFF, 0x80, 0, 0x80, 0, 1, 0xFF, 0xFF, 0xFF])
      IO_AFE_DRDY IO_AFE_CS sample_record_0 St.boot ⟨rfl, rfl⟩).2.1⟩

/-! ## Wave buffers of `bsp_afe_get_ecg` -/

theorem ecg_values_init_length (afe : AfeEnv) : (ecg_values_init afe).daq_vals.length = 8 := by
  simp [ecg_values_init]

theorem twos_complement_24_bounds (b0 b1 b2 : Nat) (h0 : b0 < 256) (h1 : b1 < 256)
    (h2 : b2 < 256) :
    -8388608 ≤ twos_complement_24 b0 b1 b2 ∧ twos_complement_24 b0 b1 b2 ≤ 8388607 := by
  unfold twos_complement_24
  split <;> omega

theorem to_int16_of_bounds (x : Int) (h1 : -32768 ≤ x) (h2 : x ≤ 32767) : to_int16 x = x := by
  unfold to_int16
  omega

theorem bsp_afe_get_ecg_ready (env : Env) (afe : AfeEnv) (ecg_data : Int) (g : AfeSt)
    (hpin : env.gpio_level g.drv.n_pin (to_uint8 IO_AFE_DRDY) = false) (hwf : g.drv.wf) :
    (ads1292_get_ecg_and_respiration_sample env IO_AFE_DRDY IO_AFE_CS (ecg_values_init afe)
        g.drv).1 = base_status_t.BS_OK
    ∧ (bsp_afe_get_ecg env afe ecg_data g).1 = base_status_t.BS_OK
    ∧ (bsp_afe_get_ecg env afe ecg_data g).2.2.ecg_wave_buf
        = to_int16 (twos_complement_24 (spi_byte env g.drv 6) (spi_byte env g.drv 7)
            (spi_byte env g.drv 8) >>> (8 : Nat))
    ∧ (bsp_afe_get_ecg env afe ecg_data g).2.2.res_wave_buf
        = to_int16 ((256 * twos_complement_24 (spi_byte env g.drv 3) (spi_byte env g.drv 4)
            (spi_byte env g.drv 5)) >>> (8 : Nat)) := by
  have hv := sample_ready_values env IO_AFE_DRDY IO_AFE_CS (ecg_values_init afe) g.drv hpin hwf
    (ecg_values_init_length afe)
  refine ⟨hv.1, ?_, ?_, ?_⟩
  · unfold bsp_afe_get_ecg
    simp only [hv.1, if_true]
  · unfold bsp_afe_get_ecg
    simp only [hv.1, if_true, hv.2.2.1]
    split <;> rfl
  · unfold bsp_afe_get_ecg
    simp only [hv.1, if_true, hv.2.2.2.1]
    split <;> rfl

/-- C22, the code at the failing input: for a frame whose respiration bytes are
`01 00 00` (respiration value 65536, whose top 16 bits are 256) `bsp_afe_get_ecg`
leaves 0 in `res_wave_buf`, the low 16 bits of the value, while the same bytes in
the ECG group give 256 in `ecg_wave_buf`; for respiration bytes `80 00 01` (value
-8388607, top 16 bits -32768) it leaves 1. -/
theorem bsp_afe_get_ecg_res_wave_buf_low_bits :
    (bsp_afe_get_ecg (scripted_env false false [0, 0, 0, 0x01, 0x00, 0x00, 0x01, 0x00, 0x00])
        afe_env_0 7 AfeSt.boot).1 = base_status_t.BS_OK
    ∧ (bsp_afe_get_ecg (scripted_env false false [0, 0, 0, 0x01, 0x00, 0x00, 0x01, 0x00, 0x00])
        afe_env_0 7 AfeSt.boot).2.2.res_wave_buf = 0
    ∧ twos_complement_24 0x01 0x00 0x00 / 256 = 256
    ∧ (bsp_afe_get_ecg (scripted_env false false [0, 0, 0, 0x01, 0x00, 0x00, 0x01, 0x00, 0x00])
        afe_env_0 7 AfeSt.boot).2.2.ecg_wave_buf = 256
    ∧ (bsp_afe_get_ecg (scripted_env false false [0, 0, 0, 0x80, 0x00, 0x01, 0, 0, 0])
        afe_env_0 7 AfeSt.boot).2.2.res_wave_buf = 1
    ∧ twos_complement_24 0x80 0x00 0x01 / 256 = -32768 := by
  refine ⟨by decide, by decide, by decide, by decide, by decide, by decide⟩

/-- C23: for every frame on which the sample succeeds, `bsp_afe_get_ecg` sets
`ecg_wave_buf` to the ECG sample with its lower 8 bits ignored: it equals
`daq_vals[1] / 256` rounded down, which lies in -32768..32767, so the conversion to
`int16_t` changes nothing. -/
theorem bsp_afe_get_ecg_ecg_wave_buf (env : Env) (afe : AfeEnv) (ecg_data : Int) (g : AfeSt)
    (hpin : env.gpio_level g.drv.n_pin (to_uint8 IO_AFE_DRDY) = false) (hwf : g.drv.wf) :
    (bsp_afe_get_ecg env afe ecg_data g).1 = base_status_t.BS_OK
    ∧ (bsp_afe_get_ecg env afe ecg_data g).2.2.ecg_wave_buf
        = (ads1292_get_ecg_and_respiration_sample env IO_AFE_DRDY IO_AFE_CS
            (ecg_values_init afe) g.drv).2.1.daq_vals.getD 1 0 / 256
    ∧ (bsp_afe_get_ecg env afe ecg_data g).2.2.ecg_wave_buf
        = twos_complement_24 (spi_byte env g.drv 6) (spi_byte env g.drv 7)
            (spi_byte env g.drv 8) / 256
    ∧ -32768 ≤ (ads1292_get_ecg_and_respiration_sample env IO_AFE_DRDY IO_AFE_CS
            (ecg_values_init afe) g.drv).2.1.daq_vals.getD 1 0 / 256
    ∧ (ads1292_get_ecg_and_respiration_sample env IO_AFE_DRDY IO_AFE_CS
            (ecg_values_init afe) g.drv).2.1.daq_vals.getD 1 0 / 256 ≤ 32767
    ∧ to_int16 ((ads1292_get_ecg_and_respiration_sample env IO_AFE_DRDY IO_AFE_CS
            (ecg_values_init afe) g.drv).2.1.daq_vals.getD 1 0 >>> (8 : Nat))
        = (ads1292_get_ecg_and_respiration_sample env IO_AFE_DRDY IO_AFE_CS
            (ecg_values_init afe) g.drv).2.1.daq_vals.getD 1 0 >>> (8 : Nat) := by
  have hv := sample_ready_values env IO_AFE_DRDY IO_AFE_CS (ecg_values_init afe) g.drv hpin hwf
    (ecg_values_init_length afe)
  have hr := bsp_afe_get_ecg_ready env afe ecg_data g hpin hwf
  have hb := twos_complement_24_bounds _ _ _ (spi_byte_lt env g.drv 6) (spi_byte_lt env g.drv 7)
    (spi_byte_lt env g.drv 8)
  rw [hv.2.2.1, hr.2.2.1, shiftRight_8_eq_div]
  generalize twos_complement_24 (spi_byte env g.drv 6) (spi_byte env g.drv 7)
    (spi_byte env g.drv 8) = d at *
  have h1 : -32768 ≤ d / 256 := by omega
  have h2 : d / 256 ≤ 32767 := by omega
  exact ⟨hr.2.1, to_int16_of_bounds _ h1 h2, to_int16_of_bounds _ h1 h2, h1, h2,
    to_int16_of_bounds _ h1 h2⟩

/-- Witness of C23: the ECG group `80 00 01` read at power-up gives -32768. -/
theorem bsp_afe_get_ecg_ecg_wave_buf_witness :
    ((scripted_env false false [0, 0, 0, 0, 0, 0, 0x80, 0x00, 0x01]).gpio_level
        AfeSt.boot.drv.n_pin (to_uint8 IO_AFE_DRDY) = false ∧ AfeSt.boot.drv.wf)
    ∧ (bsp_afe_get_ecg (scripted_env false false [0, 0, 0, 0, 0, 0, 0x80, 0x00, 0x01])
        afe_env_0 7 AfeSt.boot).2.2.ecg_wave_buf = -32768 :=
  ⟨⟨rfl, rfl, rfl⟩,
   (bsp_afe_get_ecg_ecg_wave_buf (scripted_env false false [0, 0, 0, 0, 0, 0, 0x80, 0x00, 0x01])
      afe_env_0 7 AfeSt.boot rfl ⟨rfl, rfl⟩).2.2.1.trans (by decide)⟩

/-- C25: when the sample succeeds and lead-off is detected, `bsp_afe_get_ecg` stores 0
in `*ecg_data`, makes no call into the signal-processing library and returns `BS_OK`,
whatever the ECG bytes are; when the device is not ready it leaves `*ecg_data`,
`ecg_wave_buf` and `res_wave_buf` unchanged and returns the status of the sample call,
which is not `BS_OK`. -/
theorem bsp_afe_get_ecg_lead_off_and_not_ready (env : Env) (afe : AfeEnv) (ecg_data : Int)
    (g : AfeSt) (hwf : g.drv.wf) :
    (env.gpio_level g.drv.n_pin (to_uint8 IO_AFE_DRDY) = false →
      (spi_byte env g.drv 0 &&& 0x0F ≠ 0 ∨ spi_byte env g.drv 1 &&& 0x80 ≠ 0) →
        (bsp_afe_get_ecg env afe ecg_data g).1 = base_status_t.BS_OK
        ∧ (bsp_afe_get_ecg env afe ecg_data g).2.1 = 0
        ∧ (bsp_afe_get_ecg env afe ecg_data g).2.2.ecg_filter_out = 0
        ∧ (bsp_afe_get_ecg env afe ecg_data g).2.2.algo_calls = g.algo_calls
        ∧ (bsp_afe_get_ecg env afe ecg_data g).2.2.global_heart_rate = g.global_heart_rate)
    ∧ (env.gpio_level g.drv.n_pin (to_uint8 IO_AFE_DRDY) = true →
        (bsp_afe_get_ecg env afe ecg_data g).1
          = (ads1292_get_ecg_and_respiration_sample env IO_AFE_DRDY IO_AFE_CS
              (ecg_values_init afe) g.drv).1
        ∧ (bsp_afe_get_ecg env afe ecg_data g).1 ≠ base_status_t.BS_OK
        ∧ (bsp_afe_get_ecg env afe ecg_data g).2.1 = ecg_data
        ∧ (bsp_afe_get_ecg env afe ecg_data g).2.2.ecg_wave_buf = g.ecg_wave_buf
        ∧ (bsp_afe_get_ecg env afe ecg_data g).2.2.res_wave_buf = g.res_wave_buf
        ∧ (bsp_afe_get_ecg env afe ecg_data g).2.2.algo_calls = g.algo_calls) := by
  refine ⟨?_, ?_⟩
  · intro hpin hbits
    have hv := sample_ready_values env IO_AFE_DRDY IO_AFE_CS (ecg_values_init afe) g.drv hpin hwf
      (ecg_values_init_length afe)
    have hlead : (ads1292_get_ecg_and_respiration_sample env IO_AFE_DRDY IO_AFE_CS
        (ecg_values_init afe) g.drv).2.1.lead_off_detected = true := by
      rw [hv.2.2.2.2]
      exact decide_eq_true hbits
    unfold bsp_afe_get_ecg
    simp only [hv.1, if_true, hlead, Bool.true_eq_false, if_false]
    exact ⟨trivial, trivial, trivial, trivial, trivial⟩
  · intro hpin
    have hs := sample_not_ready_eq env IO_AFE_DRDY IO_AFE_CS (ecg_values_init afe) g.drv hpin
    have hne : base_status_t.BS_ERROR ≠ base_status_t.BS_OK := fun h =>
      base_status_t.noConfusion h
    unfold bsp_afe_get_ecg
    simp only [hs, hne, if_false]
    exact ⟨trivial, hne, trivial, trivial, trivial, trivial⟩

/-- Witness of C25: at power-up, a frame with status bytes `00 80 00` (lead-off). -/
theorem bsp_afe_get_ecg_lead_off_and_not_ready_witness :
    AfeSt.boot.drv.wf
    ∧ (bsp_afe_get_ecg (scripted_env false false [0x00, 0x80, 0x00, 1, 2, 3, 4, 5, 6])
        afe_env_0 7 AfeSt.boot).2.1 = 0 :=
  ⟨⟨rfl, rfl⟩,
   ((bsp_afe_get_ecg_lead_off_and_not_ready
      (scripted_env false false [0x00, 0x80, 0x00, 1, 2, 3, 4, 5, 6])
      afe_env_0 7 AfeSt.boot ⟨rfl, rfl⟩).1 rfl (Or.inr (by decide))).2.1⟩

/-! ## Chip-select of the flash driver -/

theorem m_w25n01_transfer_deasserts (env : FlashEnv) (tx_data : List Nat) (len : Nat)
    (s : FlashSt) :
    flash_last_gpio_write IO_FLASH_CS (m_w25n01_transfer env tx_data len s).2.2.trace
      = some 1 := by
  have happ : ∀ (l : List FlashEvent),
      flash_last_gpio_write IO_FLASH_CS (l ++ [FlashEvent.gpio_write IO_FLASH_CS 1]) = some 1 := by
    intro l
    induction l with
    | nil => simp [flash_last_gpio_write]
    | cons e es ih =>
      cases e with
      | gpio_write p st =>
        show (match flash_last_gpio_write IO_FLASH_CS
            (es ++ [FlashEvent.gpio_write IO_FLASH_CS 1]) with
          | some l => some l
          | none => if p = IO_FLASH_CS then some st else none) = some 1
        rw [ih]
      | spi_transfer tx n st => exact ih
  unfold m_w25n01_transfer w25n01_gpio_write
  exact happ _

/-- C29, the code at the failing input: when the transfer of the command bytes (or of
the data) fails, `w25n01_load_program_data` returns `BS_ERROR` with the last state
written to `IO_FLASH_CS` being 0, and so does `w25n01_read_data` when its first
transfer fails; the operations built on `m_w25n01_transfer` (here `w25n01_block_erase`
and `w25n01_init`) write 1 last on the same failures. -/
theorem w25n01_chip_select_left_low :
    (w25n01_load_program_data (scripted_flash_env [true, false]) 0
        [1, 2, 3, 4, 5, 6, 7, 8, 9, 0] 10 FlashSt.boot).map (fun r => r.1)
      = some base_status_t.BS_ERROR
    ∧ (w25n01_load_program_data (scripted_flash_env [true, false]) 0
        [1, 2, 3, 4, 5, 6, 7, 8, 9, 0] 10 FlashSt.boot).map
          (fun r => flash_last_gpio_write IO_FLASH_CS r.2.trace)
      = some (some 0)
    ∧ (w25n01_load_program_data (scripted_flash_env [true, true, false]) 0
        [1, 2, 3, 4, 5, 6, 7, 8, 9, 0] 10 FlashSt.boot).map
          (fun r => flash_last_gpio_write IO_FLASH_CS r.2.trace)
      = some (some 0)
    ∧ (w25n01_read_data (scripted_flash_env [false]) 0
        [0, 0, 0, 0, 0, 0, 0, 0, 0, 0] 10 FlashSt.boot).map (fun r => r.1)
      = some base_status_t.BS_ERROR
    ∧ (w25n01_read_data (scripted_flash_env [false]) 0
        [0, 0, 0, 0, 0, 0, 0, 0, 0, 0] 10 FlashSt.boot).map
          (fun r => flash_last_gpio_write IO_FLASH_CS r.2.2.trace)
      = some (some 0)
    ∧ (w25n01_read_data (scripted_flash_env [true, false]) 0
        [0, 0, 0, 0, 0, 0, 0, 0, 0, 0] 10 FlashSt.boot).map
          (fun r => flash_last_gpio_write IO_FLASH_CS r.2.2.trace)
      = some (some 0)
    ∧ (w25n01_block_erase (scripted_flash_env [true, false]) 0 FlashSt.boot).map
          (fun r => (r.1, flash_last_gpio_write IO_FLASH_CS r.2.trace))
      = some (base_status_t.BS_ERROR, some 1)
    ∧ flash_last_gpio_write IO_FLASH_CS
        (w25n01_init (scripted_flash_env [false]) FlashSt.boot).2.trace = some 1
    ∧ (w25n01_load_program_data (scripted_flash_env []) 0
        [1, 2, 3, 4, 5, 6, 7, 8, 9, 0] 10 FlashSt.boot).map
          (fun r => (r.1, flash_last_gpio_write IO_FLASH_CS r.2.trace))
      = some (base_status_t.BS_OK, some 1) := by
  refine ⟨by decide, by decide, by decide, by decide, by decide, by decide, by decide,
    by decide, by decide⟩

/-! ## Data-ready test of the motion sensor driver -/

/-- C30, the code at the failing input: with both I2C reads succeeding and the
INT_STATUS byte 0x02, whose bit 0 is clear, `mpu9250_get_accel_raw_data` reads the six
data registers, overwrites `accel.raw_data` and returns `BS_OK`; only the status byte
0x00 gives `BS_ERROR` with no second read and the raw data unchanged. -/
theorem mpu9250_get_accel_raw_data_status_test :
    (0x02 : Nat) &&& 0x01 = 0
    ∧ (mpu9250_get_accel_raw_data
        (scripted_i2c_env 0x02 [0x12, 0x34, 0xFF, 0xFE, 0x80, 0x00]) MpuSt.boot).1
      = base_status_t.BS_OK
    ∧ (mpu9250_get_accel_raw_data
        (scripted_i2c_env 0x02 [0x12, 0x34, 0xFF, 0xFE, 0x80, 0x00]) MpuSt.boot).2.trace
      = [I2cEvent.i2c_read 0x68 MPU9250_REG_INT_STATUS 1 0,
         I2cEvent.i2c_read 0x68 MPU9250_REG_ACCEL_XOUT_H 6 0]
    ∧ (mpu9250_get_accel_raw_data
        (scripted_i2c_env 0x02 [0x12, 0x34, 0xFF, 0xFE, 0x80, 0x00]) MpuSt.boot).2.accel_raw_data
      = { x := 4660, y := -2, z := -32768 }
    ∧ MpuSt.boot.accel_raw_data = { x := 1, y := 2, z := 3 }
    ∧ (mpu9250_get_accel_raw_data
        (scripted_i2c_env 0x00 [0x12, 0x34, 0xFF, 0xFE, 0x80, 0x00]) MpuSt.boot).1
      = base_status_t.BS_ERROR
    ∧ (mpu9250_get_accel_raw_data
        (scripted_i2c_env 0x00 [0x12, 0x34, 0xFF, 0xFE, 0x80, 0x00]) MpuSt.boot).2.trace
      = [I2cEvent.i2c_read 0x68 MPU9250_REG_INT_STATUS 1 0]
    ∧ (mpu9250_get_accel_raw_data
        (scripted_i2c_env 0x00 [0x12, 0x34, 0xFF, 0xFE, 0x80, 0x00]) MpuSt.boot).2.accel_raw_data
      = { x := 1, y := 2, z := 3 }
    ∧ (mpu9250_get_accel_raw_data
        (scripted_i2c_env 0x01 [0x12, 0x34, 0xFF, 0xFE, 0x80, 0x00]) MpuSt.boot).1
      = base_status_t.BS_OK := by
  refine ⟨by decide, by decide, by decide, by decide, by decide, by decide, by decide,
    by decide, by decide⟩

end Ads1292
